import Mathlib

/-!
# Verification of the QMD Obsidian plugin search and chunking layer

Shallow embedding of the plugin's pure computational core:

* `src/search/fts-search.ts` — BM25 score normalization and the FTS search
  error handling (`FTSSearcher`);
* `src/search/vector-search.ts` — cosine distance/similarity conversions and
  the vector search entry guards (`VectorSearcher`);
* `src/search/hybrid-search.ts` — Reciprocal Rank Fusion (`rrfFusion`) and the
  hybrid search fallback logic (`HybridSearcher.search`);
* `src/embeddings/chunker.ts` — token estimation and document chunking
  (`DocumentChunker`).

JavaScript numbers are modelled as exact rationals (`ℚ`); the float formulas
involved (`1/(k+r)`, `x*1.3`, `x*0.15`, `(s-min)/range*100`, …) are modelled by
their exact rational counterparts.  JavaScript strings are modelled as lists of
UTF-16 code units (`List Nat`), which is the unit the source's regexes and
index arithmetic operate on.
-/

namespace QMD

/-! ## UTF-16 strings -/

/-- Encode one Unicode scalar value as its UTF-16 code units
(one unit in the BMP, a surrogate pair above it). -/
def encodeChar (c : Char) : List Nat :=
  if c.val.toNat < 0x10000 then [c.val.toNat]
  else [0xD800 + (c.val.toNat - 0x10000) / 0x400,
        0xDC00 + (c.val.toNat - 0x10000) % 0x400]

/-- A JavaScript string as its UTF-16 code-unit sequence. -/
def strUnits (s : String) : List Nat :=
  s.data.flatMap encodeChar

/-- JavaScript `\s` (and `String.prototype.trim`) character class:
whitespace and line terminators. -/
def isSpaceUnit (u : Nat) : Bool :=
  u = 0x09 || u = 0x0A || u = 0x0B || u = 0x0C || u = 0x0D || u = 0x20 ||
  u = 0xA0 || u = 0x1680 || (0x2000 ≤ u && u ≤ 0x200A) ||
  u = 0x2028 || u = 0x2029 || u = 0x202F || u = 0x205F || u = 0x3000 ||
  u = 0xFEFF

/-- JavaScript `\w` character class: `[A-Za-z0-9_]`. -/
def isWordAscii (u : Nat) : Bool :=
  (0x30 ≤ u && u ≤ 0x39) || (0x41 ≤ u && u ≤ 0x5A) ||
  (0x61 ≤ u && u ≤ 0x7A) || u = 0x5F

/-- The CJK ranges used by the chunker's regexes:
hiragana, katakana, CJK unified ideographs, hangul syllables. -/
def isCJKUnit (u : Nat) : Bool :=
  (0x3040 ≤ u && u ≤ 0x309F) || (0x30A0 ≤ u && u ≤ 0x30FF) ||
  (0x4E00 ≤ u && u ≤ 0x9FAF) || (0xAC00 ≤ u && u ≤ 0xD7AF)

/-- `String.prototype.trim`: drop `\s` units from both ends. -/
def trimUnits (s : List Nat) : List Nat :=
  ((s.dropWhile isSpaceUnit).reverse.dropWhile isSpaceUnit).reverse

/-! ## `src/search/fts-search.ts` — BM25 score conversions -/

/-- `FTSSearcher.normalizeBM25Score`:
`score = (1 / (1 + |bm25_score|)) * 100`. -/
def normalizeBM25Score (bm25Score : ℚ) : ℚ :=
  let absScore := |bm25Score|
  (1 / (1 + absScore)) * 100

/-- `FTSSearcher.denormalizeToBM25`: inverse conversion used for score
thresholds.  The `normalizedScore <= 0` branch returns JavaScript `Infinity`;
it is modelled as `none`, the in-range branches as `some`. -/
def denormalizeToBM25 (normalizedScore : ℚ) : Option ℚ :=
  if normalizedScore ≤ 0 then none
  else if 100 ≤ normalizedScore then some 0
  else some (100 / normalizedScore - 1)

/-! ## `src/search/vector-search.ts` — distance/similarity conversions -/

/-- `VectorSearcher.distanceToSimilarity`:
clamp the cosine distance to `[0, 2]`, then `(1 - d/2) * 100`. -/
def distanceToSimilarity (distance : ℚ) : ℚ :=
  let clampedDistance := max 0 (min 2 distance)
  (1 - clampedDistance / 2) * 100

/-- `VectorSearcher.similarityToDistance`:
clamp the similarity to `[0, 100]`, then `2 * (1 - s/100)`. -/
def similarityToDistance (similarity : ℚ) : ℚ :=
  let clampedSimilarity := max 0 (min 100 similarity)
  2 * (1 - clampedSimilarity / 100)

/-! ## `src/search/hybrid-search.ts` — Reciprocal Rank Fusion -/

/-- A row of `FTSSearcher.search` results (`SearchResult`),
as consumed by `rrfFusion`. -/
structure SearchResult where
  hash : List Nat
  title : List Nat
  content : List Nat
  path : List Nat
  score : ℚ
  snippet : List Nat
  rank : Nat
  deriving Repr, DecidableEq

/-- A row of `VectorSearcher.search` results (`VectorSearchResult`),
as consumed by `rrfFusion`. -/
structure VectorSearchResult where
  hash : List Nat
  title : List Nat
  content : List Nat
  path : List Nat
  similarity : ℚ
  distance : ℚ
  rank : Nat
  deriving Repr, DecidableEq

/-- An entry of the `scoreMap` accumulator inside `rrfFusion`. -/
structure FusedEntry where
  hash : List Nat
  title : List Nat
  content : List Nat
  path : List Nat
  rrfScore : ℚ
  bm25Score : Option ℚ := none
  similarity : Option ℚ := none
  bm25Rank : Option Nat := none
  vectorRank : Option Nat := none
  snippet : List Nat
  deriving Repr, DecidableEq

/-- A final `HybridSearchResult`. -/
structure HybridSearchResult where
  hash : List Nat
  title : List Nat
  content : List Nat
  path : List Nat
  rrfScore : ℚ
  normalizedScore : ℚ
  bm25Score : Option ℚ := none
  similarity : Option ℚ := none
  bm25Rank : Option Nat := none
  vectorRank : Option Nat := none
  rank : Nat
  snippet : List Nat
  deriving Repr, DecidableEq

/-- `HybridSearcher.createSnippet`: truncate content to 200 code units,
appending `"..."` when truncated. -/
def createSnippet (content : List Nat) : List Nat :=
  if content.length ≤ 200 then content
  else content.take 200 ++ strUnits "..."

/-- `Map.prototype.set`: replace the value at an existing key in place,
otherwise append the new binding (JavaScript `Map`s preserve insertion
order). -/
def mapSet (key : List Nat) (e : FusedEntry) : List FusedEntry → List FusedEntry
  | [] => [e]
  | x :: xs => if x.hash = key then e :: xs else x :: mapSet key e xs

/-- The entry created for a BM25 result at 1-based rank `rank`
(first `forEach` of `rrfFusion`). -/
def mkBM25Entry (k : ℚ) (rank : Nat) (r : SearchResult) : FusedEntry :=
  { hash := r.hash
    title := r.title
    content := r.content
    path := r.path
    rrfScore := 1 / (k + rank)
    bm25Score := some r.score
    bm25Rank := some rank
    snippet := if r.snippet = [] then createSnippet r.content else r.snippet }

/-- The entry created for a vector-only result at 1-based rank `rank`
(second `forEach` of `rrfFusion`, `else` branch). -/
def mkVectorEntry (k : ℚ) (rank : Nat) (r : VectorSearchResult) : FusedEntry :=
  { hash := r.hash
    title := r.title
    content := r.content
    path := r.path
    rrfScore := 1 / (k + rank)
    similarity := some r.similarity
    vectorRank := some rank
    snippet := createSnippet r.content }

/-- The in-place update applied when a vector result's hash is already in
the score map: accumulate the RRF contribution and record the vector
metadata. -/
def applyVectorUpdate (k : ℚ) (rank : Nat) (r : VectorSearchResult)
    (e : FusedEntry) : FusedEntry :=
  { e with
    rrfScore := e.rrfScore + 1 / (k + rank)
    similarity := some r.similarity
    vectorRank := some rank }

/-- One step of the second `forEach` of `rrfFusion`: if the hash is present,
mutate the existing entry, otherwise append a vector-only entry. -/
def vectorStep (k : ℚ) (m : List FusedEntry) (rank : Nat)
    (r : VectorSearchResult) : List FusedEntry :=
  if m.any (fun e => e.hash = r.hash) then
    m.map (fun e => if e.hash = r.hash then applyVectorUpdate k rank r e else e)
  else
    m ++ [mkVectorEntry k rank r]

/-- The first `forEach` of `rrfFusion`: walk the BM25 results with their
1-based rank, `Map.set`-ting an entry per result. -/
def processBM25 (k : ℚ) : Nat → List SearchResult → List FusedEntry → List FusedEntry
  | _, [], m => m
  | rank, r :: rs, m => processBM25 k (rank + 1) rs (mapSet r.hash (mkBM25Entry k rank r) m)

/-- The second `forEach` of `rrfFusion`: walk the vector results with their
1-based rank, accumulating into the score map. -/
def processVector (k : ℚ) : Nat → List VectorSearchResult → List FusedEntry → List FusedEntry
  | _, [], m => m
  | rank, r :: rs, m => processVector k (rank + 1) rs (vectorStep k m rank r)

/-- The score map after both `forEach` passes of `rrfFusion`. -/
def buildScoreMap (bm25Results : List SearchResult)
    (vectorResults : List VectorSearchResult) (k : ℚ) : List FusedEntry :=
  processVector k 1 vectorResults (processBM25 k 1 bm25Results [])

/-- Stable insertion used to model `Array.prototype.sort` with comparator
`(a, b) => b.rrfScore - a.rrfScore`: an element moves ahead only of entries
with strictly smaller score, so equal scores keep insertion order. -/
def insertByScore (x : FusedEntry) : List FusedEntry → List FusedEntry
  | [] => [x]
  | y :: ys => if y.rrfScore < x.rrfScore then x :: y :: ys else y :: insertByScore x ys

/-- Stable sort of the fused entries by `rrfScore` descending. -/
def sortByScoreDesc (l : List FusedEntry) : List FusedEntry :=
  l.foldl (fun acc x => insertByScore x acc) []

/-- The final `map` of `rrfFusion`: attach normalized score and 1-based
final rank to each sorted entry. -/
def finalize (minScore scoreRange : ℚ) : Nat → List FusedEntry → List HybridSearchResult
  | _, [] => []
  | rank, e :: es =>
    { hash := e.hash
      title := e.title
      content := e.content
      path := e.path
      rrfScore := e.rrfScore
      normalizedScore := (e.rrfScore - minScore) / scoreRange * 100
      bm25Score := e.bm25Score
      similarity := e.similarity
      bm25Rank := e.bm25Rank
      vectorRank := e.vectorRank
      rank := rank
      snippet := e.snippet } :: finalize minScore scoreRange (rank + 1) es

/-- `HybridSearcher.rrfFusion`: accumulate RRF contributions per document,
sort descending by fused score, and normalize to a 0–100 display scale with
`maxScore = fused[0]?.rrfScore || 1`, `minScore = fused[last]?.rrfScore || 0`,
`scoreRange = maxScore - minScore || 1`.  (The `|| 0` on `minScore` is the
identity whenever the entry exists, since `x || 0` differs from `x` only at
falsy `x`, i.e. `0`.) -/
def rrfFusion (bm25Results : List SearchResult)
    (vectorResults : List VectorSearchResult) (k : ℚ) : List HybridSearchResult :=
  let fusedResults := sortByScoreDesc (buildScoreMap bm25Results vectorResults k)
  let maxScore : ℚ := match fusedResults.head? with
    | some r => if r.rrfScore = 0 then 1 else r.rrfScore
    | none => 1
  let minScore : ℚ := match fusedResults.getLast? with
    | some r => r.rrfScore
    | none => 0
  let scoreRange : ℚ := if maxScore - minScore = 0 then 1 else maxScore - minScore
  finalize minScore scoreRange 1 fusedResults

/-! ### Spec-side rank and contribution functions (for the R R F claims) -/

/-- 1-based position of the first BM25 result with the given hash, counting
from `rank`. -/
def bmRankFrom : Nat → List SearchResult → List Nat → Option Nat
  | _, [], _ => none
  | rank, r :: rs, h => if r.hash = h then some rank else bmRankFrom (rank + 1) rs h

/-- 1-based position of the first vector result with the given hash, counting
from `rank`. -/
def vecRankFrom : Nat → List VectorSearchResult → List Nat → Option Nat
  | _, [], _ => none
  | rank, r :: rs, h => if r.hash = h then some rank else vecRankFrom (rank + 1) rs h

/-- 1-based rank of a document in the BM25 candidate list (`none` when the
document does not appear). -/
def bm25RankOf (l : List SearchResult) (h : List Nat) : Option Nat :=
  bmRankFrom 1 l h

/-- 1-based rank of a document in the vector candidate list (`none` when the
document does not appear). -/
def vectorRankOf (l : List VectorSearchResult) (h : List Nat) : Option Nat :=
  vecRankFrom 1 l h

/-- RRF contribution of one candidate list: `1 / (k + rank)` when the document
appears at that rank, `0` when it is absent. -/
def rrfContribution (k : ℚ) : Option Nat → ℚ
  | some rank => 1 / (k + rank)
  | none => 0

/-! ### Closed forms for the two `forEach` passes (proof-internal) -/

/-- Closed form of the first pass: one BM25 entry per result, in order,
with 1-based ranks counting from `rank`. -/
def bm25Entries (k : ℚ) : Nat → List SearchResult → List FusedEntry
  | _, [] => []
  | rank, r :: rs => mkBM25Entry k rank r :: bm25Entries k (rank + 1) rs

/-- Closed form of the update an entry receives from the vector pass: the
contribution of the first vector result sharing its hash, if any. -/
def updWithV (k : ℚ) : Nat → List VectorSearchResult → FusedEntry → FusedEntry
  | _, [], e => e
  | rank, r :: rs, e =>
    if r.hash = e.hash then applyVectorUpdate k rank r e
    else updWithV k (rank + 1) rs e

/-- Closed form of the entries appended by the vector pass: vector results
whose hash is absent from the score map `m`. -/
def vecOnly (k : ℚ) : Nat → List VectorSearchResult → List FusedEntry → List FusedEntry
  | _, [], _ => []
  | rank, r :: rs, m =>
    if m.any (fun e => e.hash = r.hash) then vecOnly k (rank + 1) rs m
    else mkVectorEntry k rank r :: vecOnly k (rank + 1) rs m

/-- Concrete BM25 candidate list used by the fusion witnesses. -/
def wBM25 : List SearchResult :=
  [{ hash := [1], title := [], content := [], path := [], score := -3, snippet := [], rank := 1 },
   { hash := [2], title := [], content := [], path := [], score := -2, snippet := [], rank := 2 }]

/-- Concrete vector candidate list used by the fusion witnesses. -/
def wVec : List VectorSearchResult :=
  [{ hash := [1], title := [], content := [], path := [], similarity := 90, distance := 1/5, rank := 1 },
   { hash := [3], title := [], content := [], path := [], similarity := 80, distance := 2/5, rank := 2 }]

/-! ## `src/search/fts-search.ts` — `FTSSearcher` query flow -/

/-- `SearchError.code` values. -/
inductive SearchErrorCode where
  | DB_NOT_INITIALIZED
  | INVALID_QUERY
  | QUERY_ERROR
  deriving Repr, DecidableEq

/-- ASCII lower-casing of a UTF-16 unit, modelling the `/i` regex flag for
the ASCII patterns involved. -/
def lowerUnit (u : Nat) : Nat :=
  if 0x41 ≤ u ∧ u ≤ 0x5A then u + 0x20 else u

/-- `String.prototype.includes`: does `pat` occur as a contiguous
subsequence of `l`? -/
def containsSub (pat : List Nat) : List Nat → Bool
  | [] => decide (pat = [])
  | u :: rest => decide ((u :: rest).take pat.length = pat) || containsSub pat rest

/-- Case-insensitive substring test (`pat` given in lower case). -/
def containsCI (pat q : List Nat) : Bool :=
  containsSub (pat.map lowerUnit) (q.map lowerUnit)

/-- Does `q` start with the word `w` (case-insensitive) followed by
whitespace or the end of the string? -/
def startsWithBoolWord (w : String) (q : List Nat) : Bool :=
  let wu := strUnits w
  decide ((q.map lowerUnit).take wu.length = wu) &&
    (match q.drop wu.length with
     | [] => true
     | u :: _ => isSpaceUnit u)

/-- Does `q` start with one of the boolean operators `AND`, `OR`, `NOT`
(case-insensitive, delimited on the right)? -/
def boolOpAt (q : List Nat) : Bool :=
  startsWithBoolWord "and" q || startsWithBoolWord "or" q ||
    startsWithBoolWord "not" q

/-- Is there a whitespace-preceded boolean operator anywhere in `q`? -/
def hasBoolOpAfterSpace : List Nat → Bool
  | [] => false
  | u :: rest => (isSpaceUnit u && boolOpAt rest) || hasBoolOpAfterSpace rest

/-- `FTS5_EXPLICIT_SYNTAX` test:
`/["*?]|(?:^|\s)(AND|OR|NOT)(?:\s|$)|(?:title|content):/i`. -/
def hasExplicitSyntax (q : List Nat) : Bool :=
  q.any (fun u => u = 0x22 || u = 0x2A || u = 0x3F) ||
  (boolOpAt q || hasBoolOpAfterSpace q) ||
  containsCI (strUnits "title:") q || containsCI (strUnits "content:") q

mutual

/-- `.replace(/\s+/g, ' ')`: collapse every whitespace run to one space. -/
def collapseSpaces : List Nat → List Nat
  | [] => []
  | u :: rest =>
    if isSpaceUnit u then 0x20 :: skipSpaces rest
    else u :: collapseSpaces rest

/-- Skip the remainder of a whitespace run already emitted as one space. -/
def skipSpaces : List Nat → List Nat
  | [] => []
  | u :: rest =>
    if isSpaceUnit u then skipSpaces rest
    else u :: collapseSpaces rest

end

/-- `FTS5_SPECIAL_CHARS = /[(){}^:\-]/`. -/
def isFTS5Special (u : Nat) : Bool :=
  u = 0x28 || u = 0x29 || u = 0x7B || u = 0x7D || u = 0x5E || u = 0x3A || u = 0x2D

/-- `FTSSearcher.sanitizeFTS5Query`. -/
def sanitizeFTS5Query (query : List Nat) : List Nat :=
  let sanitized := trimUnits query
  if sanitized = [] then []
  else if hasExplicitSyntax sanitized then sanitized
  else
    trimUnits (collapseSpaces
      (((sanitized.flatMap (fun u => if u = 0x22 then [0x22, 0x22] else [u])).map
        (fun u => if isFTS5Special u then 0x20 else u))))

/-- A row returned by the FTS5 SQL query: document columns, the raw
`bm25(documents_fts)` score, and (for the snippet variant) the `snippet(...)`
column, which JavaScript sees as string-or-null. -/
structure FTSRow where
  hash : List Nat
  title : List Nat
  content : List Nat
  path : List Nat
  bm25Score : ℚ
  snippet : Option (List Nat)
  deriving Repr, DecidableEq

/-- The row-reading loop of `FTSSearcher.search`: normalized score, empty
snippet, 1-based rank. -/
def ftsRows : Nat → List FTSRow → List SearchResult
  | _, [] => []
  | rank, row :: rest =>
    { hash := row.hash
      title := row.title
      content := row.content
      path := row.path
      score := normalizeBM25Score row.bm25Score
      snippet := []
      rank := rank } :: ftsRows (rank + 1) rest

/-- The row-reading loop of `FTSSearcher.searchWithSnippets`:
`(row[5] as string) || ''`. -/
def ftsSnippetRows : Nat → List FTSRow → List SearchResult
  | _, [] => []
  | rank, row :: rest =>
    { hash := row.hash
      title := row.title
      content := row.content
      path := row.path
      score := normalizeBM25Score row.bm25Score
      snippet := row.snippet.getD []
      rank := rank } :: ftsSnippetRows (rank + 1) rest

/-- The outcome of running the SQL statement against the engine: either
rows, or a thrown error carrying its message. -/
abbrev EngineOutcome := Except (List Nat) (List FTSRow)

/-- `FTSSearcher.search`: guard on initialization, return `[]` for an empty
sanitized query, map rows on success; on an engine error, return `[]` when
the message contains `'fts5'`, otherwise a typed `QUERY_ERROR`. -/
def ftsSearch (initialized : Bool) (query : List Nat)
    (engineOutcome : EngineOutcome) : Except SearchErrorCode (List SearchResult) :=
  if !initialized then .error .DB_NOT_INITIALIZED
  else
    let sanitizedQuery := sanitizeFTS5Query query
    if sanitizedQuery = [] then .ok []
    else
      match engineOutcome with
      | .ok rows => .ok (ftsRows 1 rows)
      | .error msg =>
        if containsSub (strUnits "fts5") msg then .ok []
        else .error .QUERY_ERROR

/-- `FTSSearcher.searchWithSnippets`: identical guard and error handling,
with snippet-carrying rows. -/
def ftsSearchWithSnippets (initialized : Bool) (query : List Nat)
    (engineOutcome : EngineOutcome) : Except SearchErrorCode (List SearchResult) :=
  if !initialized then .error .DB_NOT_INITIALIZED
  else
    let sanitizedQuery := sanitizeFTS5Query query
    if sanitizedQuery = [] then .ok []
    else
      match engineOutcome with
      | .ok rows => .ok (ftsSnippetRows 1 rows)
      | .error msg =>
        if containsSub (strUnits "fts5") msg then .ok []
        else .error .QUERY_ERROR

/-- Modelled from the spec: "the underlying engine reports the full-text
index object does not exist".  SQLite reports a missing table object with
the message `no such table: <name>`; the FTS index object here is the
`documents_fts` virtual table. -/
def specIndexMissing (msg : List Nat) : Bool :=
  containsSub (strUnits "no such table: documents_fts") msg

/-! ## `src/search/vector-search.ts` — `VectorSearcher.search` guards -/

/-- `VectorSearchError.code` values. -/
inductive VectorSearchErrorCode where
  | DB_NOT_INITIALIZED
  | EMBEDDER_NOT_AVAILABLE
  | INVALID_EMBEDDING
  | QUERY_ERROR
  | DIMENSION_MISMATCH
  deriving Repr, DecidableEq

/-- `VectorSearcher.search` entry guards: initialization check, then the
empty/whitespace-query early return, then the embedder availability check;
`rest` is the remainder of the method (embedding generation and the KNN
query, with its `catch` mapping already applied). -/
def vectorSearch (initialized : Bool) (query : List Nat)
    (embedderAvailable : Bool)
    (rest : Except VectorSearchErrorCode (List VectorSearchResult)) :
    Except VectorSearchErrorCode (List VectorSearchResult) :=
  if !initialized then .error .DB_NOT_INITIALIZED
  else if trimUnits query = [] then .ok []
  else if !embedderAvailable then .error .EMBEDDER_NOT_AVAILABLE
  else rest

/-! ## `src/search/hybrid-search.ts` — `HybridSearcher.search` flow -/

/-- `FallbackStrategy`. -/
inductive FallbackStrategy where
  | fail
  | graceful
  deriving Repr, DecidableEq

/-- `HybridSearchError.code` values. -/
inductive HybridSearchErrorCode where
  | SEARCHER_NOT_INITIALIZED
  | ALL_SEARCHES_FAILED
  | INVALID_OPTIONS
  | NO_RESULTS
  deriving Repr, DecidableEq

/-- A failure escaping `HybridSearcher.search`: either its own typed error
or an error re-thrown from a branch searcher (under the `fail` strategy). -/
inductive HybridFailure (ε : Type) where
  | hybrid (code : HybridSearchErrorCode)
  | branch (e : ε)
  deriving Repr

/-- `HybridSearcher.executeBM25Search`: try the FTS branch; on error,
re-throw under `fail`, else swallow it and report `null`. -/
def executeBM25Search {ε : Type} (strategy : FallbackStrategy)
    (outcome : Except ε (List SearchResult)) :
    Except ε (Option (List SearchResult)) :=
  match outcome with
  | .ok rs => .ok (some rs)
  | .error e => match strategy with
    | .fail => .error e
    | .graceful => .ok none

/-- `HybridSearcher.executeVectorSearch`: same shape for the vector branch. -/
def executeVectorSearch {ε : Type} (strategy : FallbackStrategy)
    (outcome : Except ε (List VectorSearchResult)) :
    Except ε (Option (List VectorSearchResult)) :=
  match outcome with
  | .ok rs => .ok (some rs)
  | .error e => match strategy with
    | .fail => .error e
    | .graceful => .ok none

/-- JavaScript `list && list.length > 0` on a nullable result array. -/
def hasResults {α : Type} : Option (List α) → Bool
  | some l => decide (0 < l.length)
  | none => false

/-- `HybridSearcher.search` after option destructuring: validate options,
run the two (possibly disabled) branches, fall back or fail when both are
empty, fuse, apply the `minScore` filter on normalized scores, and truncate
to `limit`.  `bm25Outcome`/`vectorOutcome` are the results or thrown errors
of the two underlying searchers; when both branches throw under `fail`, the
promise that rejects first wins — this model resolves that race in favour of
the BM25 branch. -/
def hybridSearch {ε : Type} (strategy : FallbackStrategy)
    (enableBM25 enableVector : Bool)
    (bm25Outcome : Except ε (List SearchResult))
    (vectorOutcome : Except ε (List VectorSearchResult))
    (rrfK : ℚ) (limit : Nat) (minScore : Option ℚ) :
    Except (HybridFailure ε) (List HybridSearchResult) :=
  if !enableBM25 && !enableVector then .error (.hybrid .INVALID_OPTIONS)
  else if rrfK ≤ 0 then .error (.hybrid .INVALID_OPTIONS)
  else
    let bm25Branch := if enableBM25 then executeBM25Search strategy bm25Outcome
                      else .ok none
    let vectorBranch := if enableVector then executeVectorSearch strategy vectorOutcome
                        else .ok none
    match bm25Branch, vectorBranch with
    | .error e, _ => .error (.branch e)
    | .ok _, .error e => .error (.branch e)
    | .ok bm25Results, .ok vectorResults =>
      if !hasResults bm25Results && !hasResults vectorResults then
        match strategy with
        | .fail => .error (.hybrid .NO_RESULTS)
        | .graceful => .ok []
      else
        let hybridResults : List HybridSearchResult :=
          rrfFusion (bm25Results.getD []) (vectorResults.getD []) rrfK
        let filteredResults : List HybridSearchResult := match minScore with
          | some ms => hybridResults.filter (fun r => ms ≤ r.normalizedScore)
          | none => hybridResults
        .ok (filteredResults.take limit)

/-! ## `src/embeddings/chunker.ts` — `DocumentChunker` -/

/-- Count of maximal runs of units satisfying `p` (a `match(/[...]+/g)`
count).  `inRun` records whether the previous unit was in a run. -/
def countRuns (p : Nat → Bool) : List Nat → Bool → Nat
  | [], _ => 0
  | u :: rest, inRun =>
    if p u then (if inRun then 0 else 1) + countRuns p rest true
    else countRuns p rest false

/-- `text.match(/[\w\u3040-\u309F\u30A0-\u30FF\u4E00-\u9FAF\uAC00-\uD7AF]+/g)`
count: maximal runs of word or CJK units. -/
def wordRunCount (text : List Nat) : Nat :=
  countRuns (fun u => isWordAscii u || isCJKUnit u) text false

/-- `text.match(/[\u3040-...]/g)` count: CJK units. -/
def cjkUnitCount (text : List Nat) : Nat :=
  (text.filter isCJKUnit).length

/-- `text.match(/[^\w\s\u3040-...]/g)` count: units that are neither word,
whitespace nor CJK (surrogate halves of astral characters each count,
matching the UTF-16 behaviour of the regex). -/
def punctUnitCount (text : List Nat) : Nat :=
  (text.filter (fun u => !isWordAscii u && !isSpaceUnit u && !isCJKUnit u)).length

/-- `DocumentChunker.estimateTokenCount`.  The arithmetic is encoded over
`ℕ`: `englishWordCount = wordCount - min(wordCount, cjkCount/2)` is the
half-integer `twiceEnglishWordCount / 2`, `Math.ceil(x * 1.3)` of the
half-integer `n/2` is `(13*n + 19) / 20`, and `Math.ceil(p * 0.5)` is
`(p+1)/2`; the theorem `estimate_token_count_formula` proves this equal to
the exact ceiling formula over `ℚ`. -/
def estimateTokenCount (text : List Nat) : Nat :=
  if text = [] then 0
  else
    let wordCount := wordRunCount text
    let punctuationCount := punctUnitCount text
    let cjkCount := cjkUnitCount text
    let twiceEnglishWordCount := 2 * wordCount - min (2 * wordCount) cjkCount
    let englishTokens := (13 * twiceEnglishWordCount + 19) / 20
    englishTokens + cjkCount + (punctuationCount + 1) / 2

/-- The formula the claim states: `words_non_cjk` as the count of word-like
runs that are not CJK (runs of plain `\w` units; the `\w` and CJK classes
are disjoint), each CJK character one token, excluded from the word
multiplier. -/
def specEstimateTokenCount (text : List Nat) : ℤ :=
  ⌈(countRuns isWordAscii text false : ℚ) * 1.3⌉ + cjkUnitCount text +
    ⌈(punctUnitCount text : ℚ) * 0.5⌉

/-- Index (0-based) of the last line-feed unit of a list, if any. -/
def lastNlIdx : List Nat → Option Nat
  | [] => none
  | u :: rest =>
    match lastNlIdx rest with
    | some j => some (j + 1)
    | none => if u = 0x0A then some 0 else none

/-- `text.split(/\n\s*\n/)`: a separator starts at a line feed and, after
greedy backtracking, ends at the last line feed of the following whitespace
run.  `mode 0`: normal scanning with piece `cur` (reversed); `mode 1`: inside
the whitespace run after a first line feed with no second one yet, the run
consumed so far in `pending` (reversed); `mode 2`: separator confirmed, with
whitespace after its last line feed in `pending` (it belongs to the next
piece). -/
def splitParasGo : List Nat → Nat → List Nat → List Nat → List (List Nat)
  | [], 0, cur, _ => [cur.reverse]
  | [], 1, cur, pending => [(pending ++ cur).reverse]
  | [], _, cur, pending => [cur.reverse, pending.reverse]
  | u :: rest, 0, cur, _ =>
    if u = 0x0A then splitParasGo rest 1 cur [u]
    else splitParasGo rest 0 (u :: cur) []
  | u :: rest, 1, cur, pending =>
    if u = 0x0A then splitParasGo rest 2 cur []
    else if isSpaceUnit u then splitParasGo rest 1 cur (u :: pending)
    else splitParasGo rest 0 (u :: (pending ++ cur)) []
  | u :: rest, _, cur, pending =>
    if u = 0x0A then splitParasGo rest 2 cur []
    else if isSpaceUnit u then splitParasGo rest 2 cur (u :: pending)
    else cur.reverse :: splitParasGo rest 0 (u :: pending) []

/-- Paragraph split of `splitIntoSentences`. -/
def splitParas (text : List Nat) : List (List Nat) :=
  splitParasGo text 0 [] []

/-- The sentence-start lookahead class `[A-Z0-9\u4E00-\u9FAF\uAC00-\uD7AF"]`. -/
def isSentStart (u : Nat) : Bool :=
  (0x41 ≤ u && u ≤ 0x5A) || (0x30 ≤ u && u ≤ 0x39) ||
  (0x4E00 ≤ u && u ≤ 0x9FAF) || (0xAC00 ≤ u && u ≤ 0xD7AF) || u = 0x22

/-- The sentence-end lookbehind class `[.!?]`. -/
def isSentEnd (u : Nat) : Bool :=
  u = 0x2E || u = 0x21 || u = 0x3F

mutual

/-- `para.split(/(?<=[.!?])(?:\s+)(?=[A-Z0-9...])/)`: a split point follows
a sentence-end unit, consumes a non-empty whitespace run, and requires a
sentence-start unit right after it. -/
def splitSentGo : List Nat → List Nat → List (List Nat)
  | [], cur => [cur.reverse]
  | u :: rest, cur =>
    if isSentEnd u then sentRun rest (u :: cur) []
    else splitSentGo rest (u :: cur)

/-- Scanning the whitespace run after a sentence-end unit; `pending` holds
the consumed run units (reversed); a split happens at a sentence-start unit
after a non-empty run. -/
def sentRun : List Nat → List Nat → List Nat → List (List Nat)
  | [], cur, pending => [(pending ++ cur).reverse]
  | u :: rest, cur, pending =>
    if isSpaceUnit u then sentRun rest cur (u :: pending)
    else if decide (pending ≠ []) && isSentStart u then
      cur.reverse :: splitSentGo rest [u]
    else if isSentEnd u then sentRun rest (u :: (pending ++ cur)) []
    else splitSentGo rest (u :: (pending ++ cur))

end

/-- Sentence-part split of one paragraph. -/
def splitSentParts (para : List Nat) : List (List Nat) :=
  splitSentGo para []

mutual

/-- `part.trim().split(/\s+/)` piece accumulation (empty pieces at the ends
included, as in JavaScript). -/
def splitWSGo : List Nat → List Nat → List (List Nat)
  | [], cur => [cur.reverse]
  | u :: rest, cur =>
    if isSpaceUnit u then cur.reverse :: splitWSSkip rest
    else splitWSGo rest (u :: cur)

/-- Skip the remainder of a whitespace separator run. -/
def splitWSSkip : List Nat → List (List Nat)
  | [] => [[]]
  | u :: rest =>
    if isSpaceUnit u then splitWSSkip rest
    else splitWSGo rest [u]

end

/-- `s.split(/\s+/)`. -/
def splitWS (l : List Nat) : List (List Nat) :=
  splitWSGo l []

/-- Strip a trailing run of `[.!?]` units: `.replace(/[.!?]+$/, '')`. -/
def stripSentEnd (w : List Nat) : List Nat :=
  (w.reverse.dropWhile isSentEnd).reverse

/-- The `ABBREVIATIONS` set. -/
def abbreviations : List (List Nat) :=
  ["Mr", "Mrs", "Ms", "Dr", "Prof", "Sr", "Jr", "vs", "etc", "Inc", "Ltd", "Co",
   "i.e", "e.g", "cf", "viz", "al", "et", "approx", "dept", "est", "min", "max",
   "Jan", "Feb", "Mar", "Apr", "Jun", "Jul", "Aug", "Sep", "Oct", "Nov",
   "Dec"].map strUnits

/-- Does the part end in an abbreviation (its last whitespace-separated word,
with trailing sentence punctuation stripped, is a non-empty member of
`ABBREVIATIONS`)? -/
def endsInAbbreviation (part : List Nat) : Bool :=
  match (splitWS (trimUnits part)).getLast? with
  | some w =>
    let lastWord := stripSentEnd w
    decide (lastWord ≠ []) && abbreviations.any (fun a => a = lastWord)
  | none => false

/-- The body of the abbreviation-merging loop: `cur` is the current part
(after any merges); a part ending in an abbreviation is glued (with a
single space) onto the next part; surviving parts are trimmed and kept
when non-empty. -/
def mergeAbbrevGo : List (List Nat) → List Nat → List (List Nat)
  | [], cur => if trimUnits cur = [] then [] else [trimUnits cur]
  | q :: rest, cur =>
    if endsInAbbreviation cur then mergeAbbrevGo rest (cur ++ 0x20 :: q)
    else (if trimUnits cur = [] then [] else [trimUnits cur]) ++ mergeAbbrevGo rest q

/-- The abbreviation-merging loop over the split parts of one paragraph. -/
def mergeAbbrev : List (List Nat) → List (List Nat)
  | [] => []
  | p :: rest => mergeAbbrevGo rest p

/-- `DocumentChunker.splitIntoSentences`. -/
def splitIntoSentences (text : List Nat) : List (List Nat) :=
  if text = [] then []
  else
    let paragraphs := splitParas text
    let sentences := (paragraphs.filter (fun p => trimUnits p ≠ [])).flatMap
      (fun para => mergeAbbrev (splitSentParts para))
    if 0 < sentences.length then sentences else [trimUnits text]

/-- Accumulate one maximal same-class (whitespace/non-whitespace) group;
`cur` is non-empty reversed. -/
def groupGo : List Nat → List Nat → List (List Nat)
  | [], cur => [cur.reverse]
  | u :: rest, cur =>
    match cur with
    | c :: _ =>
      if isSpaceUnit u = isSpaceUnit c then groupGo rest (u :: cur)
      else cur.reverse :: groupGo rest [u]
    | [] => groupGo rest [u]

/-- `DocumentChunker.splitIntoWords`: `text.split(/(\s+)/).filter(Boolean)` —
alternating word and whitespace groups, empties dropped. -/
def splitIntoWords (text : List Nat) : List (List Nat) :=
  match text with
  | [] => []
  | _ => groupGo text []

/-- First index at which `pat` occurs in `l` (`String.prototype.indexOf`
without a start position). -/
def findSub : List Nat → List Nat → Option Nat
  | l, pat =>
    if decide (l.take pat.length = pat) then some 0
    else match l with
      | [] => none
      | _ :: rest => (findSub rest pat).map (· + 1)

/-- `text.indexOf(pat, start)`, `none` for `-1`. -/
def indexOfFrom (text pat : List Nat) (start : Nat) : Option Nat :=
  (findSub (text.drop start) pat).map (· + start)

/-- `text.lastIndexOf(pat)`, `none` for `-1`. -/
def lastSub : List Nat → List Nat → Option Nat
  | l, pat =>
    match (match l with
           | [] => none
           | _ :: rest => (lastSub rest pat).map (· + 1) : Option Nat) with
    | some j => some j
    | none => if decide (l.take pat.length = pat) then some 0 else none

/-- A `TextSegment` of `buildSegments`. -/
structure TextSegment where
  text : List Nat
  tokens : Nat
  startPos : Nat
  deriving Repr, DecidableEq

/-- The word-level fallback of `buildSegments` for a sentence exceeding
`maxTokens`: greedily pack words (whitespace runs included) into segments. -/
def wordSplitGo (maxTokens : Nat) :
    List (List Nat) → List Nat → Nat → Nat → List TextSegment
  | [], wordChunk, _, chunkStartPos =>
    if trimUnits wordChunk = [] then []
    else [{ text := trimUnits wordChunk,
            tokens := estimateTokenCount (trimUnits wordChunk),
            startPos := chunkStartPos }]
  | word :: rest, wordChunk, wordPos, chunkStartPos =>
    let testChunk := wordChunk ++ word
    let testTokens := estimateTokenCount testChunk
    if maxTokens < testTokens ∧ trimUnits wordChunk ≠ [] then
      { text := trimUnits wordChunk,
        tokens := estimateTokenCount (trimUnits wordChunk),
        startPos := chunkStartPos }
        :: wordSplitGo maxTokens rest word (wordPos + word.length) wordPos
    else wordSplitGo maxTokens rest testChunk (wordPos + word.length) chunkStartPos

/-- The per-sentence body of `DocumentChunker.buildSegments`, walking the
sentences with the `currentPos` cursor. -/
def buildSegmentsGo (maxTokens : Nat) (content : List Nat) :
    List (List Nat) → Nat → List TextSegment
  | [], _ => []
  | sentence :: rest, currentPos =>
    let actualPos := match indexOfFrom content (trimUnits sentence) currentPos with
      | some i => i
      | none => currentPos
    let tokens := estimateTokenCount sentence
    (if maxTokens < tokens then
      wordSplitGo maxTokens (splitIntoWords sentence) [] actualPos actualPos
    else
      [{ text := sentence, tokens := tokens, startPos := actualPos }])
      ++ buildSegmentsGo maxTokens content rest (actualPos + sentence.length)

/-- `DocumentChunker.buildSegments`. -/
def buildSegments (maxTokens : Nat) (content : List Nat) : List TextSegment :=
  buildSegmentsGo maxTokens content (splitIntoSentences content) 0

/-- `Array.prototype.join(' ')` on unit lists. -/
def joinSpace : List (List Nat) → List Nat
  | [] => []
  | [w] => w
  | w :: rest => w ++ 0x20 :: joinSpace rest

/-- The backwards word-collecting loop of `extractOverlapText`, over the
reversed word list. -/
def overlapTake (targetTokens : Nat) : List (List Nat) → Nat → List (List Nat)
  | [], _ => []
  | w :: rest, currentTokens =>
    let wordTokens := estimateTokenCount w
    if targetTokens < currentTokens + wordTokens then []
    else w :: overlapTake targetTokens rest (currentTokens + wordTokens)

/-- `DocumentChunker.extractOverlapText`: text drawn from the end of a chunk
to seed the next one, with its position inside the chunk text. -/
def extractOverlapText (text : List Nat) (targetTokens : Nat) :
    List Nat × Nat :=
  if targetTokens = 0 then ([], text.length)
  else
    let words := splitWS text
    let overlapWords := (overlapTake targetTokens words.reverse 0).reverse
    let overlapText := joinSpace overlapWords
    match lastSub text overlapText with
    | some p => (overlapText, p)
    | none => (overlapText, text.length - overlapText.length)

/-- A `DocumentChunk`. -/
structure DocumentChunk where
  hash : List Nat
  seq : Nat
  pos : Nat
  text : List Nat
  tokenCount : Nat
  deriving Repr, DecidableEq

/-- The mutable state of the chunking loop in `chunkDocument`. -/
structure ChunkState where
  chunks : List DocumentChunk
  currentChunkSegments : List TextSegment
  currentTokens : Nat
  seq : Nat
  chunkStartPos : Nat
  overlapText : List Nat
  overlapTokens : Nat
  overlapStartOffset : Nat
  deriving Repr, DecidableEq

/-- `flushChunk`: emit the accumulated segments as one chunk and compute the
overlap seed for the next chunk.  (Resetting `currentChunkSegments` and
`currentTokens` happens at the call site, as in the source.) -/
def flushChunk (hash : List Nat) (overlapTarget : Nat) (st : ChunkState) :
    ChunkState :=
  if st.currentChunkSegments = [] then st
  else
    let chunkText := joinSpace (st.currentChunkSegments.map (fun s => s.text))
    let actualTokens := estimateTokenCount chunkText
    let ov := extractOverlapText chunkText overlapTarget
    { st with
      chunks := st.chunks ++
        [{ hash := hash, seq := st.seq, pos := st.chunkStartPos,
           text := chunkText, tokenCount := actualTokens }]
      overlapText := ov.1
      overlapTokens := estimateTokenCount ov.1
      overlapStartOffset := ov.2
      seq := st.seq + 1 }

/-- One iteration of the `for (const segment of segments)` loop of
`chunkDocument`. -/
def chunkStep (hash : List Nat) (maxTokens overlapTarget : Nat)
    (st : ChunkState) (segment : TextSegment) : ChunkState :=
  let testTokens := st.currentTokens + segment.tokens
  let st1 :=
    if maxTokens < testTokens then
      let stF := flushChunk hash overlapTarget st
      let st2 := { stF with currentChunkSegments := [], currentTokens := 0 }
      if st2.overlapText ≠ [] then
        let st3 := match st2.chunks.getLast? with
          | some lastChunk =>
            { st2 with chunkStartPos := lastChunk.pos + st2.overlapStartOffset }
          | none => st2
        { st3 with
          currentChunkSegments := [{ text := st3.overlapText,
                                     tokens := st3.overlapTokens,
                                     startPos := st3.chunkStartPos }]
          currentTokens := st3.overlapTokens }
      else { st2 with chunkStartPos := segment.startPos }
    else st
  let st4 :=
    if st1.currentChunkSegments = [] then
      { st1 with chunkStartPos := segment.startPos }
    else st1
  { st4 with
    currentChunkSegments := st4.currentChunkSegments ++ [segment]
    currentTokens := st4.currentTokens + segment.tokens }

/-- The initial loop state. -/
def initChunkState : ChunkState :=
  { chunks := [], currentChunkSegments := [], currentTokens := 0, seq := 0,
    chunkStartPos := 0, overlapText := [], overlapTokens := 0,
    overlapStartOffset := 0 }

/-- The chunker constructor's `overlapTokens` field:
`Math.floor(this.maxTokens * this.overlapPercent)` (clamped at zero for a
negative product, as `toNat` of the floor). -/
def overlapTokensOf (maxTokens : Nat) (overlapPercent : ℚ) : Nat :=
  (⌊(maxTokens : ℚ) * overlapPercent⌋).toNat

/-- `DocumentChunker.chunkDocument` for a chunker configured with
`maxTokens` and `overlapTokens = overlapTokensOf maxTokens overlapPercent`. -/
def chunkDocument (maxTokens overlapTarget : Nat)
    (hash content : List Nat) : List DocumentChunk :=
  if trimUnits content = [] then []
  else
    let trimmedContent := trimUnits content
    let totalTokens := estimateTokenCount trimmedContent
    if totalTokens ≤ maxTokens then
      [{ hash := hash, seq := 0, pos := 0, text := trimmedContent,
         tokenCount := totalTokens }]
    else
      let segments := buildSegments maxTokens trimmedContent
      let final := segments.foldl (chunkStep hash maxTokens overlapTarget)
        initChunkState
      if final.currentChunkSegments = [] then final.chunks
      else
        let chunkText := joinSpace (final.currentChunkSegments.map (fun s => s.text))
        final.chunks ++
          [{ hash := hash, seq := final.seq, pos := final.chunkStartPos,
             text := chunkText, tokenCount := estimateTokenCount chunkText }]

/-- The adversarial document of the C9 counterexample: the UTF-16 units of
`"Dr.\tA. Dr.\tB. … Dr.\tT. Dr.\tZ... Dr.\tY. Dr.\tX."` — tab-separated
abbreviation sentences whose merged forms are never found by `indexOf`,
so recorded positions lag while overlap-seeded chunk positions advance. -/
def wChunkContent : List Nat := [68, 114, 46, 9, 65, 46, 32, 68, 114, 46, 9, 66, 46, 32, 68, 114, 46, 9, 67, 46, 32, 68, 114, 46, 9, 68, 46, 32, 68, 114, 46, 9, 69, 46, 32, 68, 114, 46, 9, 70, 46, 32, 68, 114, 46, 9, 71, 46, 32, 68, 114, 46, 9, 72, 46, 32, 68, 114, 46, 9, 73, 46, 32, 68, 114, 46, 9, 74, 46, 32, 68, 114, 46, 9, 75, 46, 32, 68, 114, 46, 9, 76, 46, 32, 68, 114, 46, 9, 77, 46, 32, 68, 114, 46, 9, 78, 46, 32, 68, 114, 46, 9, 79, 46, 32, 68, 114, 46, 9, 80, 46, 32, 68, 114, 46, 9, 81, 46, 32, 68, 114, 46, 9, 82, 46, 32, 68, 114, 46, 9, 83, 46, 32, 68, 114, 46, 9, 84, 46, 32, 68, 114, 46, 9, 90, 46, 46, 46, 32, 68, 114, 46, 9, 89, 46, 32, 68, 114, 46, 9, 88, 46]

/-! ## Lemmas and theorems -/

@[simp] theorem mkBM25Entry_hash (k : ℚ) (rank : Nat) (r : SearchResult) :
    (mkBM25Entry k rank r).hash = r.hash := rfl

@[simp] theorem mkBM25Entry_rrfScore (k : ℚ) (rank : Nat) (r : SearchResult) :
    (mkBM25Entry k rank r).rrfScore = 1 / (k + rank) := rfl

@[simp] theorem mkBM25Entry_bm25Rank (k : ℚ) (rank : Nat) (r : SearchResult) :
    (mkBM25Entry k rank r).bm25Rank = some rank := rfl

@[simp] theorem mkBM25Entry_vectorRank (k : ℚ) (rank : Nat) (r : SearchResult) :
    (mkBM25Entry k rank r).vectorRank = none := rfl

@[simp] theorem mkVectorEntry_hash (k : ℚ) (rank : Nat) (r : VectorSearchResult) :
    (mkVectorEntry k rank r).hash = r.hash := rfl

@[simp] theorem mkVectorEntry_rrfScore (k : ℚ) (rank : Nat) (r : VectorSearchResult) :
    (mkVectorEntry k rank r).rrfScore = 1 / (k + rank) := rfl

@[simp] theorem mkVectorEntry_bm25Rank (k : ℚ) (rank : Nat) (r : VectorSearchResult) :
    (mkVectorEntry k rank r).bm25Rank = none := rfl

@[simp] theorem mkVectorEntry_vectorRank (k : ℚ) (rank : Nat) (r : VectorSearchResult) :
    (mkVectorEntry k rank r).vectorRank = some rank := rfl

@[simp] theorem applyVectorUpdate_hash (k : ℚ) (rank : Nat)
    (r : VectorSearchResult) (e : FusedEntry) :
    (applyVectorUpdate k rank r e).hash = e.hash := rfl

@[simp] theorem applyVectorUpdate_rrfScore (k : ℚ) (rank : Nat)
    (r : VectorSearchResult) (e : FusedEntry) :
    (applyVectorUpdate k rank r e).rrfScore = e.rrfScore + 1 / (k + rank) := rfl

@[simp] theorem applyVectorUpdate_bm25Rank (k : ℚ) (rank : Nat)
    (r : VectorSearchResult) (e : FusedEntry) :
    (applyVectorUpdate k rank r e).bm25Rank = e.bm25Rank := rfl

@[simp] theorem applyVectorUpdate_vectorRank (k : ℚ) (rank : Nat)
    (r : VectorSearchResult) (e : FusedEntry) :
    (applyVectorUpdate k rank r e).vectorRank = some rank := rfl

theorem mapSet_of_forall_ne (key : List Nat) (e : FusedEntry) :
    ∀ (m : List FusedEntry), (∀ x ∈ m, x.hash ≠ key) →
      mapSet key e m = m ++ [e] := by
  intro m
  induction m with
  | nil => intro _; rfl
  | cons x xs ih =>
    intro h
    rw [mapSet, if_neg (h x (List.mem_cons_self x xs)), ih]
    · rfl
    · intro y hy; exact h y (List.mem_cons_of_mem x hy)

theorem bm25Entries_map_hash (k : ℚ) :
    ∀ (l : List SearchResult) (s : Nat),
      (bm25Entries k s l).map (fun e => e.hash) = l.map (fun r => r.hash) := by
  intro l
  induction l with
  | nil => intro _; rfl
  | cons r rs ih => intro s; simp [bm25Entries, ih (s + 1)]

theorem processBM25_eq (k : ℚ) :
    ∀ (l : List SearchResult) (s : Nat) (m : List FusedEntry),
      (l.map (fun r => r.hash)).Nodup →
      (∀ x ∈ m, ∀ r ∈ l, x.hash ≠ r.hash) →
      processBM25 k s l m = m ++ bm25Entries k s l := by
  intro l
  induction l with
  | nil => intro s m _ _; simp [processBM25, bm25Entries]
  | cons r rs ih =>
    intro s m hnd hdisj
    rw [List.map_cons, List.nodup_cons] at hnd
    have hhead : ∀ x ∈ m, x.hash ≠ r.hash := fun x hx =>
      hdisj x hx r (List.mem_cons_self r rs)
    rw [processBM25, mapSet_of_forall_ne _ _ m hhead,
        ih (s + 1) (m ++ [mkBM25Entry k s r]) hnd.2]
    · simp [bm25Entries]
    · intro x hx r' hr'
      rcases List.mem_append.mp hx with hxm | hxe
      · exact hdisj x hxm r' (List.mem_cons_of_mem r hr')
      · have : x = mkBM25Entry k s r := List.mem_singleton.mp hxe
        subst this
        simp only [mkBM25Entry_hash]
        intro hcontra
        have hr'mem : r'.hash ∈ rs.map (fun q => q.hash) :=
          List.mem_map.mpr ⟨r', hr', rfl⟩
        rw [hcontra] at hnd
        exact hnd.1 hr'mem

theorem updWithV_hash (k : ℚ) :
    ∀ (v : List VectorSearchResult) (s : Nat) (e : FusedEntry),
      (updWithV k s v e).hash = e.hash := by
  intro v
  induction v with
  | nil => intro s e; rfl
  | cons r rs ih =>
    intro s e
    rw [updWithV]
    split
    · rfl
    · exact ih (s + 1) e

theorem updWithV_bm25Rank (k : ℚ) :
    ∀ (v : List VectorSearchResult) (s : Nat) (e : FusedEntry),
      (updWithV k s v e).bm25Rank = e.bm25Rank := by
  intro v
  induction v with
  | nil => intro s e; rfl
  | cons r rs ih =>
    intro s e
    rw [updWithV]
    split
    · rfl
    · exact ih (s + 1) e

theorem updWithV_rrfScore (k : ℚ) :
    ∀ (v : List VectorSearchResult) (s : Nat) (e : FusedEntry),
      (updWithV k s v e).rrfScore
        = e.rrfScore + rrfContribution k (vecRankFrom s v e.hash) := by
  intro v
  induction v with
  | nil => intro s e; simp [updWithV, vecRankFrom, rrfContribution]
  | cons r rs ih =>
    intro s e
    rw [updWithV, vecRankFrom]
    split
    · simp [rrfContribution]
    · exact ih (s + 1) e

theorem updWithV_vectorRank (k : ℚ) :
    ∀ (v : List VectorSearchResult) (s : Nat) (e : FusedEntry),
      (updWithV k s v e).vectorRank
        = match vecRankFrom s v e.hash with
          | some j => some j
          | none => e.vectorRank := by
  intro v
  induction v with
  | nil => intro s e; rfl
  | cons r rs ih =>
    intro s e
    rw [updWithV, vecRankFrom]
    split
    · rfl
    · exact ih (s + 1) e

theorem updWithV_of_forall_ne (k : ℚ) :
    ∀ (v : List VectorSearchResult) (s : Nat) (e : FusedEntry),
      (∀ r ∈ v, r.hash ≠ e.hash) → updWithV k s v e = e := by
  intro v
  induction v with
  | nil => intro s e _; rfl
  | cons r rs ih =>
    intro s e h
    rw [updWithV, if_neg (h r (List.mem_cons_self r rs))]
    exact ih (s + 1) e (fun r' hr' => h r' (List.mem_cons_of_mem r hr'))

theorem vecRankFrom_of_forall_ne :
    ∀ (v : List VectorSearchResult) (s : Nat) (h : List Nat),
      (∀ r ∈ v, r.hash ≠ h) → vecRankFrom s v h = none := by
  intro v
  induction v with
  | nil => intro s h _; rfl
  | cons r rs ih =>
    intro s h hne
    rw [vecRankFrom, if_neg (hne r (List.mem_cons_self r rs))]
    exact ih (s + 1) h (fun r' hr' => hne r' (List.mem_cons_of_mem r hr'))

theorem bmRankFrom_of_forall_ne :
    ∀ (b : List SearchResult) (s : Nat) (h : List Nat),
      (∀ r ∈ b, r.hash ≠ h) → bmRankFrom s b h = none := by
  intro b
  induction b with
  | nil => intro s h _; rfl
  | cons r rs ih =>
    intro s h hne
    rw [bmRankFrom, if_neg (hne r (List.mem_cons_self r rs))]
    exact ih (s + 1) h (fun r' hr' => hne r' (List.mem_cons_of_mem r hr'))

theorem vecOnly_congr_any (k : ℚ) :
    ∀ (v : List VectorSearchResult) (s : Nat) (m m' : List FusedEntry),
      (∀ r ∈ v, m.any (fun e => e.hash = r.hash) = m'.any (fun e => e.hash = r.hash)) →
      vecOnly k s v m = vecOnly k s v m' := by
  intro v
  induction v with
  | nil => intro s m m' _; rfl
  | cons r rs ih =>
    intro s m m' hsame
    rw [vecOnly, vecOnly, hsame r (List.mem_cons_self r rs),
        ih (s + 1) m m' (fun r' hr' => hsame r' (List.mem_cons_of_mem r hr'))]

theorem vecOnly_mem (k : ℚ) :
    ∀ (v : List VectorSearchResult) (s : Nat) (m : List FusedEntry),
      (v.map (fun r => r.hash)).Nodup →
      ∀ e ∈ vecOnly k s v m,
        e.bm25Rank = none ∧
        e.vectorRank = vecRankFrom s v e.hash ∧
        e.rrfScore = rrfContribution k (vecRankFrom s v e.hash) ∧
        m.any (fun x => x.hash = e.hash) = false ∧
        (∃ r ∈ v, e.hash = r.hash) := by
  intro v
  induction v with
  | nil => intro s m _ e he; exact absurd he (by simp [vecOnly])
  | cons r rs ih =>
    intro s m hnd e he
    rw [List.map_cons, List.nodup_cons] at hnd
    rw [vecOnly] at he
    by_cases hany : m.any (fun x => x.hash = r.hash)
    · rw [if_pos hany] at he
      obtain ⟨h1, h2, h3, h4, r', hr', hh⟩ := ih (s + 1) m hnd.2 e he
      have hne : r.hash ≠ e.hash := by
        intro hcontra
        rw [← hcontra] at h4
        rw [hany] at h4
        exact absurd h4 (by simp)
      refine ⟨h1, ?_, ?_, h4, r', List.mem_cons_of_mem r hr', hh⟩
      · rw [vecRankFrom, if_neg hne, h2]
      · rw [vecRankFrom, if_neg hne, h3]
    · rw [if_neg hany] at he
      rcases List.mem_cons.mp he with heq | htail
      · subst heq
        refine ⟨rfl, ?_, ?_, ?_, r, List.mem_cons_self r rs, rfl⟩
        · rw [mkVectorEntry_vectorRank, mkVectorEntry_hash, vecRankFrom, if_pos rfl]
        · rw [mkVectorEntry_rrfScore, mkVectorEntry_hash, vecRankFrom, if_pos rfl]
          rfl
        · simpa using hany
      · obtain ⟨h1, h2, h3, h4, r', hr', hh⟩ := ih (s + 1) m hnd.2 e htail
        have hne : r.hash ≠ e.hash := by
          intro hcontra
          have : e.hash ∈ rs.map (fun q => q.hash) :=
            hh ▸ List.mem_map.mpr ⟨r', hr', rfl⟩
          rw [← hcontra] at this
          exact hnd.1 this
        refine ⟨h1, ?_, ?_, h4, r', List.mem_cons_of_mem r hr', hh⟩
        · rw [vecRankFrom, if_neg hne, h2]
        · rw [vecRankFrom, if_neg hne, h3]

theorem processVector_eq (k : ℚ) :
    ∀ (v : List VectorSearchResult) (s : Nat) (m : List FusedEntry),
      (v.map (fun r => r.hash)).Nodup →
      processVector k s v m = m.map (updWithV k s v) ++ vecOnly k s v m := by
  intro v
  induction v with
  | nil => intro s m _; simp [processVector, updWithV, vecOnly]
  | cons r rs ih =>
    intro s m hnd
    rw [List.map_cons, List.nodup_cons] at hnd
    rw [processVector, vectorStep]
    by_cases hany : m.any (fun e => e.hash = r.hash)
    · rw [if_pos hany, ih (s + 1) _ hnd.2, List.map_map]
      rw [vecOnly, if_pos hany]
      congr 1
      · apply List.map_congr_left
        intro e hem
        simp only [Function.comp_apply]
        by_cases he : e.hash = r.hash
        · rw [if_pos he, updWithV, if_pos he.symm]
          apply updWithV_of_forall_ne
          intro r' hr'
          rw [applyVectorUpdate_hash, he]
          intro hcontra
          exact hnd.1 (hcontra ▸ List.mem_map.mpr ⟨r', hr', rfl⟩)
        · rw [if_neg he, updWithV]
          rw [if_neg (fun hc => he hc.symm)]
      · apply vecOnly_congr_any
        intro r' _
        rw [List.any_map]
        congr 1
        funext e
        simp only [Function.comp_apply]
        have hpres : (if e.hash = r.hash then applyVectorUpdate k s r e else e).hash
            = e.hash := by
          split
          · rfl
          · rfl
        rw [hpres]
    · rw [if_neg hany, ih (s + 1) _ hnd.2, List.map_append]
      rw [vecOnly, if_neg hany]
      have hmap : m.map (updWithV k (s + 1) rs) = m.map (updWithV k s (r :: rs)) := by
        apply List.map_congr_left
        intro e hem
        have he : r.hash ≠ e.hash := by
          intro hcontra
          have : m.any (fun x => x.hash = r.hash) = true :=
            List.any_eq_true.mpr ⟨e, hem, by simp [hcontra]⟩
          exact hany this
        rw [updWithV, if_neg he]
      have hupd : updWithV k (s + 1) rs (mkVectorEntry k s r) = mkVectorEntry k s r := by
        apply updWithV_of_forall_ne
        intro r' hr'
        rw [mkVectorEntry_hash]
        intro hcontra
        exact hnd.1 (hcontra ▸ List.mem_map.mpr ⟨r', hr', rfl⟩)
      have hvec : vecOnly k (s + 1) rs (m ++ [mkVectorEntry k s r])
          = vecOnly k (s + 1) rs m := by
        apply vecOnly_congr_any
        intro r' hr'
        rw [List.any_append]
        have : [mkVectorEntry k s r].any (fun e => e.hash = r'.hash) = false := by
          simp only [List.any_cons, List.any_nil, Bool.or_false, mkVectorEntry_hash]
          apply decide_eq_false
          intro hcontra
          exact hnd.1 (hcontra ▸ List.mem_map.mpr ⟨r', hr', rfl⟩)
        rw [this, Bool.or_false]
      simp only [List.map_cons, List.map_nil]
      rw [hmap, hupd, hvec, List.append_assoc, List.singleton_append]

theorem bm25Entries_mem (k : ℚ) :
    ∀ (b : List SearchResult) (s : Nat),
      (b.map (fun r => r.hash)).Nodup →
      ∀ e ∈ bm25Entries k s b,
        e.bm25Rank = bmRankFrom s b e.hash ∧
        e.rrfScore = rrfContribution k (bmRankFrom s b e.hash) ∧
        e.vectorRank = none ∧
        (∃ r ∈ b, e.hash = r.hash) := by
  intro b
  induction b with
  | nil => intro s _ e he; exact absurd he (by simp [bm25Entries])
  | cons r rs ih =>
    intro s hnd e he
    rw [List.map_cons, List.nodup_cons] at hnd
    rw [bm25Entries] at he
    rcases List.mem_cons.mp he with heq | htail
    · subst heq
      refine ⟨?_, ?_, rfl, r, List.mem_cons_self r rs, rfl⟩
      · rw [mkBM25Entry_bm25Rank, mkBM25Entry_hash, bmRankFrom, if_pos rfl]
      · rw [mkBM25Entry_rrfScore, mkBM25Entry_hash, bmRankFrom, if_pos rfl]
        rfl
    · obtain ⟨h1, h2, h3, r', hr', hh⟩ := ih (s + 1) hnd.2 e htail
      have hne : r.hash ≠ e.hash := by
        intro hcontra
        have : e.hash ∈ rs.map (fun q => q.hash) :=
          hh ▸ List.mem_map.mpr ⟨r', hr', rfl⟩
        rw [← hcontra] at this
        exact hnd.1 this
      refine ⟨?_, ?_, h3, r', List.mem_cons_of_mem r hr', hh⟩
      · rw [bmRankFrom, if_neg hne, h1]
      · rw [bmRankFrom, if_neg hne, h2]

/-- Characterization of the fused score map: under duplicate-free candidate
lists, every entry carries exactly the reciprocal-rank contributions of the
lists its document appears in, and its recorded ranks are the 1-based
positions in those lists. -/
theorem buildScoreMap_mem (b : List SearchResult) (v : List VectorSearchResult)
    (k : ℚ) (hb : (b.map (fun r => r.hash)).Nodup)
    (hv : (v.map (fun r => r.hash)).Nodup) :
    ∀ e ∈ buildScoreMap b v k,
      e.rrfScore = rrfContribution k (bm25RankOf b e.hash)
        + rrfContribution k (vectorRankOf v e.hash) ∧
      e.bm25Rank = bm25RankOf b e.hash ∧
      e.vectorRank = vectorRankOf v e.hash := by
  intro e he
  rw [buildScoreMap, processBM25_eq k b 1 [] hb (by simp),
      List.nil_append, processVector_eq k v 1 _ hv] at he
  rcases List.mem_append.mp he with hfst | hsnd
  · obtain ⟨e0, he0, heq⟩ := List.mem_map.mp hfst
    obtain ⟨h1, h2, h3, _⟩ := bm25Entries_mem k b 1 hb e0 he0
    subst heq
    rw [updWithV_hash]
    refine ⟨?_, ?_, ?_⟩
    · rw [updWithV_rrfScore, h2, bm25RankOf, vectorRankOf]
    · rw [updWithV_bm25Rank, h1, bm25RankOf]
    · rw [updWithV_vectorRank, vectorRankOf]
      cases hvr : vecRankFrom 1 v e0.hash with
      | none => simp [h3]
      | some j => simp
  · obtain ⟨h1, h2, h3, h4, _⟩ := vecOnly_mem k v 1 _ hv e hsnd
    have hnotb : ∀ r ∈ b, r.hash ≠ e.hash := by
      intro r hr hcontra
      have : (bm25Entries k 1 b).any (fun x => x.hash = e.hash) = true := by
        apply List.any_eq_true.mpr
        obtain ⟨x, hx, hxh⟩ : ∃ x ∈ bm25Entries k 1 b, x.hash = r.hash := by
          have hmem : r.hash ∈ (bm25Entries k 1 b).map (fun x => x.hash) := by
            rw [bm25Entries_map_hash]
            exact List.mem_map.mpr ⟨r, hr, rfl⟩
          obtain ⟨x, hx, hxh⟩ := List.mem_map.mp hmem
          exact ⟨x, hx, hxh⟩
        exact ⟨x, hx, by simp [hxh, hcontra]⟩
      rw [h4] at this
      exact absurd this (by simp)
    have hbm : bm25RankOf b e.hash = none :=
      bmRankFrom_of_forall_ne b 1 e.hash hnotb
    refine ⟨?_, ?_, ?_⟩
    · rw [hbm, h3, vectorRankOf]
      simp [rrfContribution]
    · rw [h1, hbm]
    · rw [h2, vectorRankOf]

theorem insertByScore_perm (x : FusedEntry) :
    ∀ (l : List FusedEntry), (insertByScore x l).Perm (x :: l) := by
  intro l
  induction l with
  | nil => rfl
  | cons y ys ih =>
    rw [insertByScore]
    split
    · rfl
    · exact (List.Perm.cons y ih).trans (List.Perm.swap x y ys)

theorem sortByScoreDesc_perm_aux :
    ∀ (l acc : List FusedEntry),
      (l.foldl (fun acc x => insertByScore x acc) acc).Perm (acc ++ l) := by
  intro l
  induction l with
  | nil => intro acc; simp
  | cons x xs ih =>
    intro acc
    rw [List.foldl_cons]
    refine ((ih (insertByScore x acc)).trans ?_)
    refine (List.Perm.append_right xs (insertByScore_perm x acc)).trans ?_
    exact List.perm_middle.symm

theorem sortByScoreDesc_perm (l : List FusedEntry) :
    (sortByScoreDesc l).Perm l := by
  simpa using sortByScoreDesc_perm_aux l []

theorem insertByScore_head? (x : FusedEntry) (l : List FusedEntry) :
    (insertByScore x l).head? = some x ∨ (insertByScore x l).head? = l.head? := by
  cases l with
  | nil => left; rfl
  | cons y ys =>
    rw [insertByScore]
    split
    · left; rfl
    · right; rfl

theorem insertByScore_chain' (x : FusedEntry) :
    ∀ (l : List FusedEntry),
      List.Chain' (fun a b => b.rrfScore ≤ a.rrfScore) l →
      List.Chain' (fun a b => b.rrfScore ≤ a.rrfScore) (insertByScore x l) := by
  intro l
  induction l with
  | nil => intro _; simp [insertByScore]
  | cons y ys ih =>
    intro hch
    rw [insertByScore]
    split
    · rename_i hlt
      exact List.chain'_cons.mpr ⟨le_of_lt hlt, hch⟩
    · rename_i hnlt
      push_neg at hnlt
      have hch' := (List.chain'_cons'.mp hch).2
      apply List.chain'_cons'.mpr
      refine ⟨?_, ih hch'⟩
      intro z hz
      rcases insertByScore_head? x ys with hh | hh
      · rw [hh] at hz
        injection hz with hz
        subst hz
        exact hnlt
      · rw [hh] at hz
        exact (List.chain'_cons'.mp hch).1 z hz

theorem sortByScoreDesc_chain'_aux :
    ∀ (l acc : List FusedEntry),
      List.Chain' (fun a b => b.rrfScore ≤ a.rrfScore) acc →
      List.Chain' (fun a b => b.rrfScore ≤ a.rrfScore)
        (l.foldl (fun acc x => insertByScore x acc) acc) := by
  intro l
  induction l with
  | nil => intro acc h; exact h
  | cons x xs ih =>
    intro acc h
    rw [List.foldl_cons]
    exact ih (insertByScore x acc) (insertByScore_chain' x acc h)

theorem sortByScoreDesc_chain' (l : List FusedEntry) :
    List.Chain' (fun a b => b.rrfScore ≤ a.rrfScore) (sortByScoreDesc l) :=
  sortByScoreDesc_chain'_aux l [] (by simp)

theorem mapSet_mem (key : List Nat) (e : FusedEntry) :
    ∀ (m : List FusedEntry) (x : FusedEntry),
      x ∈ mapSet key e m → x = e ∨ x ∈ m := by
  intro m
  induction m with
  | nil => intro x hx; left; exact List.mem_singleton.mp hx
  | cons y ys ih =>
    intro x hx
    rw [mapSet] at hx
    split at hx
    · rcases List.mem_cons.mp hx with h | h
      · left; exact h
      · right; exact List.mem_cons_of_mem y h
    · rcases List.mem_cons.mp hx with h | h
      · right; exact h ▸ List.mem_cons_self y ys
      · rcases ih x h with h' | h'
        · left; exact h'
        · right; exact List.mem_cons_of_mem y h'

theorem processBM25_pos (k : ℚ) (hk : 0 < k) :
    ∀ (l : List SearchResult) (s : Nat) (m : List FusedEntry),
      (∀ e ∈ m, 0 < e.rrfScore) →
      ∀ e ∈ processBM25 k s l m, 0 < e.rrfScore := by
  intro l
  induction l with
  | nil => intro s m hm e he; exact hm e he
  | cons r rs ih =>
    intro s m hm e he
    rw [processBM25] at he
    refine ih (s + 1) _ ?_ e he
    intro x hx
    rcases mapSet_mem _ _ m x hx with hx' | hx'
    · subst hx'
      rw [mkBM25Entry_rrfScore]
      positivity
    · exact hm x hx'

theorem processVector_pos (k : ℚ) (hk : 0 < k) :
    ∀ (l : List VectorSearchResult) (s : Nat) (m : List FusedEntry),
      (∀ e ∈ m, 0 < e.rrfScore) →
      ∀ e ∈ processVector k s l m, 0 < e.rrfScore := by
  intro l
  induction l with
  | nil => intro s m hm e he; exact hm e he
  | cons r rs ih =>
    intro s m hm e he
    rw [processVector] at he
    refine ih (s + 1) _ ?_ e he
    intro x hx
    rw [vectorStep] at hx
    split at hx
    · obtain ⟨y, hy, hyx⟩ := List.mem_map.mp hx
      subst hyx
      split
      · rw [applyVectorUpdate_rrfScore]
        have h1 : 0 < y.rrfScore := hm y hy
        have h2 : (0 : ℚ) < 1 / (k + s) := by positivity
        linarith
      · exact hm y hy
    · rcases List.mem_append.mp hx with h | h
      · exact hm x h
      · have : x = mkVectorEntry k s r := List.mem_singleton.mp h
        subst this
        rw [mkVectorEntry_rrfScore]
        positivity

theorem buildScoreMap_pos (b : List SearchResult) (v : List VectorSearchResult)
    (k : ℚ) (hk : 0 < k) : ∀ e ∈ buildScoreMap b v k, 0 < e.rrfScore := by
  rw [buildScoreMap]
  exact processVector_pos k hk v 1 _
    (processBM25_pos k hk b 1 [] (by simp))

theorem finalize_mem (mn rg : ℚ) :
    ∀ (l : List FusedEntry) (s : Nat) (r : HybridSearchResult),
      r ∈ finalize mn rg s l →
      ∃ e ∈ l, r.hash = e.hash ∧ r.rrfScore = e.rrfScore ∧
        r.normalizedScore = (e.rrfScore - mn) / rg * 100 ∧
        r.bm25Rank = e.bm25Rank ∧ r.vectorRank = e.vectorRank ∧
        r.bm25Score = e.bm25Score ∧ r.similarity = e.similarity := by
  intro l
  induction l with
  | nil => intro s r hr; exact absurd hr (by simp [finalize])
  | cons e es ih =>
    intro s r hr
    rw [finalize] at hr
    rcases List.mem_cons.mp hr with heq | htail
    · subst heq
      exact ⟨e, List.mem_cons_self e es, rfl, rfl, rfl, rfl, rfl, rfl, rfl⟩
    · obtain ⟨e', he', hprops⟩ := ih (s + 1) r htail
      exact ⟨e', List.mem_cons_of_mem e he', hprops⟩

theorem finalize_mem_rev (mn rg : ℚ) :
    ∀ (l : List FusedEntry) (s : Nat) (e : FusedEntry),
      e ∈ l →
      ∃ r ∈ finalize mn rg s l, r.rrfScore = e.rrfScore ∧
        r.normalizedScore = (e.rrfScore - mn) / rg * 100 := by
  intro l
  induction l with
  | nil => intro s e he; exact absurd he (by simp)
  | cons x xs ih =>
    intro s e he
    rw [finalize]
    rcases List.mem_cons.mp he with heq | htail
    · subst heq
      exact ⟨_, List.mem_cons_self _ _, rfl, rfl⟩
    · obtain ⟨r, hr, hprops⟩ := ih (s + 1) e htail
      exact ⟨r, List.mem_cons_of_mem _ hr, hprops⟩

theorem finalize_map_rrfScore (mn rg : ℚ) :
    ∀ (l : List FusedEntry) (s : Nat),
      (finalize mn rg s l).map (fun r => r.rrfScore)
        = l.map (fun e => e.rrfScore) := by
  intro l
  induction l with
  | nil => intro s; rfl
  | cons e es ih => intro s; rw [finalize, List.map_cons, List.map_cons, ih (s + 1)]

theorem finalize_head?_norm (mn rg : ℚ) (l : List FusedEntry) (s : Nat) :
    ((finalize mn rg s l).head?).map (fun r => r.normalizedScore)
      = (l.head?).map (fun e => (e.rrfScore - mn) / rg * 100) := by
  cases l with
  | nil => rfl
  | cons e es => rfl

theorem finalize_getLast?_norm (mn rg : ℚ) :
    ∀ (l : List FusedEntry) (s : Nat),
      ((finalize mn rg s l).getLast?).map (fun r => r.normalizedScore)
        = (l.getLast?).map (fun e => (e.rrfScore - mn) / rg * 100) := by
  intro l
  induction l with
  | nil => intro s; rfl
  | cons e es ih =>
    intro s
    cases es with
    | nil => rfl
    | cons e' es' =>
      have hih := ih (s + 1)
      rw [finalize] at hih
      rw [finalize, finalize, List.getLast?_cons_cons]
      exact hih

theorem chain'_desc_head_le :
    ∀ (t : List FusedEntry) (hd : FusedEntry),
      List.Chain' (fun a b => b.rrfScore ≤ a.rrfScore) (hd :: t) →
      ∀ e ∈ hd :: t, e.rrfScore ≤ hd.rrfScore := by
  intro t
  induction t with
  | nil =>
    intro hd _ e he
    rw [List.mem_singleton.mp he]
  | cons y ys ih =>
    intro hd hch e he
    have h1 := List.chain'_cons.mp hch
    rcases List.mem_cons.mp he with heq | htail
    · rw [heq]
    · exact le_trans (ih y h1.2 e htail) h1.1

theorem chain'_desc_getLast_le :
    ∀ (l : List FusedEntry),
      List.Chain' (fun a b => b.rrfScore ≤ a.rrfScore) l →
      ∀ lst, l.getLast? = some lst → ∀ e ∈ l, lst.rrfScore ≤ e.rrfScore := by
  intro l
  induction l with
  | nil => intro _ lst h; exact absurd h (by simp)
  | cons x xs ih =>
    intro hch lst hlst e he
    cases xs with
    | nil =>
      have hx : x = lst := by simpa using hlst
      exact le_of_eq (by rw [List.mem_singleton.mp he, hx])
    | cons y ys =>
      rw [List.getLast?_cons_cons] at hlst
      have h1 := List.chain'_cons.mp hch
      have hy : lst.rrfScore ≤ y.rrfScore :=
        ih h1.2 lst hlst y (List.mem_cons_self y ys)
      rcases List.mem_cons.mp he with heq | htail
      · rw [heq]; exact le_trans hy h1.1
      · exact ih h1.2 lst hlst e htail

theorem getLast?_mem_fused :
    ∀ (l : List FusedEntry) (a : FusedEntry), l.getLast? = some a → a ∈ l := by
  intro l
  induction l with
  | nil => intro a h; exact absurd h (by simp)
  | cons x xs ih =>
    intro a h
    cases xs with
    | nil =>
      have : a = x := by simpa using h.symm
      rw [this]; exact List.mem_cons_self x []
    | cons y ys =>
      rw [List.getLast?_cons_cons] at h
      exact List.mem_cons_of_mem x (ih a h)

/-! ## Theorems about Reciprocal Rank Fusion (C1, C2) -/

/-- C1: for duplicate-free candidate lists and a positive RRF constant `k`,
every fused result's `rrfScore` is the sum of `1 / (k + rank)` over the
candidate lists the document appears in (rank = 1-based position there);
consequently a document at rank 3 in both lists strictly outscores a
document at rank 3 in exactly one list; and the fused output is sorted by
`rrfScore` descending. -/
theorem rrf_fusion_score_sum_and_order (b : List SearchResult)
    (v : List VectorSearchResult) (k : ℚ) (hk : 0 < k)
    (hb : (b.map (fun r => r.hash)).Nodup)
    (hv : (v.map (fun r => r.hash)).Nodup) :
    (∀ r ∈ rrfFusion b v k,
        r.rrfScore = rrfContribution k (bm25RankOf b r.hash)
          + rrfContribution k (vectorRankOf v r.hash)) ∧
    (∀ r ∈ rrfFusion b v k, ∀ r' ∈ rrfFusion b v k,
        r.bm25Rank = some 3 → r.vectorRank = some 3 →
        ((r'.bm25Rank = some 3 ∧ r'.vectorRank = none) ∨
         (r'.bm25Rank = none ∧ r'.vectorRank = some 3)) →
        r'.rrfScore < r.rrfScore) ∧
    List.Chain' (fun x y => y.rrfScore ≤ x.rrfScore) (rrfFusion b v k) := by
  have hchar : ∀ r ∈ rrfFusion b v k,
      ∃ e ∈ buildScoreMap b v k, r.hash = e.hash ∧ r.rrfScore = e.rrfScore ∧
        r.bm25Rank = e.bm25Rank ∧ r.vectorRank = e.vectorRank := by
    intro r hr
    simp only [rrfFusion] at hr
    obtain ⟨e, he, h1, h2, _, h4, h5, _, _⟩ := finalize_mem _ _ _ _ r hr
    exact ⟨e, (sortByScoreDesc_perm _).mem_iff.mp he, h1, h2, h4, h5⟩
  have hformula : ∀ r ∈ rrfFusion b v k,
      r.rrfScore = rrfContribution k (bm25RankOf b r.hash)
        + rrfContribution k (vectorRankOf v r.hash) ∧
      r.bm25Rank = bm25RankOf b r.hash ∧
      r.vectorRank = vectorRankOf v r.hash := by
    intro r hr
    obtain ⟨e, he, h1, h2, h4, h5⟩ := hchar r hr
    obtain ⟨g1, g2, g3⟩ := buildScoreMap_mem b v k hb hv e he
    exact ⟨by rw [h2, g1, h1], by rw [h4, g2, h1], by rw [h5, g3, h1]⟩
  refine ⟨fun r hr => (hformula r hr).1, ?_, ?_⟩
  · intro r hr r' hr' hb3 hv3 hr'cases
    obtain ⟨f1, f2, f3⟩ := hformula r hr
    obtain ⟨g1, g2, g3⟩ := hformula r' hr'
    have hrscore : r.rrfScore = 1 / (k + 3) + 1 / (k + 3) := by
      rw [f1, ← f2, ← f3, hb3, hv3]
      norm_num [rrfContribution]
    have hpos : (0 : ℚ) < 1 / (k + 3) := by positivity
    rcases hr'cases with ⟨hb', hv'⟩ | ⟨hb', hv'⟩
    · have : r'.rrfScore = 1 / (k + 3) := by
        rw [g1, ← g2, ← g3, hb', hv']
        norm_num [rrfContribution]
      rw [this, hrscore]; linarith
    · have : r'.rrfScore = 1 / (k + 3) := by
        rw [g1, ← g2, ← g3, hb', hv']
        norm_num [rrfContribution]
      rw [this, hrscore]; linarith
  · simp only [rrfFusion]
    have hL := sortByScoreDesc_chain' (buildScoreMap b v k)
    have hmap : List.Chain' (fun a b : ℚ => b ≤ a)
        ((sortByScoreDesc (buildScoreMap b v k)).map (fun e => e.rrfScore)) :=
      (List.chain'_map _).mpr hL
    rw [← finalize_map_rrfScore _ _ _ 1] at hmap
    exact (List.chain'_map _).mp hmap

/-- C2: for a non-empty fused result set under positive `k`, the first
(best) result normalizes to 100 and the last (worst) to 0 unless all raw
RRF scores are equal, in which case the divide-by-zero guard makes every
normalized score 0. -/
theorem rrf_fusion_normalization_bounds (b : List SearchResult)
    (v : List VectorSearchResult) (k : ℚ) (hk : 0 < k)
    (hne : rrfFusion b v k ≠ []) :
    ((∃ r ∈ rrfFusion b v k, ∃ r' ∈ rrfFusion b v k,
        r.rrfScore ≠ r'.rrfScore) →
      ((rrfFusion b v k).head?).map (fun r => r.normalizedScore) = some 100 ∧
      ((rrfFusion b v k).getLast?).map (fun r => r.normalizedScore) = some 0) ∧
    ((∀ r ∈ rrfFusion b v k, ∀ r' ∈ rrfFusion b v k,
        r.rrfScore = r'.rrfScore) →
      ∀ r ∈ rrfFusion b v k, r.normalizedScore = 0) := by
  have hpos : ∀ e ∈ sortByScoreDesc (buildScoreMap b v k), 0 < e.rrfScore :=
    fun e he => buildScoreMap_pos b v k hk e
      ((sortByScoreDesc_perm _).mem_iff.mp he)
  have hch := sortByScoreDesc_chain' (buildScoreMap b v k)
  cases hL : sortByScoreDesc (buildScoreMap b v k) with
  | nil =>
    exfalso
    apply hne
    simp only [rrfFusion, hL]
    rfl
  | cons hd t =>
    rw [hL] at hpos hch
    obtain ⟨lst, hlst⟩ : ∃ lst, (hd :: t).getLast? = some lst := by
      cases t with
      | nil => exact ⟨hd, rfl⟩
      | cons y ys =>
        rw [List.getLast?_cons_cons]
        exact ⟨(y :: ys).getLast (by simp), List.getLast?_eq_getLast _ _⟩
    have hlst_mem : lst ∈ hd :: t := getLast?_mem_fused _ lst hlst
    have hhd_pos : 0 < hd.rrfScore := hpos hd (List.mem_cons_self hd t)
    have hfus : rrfFusion b v k
        = finalize lst.rrfScore
            (if hd.rrfScore - lst.rrfScore = 0 then 1
             else hd.rrfScore - lst.rrfScore) 1 (hd :: t) := by
      simp only [rrfFusion, hL, List.head?_cons, hlst,
        if_neg (ne_of_gt hhd_pos)]
    constructor
    · intro hdiff
      have hne' : hd.rrfScore ≠ lst.rrfScore := by
        intro hcontra
        obtain ⟨r, hr, r', hr', hrne⟩ := hdiff
        rw [hfus] at hr hr'
        obtain ⟨e, he, _, hsc, _, _, _, _, _⟩ := finalize_mem _ _ _ _ r hr
        obtain ⟨e', he', _, hsc', _, _, _, _, _⟩ := finalize_mem _ _ _ _ r' hr'
        have h1 : e.rrfScore ≤ hd.rrfScore := chain'_desc_head_le t hd hch e he
        have h2 : lst.rrfScore ≤ e.rrfScore :=
          chain'_desc_getLast_le _ hch lst hlst e he
        have h1' : e'.rrfScore ≤ hd.rrfScore := chain'_desc_head_le t hd hch e' he'
        have h2' : lst.rrfScore ≤ e'.rrfScore :=
          chain'_desc_getLast_le _ hch lst hlst e' he'
        apply hrne
        rw [hsc, hsc']
        rw [hcontra] at h1 h1'
        linarith
      have hr0 : hd.rrfScore - lst.rrfScore ≠ 0 := sub_ne_zero.mpr hne'
      rw [hfus, if_neg hr0]
      constructor
      · rw [finalize_head?_norm, List.head?_cons]
        simp only [Option.map_some']
        rw [div_self hr0]
        norm_num
      · rw [finalize_getLast?_norm, hlst]
        simp
    · intro hall r hr
      have hlstr : ∃ rl ∈ rrfFusion b v k, rl.rrfScore = lst.rrfScore := by
        rw [hfus]
        obtain ⟨rl, hrl, h1, _⟩ := finalize_mem_rev _ _ (hd :: t) 1 lst hlst_mem
        exact ⟨rl, hrl, h1⟩
      obtain ⟨rl, hrl, hrlsc⟩ := hlstr
      have hreq : r.rrfScore = lst.rrfScore := by
        rw [← hrlsc]
        exact hall r hr rl hrl
      rw [hfus] at hr
      obtain ⟨e, he, _, hsc, hnorm, _, _, _, _⟩ := finalize_mem _ _ _ _ r hr
      rw [hnorm, ← hsc, hreq]
      simp

theorem mapSet_ne_nil (key : List Nat) (e : FusedEntry) (m : List FusedEntry) :
    mapSet key e m ≠ [] := by
  cases m with
  | nil => simp [mapSet]
  | cons x xs =>
    rw [mapSet]
    split
    · simp
    · simp

theorem mapSet_length_ge (key : List Nat) (e : FusedEntry) :
    ∀ (m : List FusedEntry), m.length ≤ (mapSet key e m).length := by
  intro m
  induction m with
  | nil => simp [mapSet]
  | cons x xs ih =>
    rw [mapSet]
    split
    · simp
    · simpa using ih

theorem processBM25_length_ge (k : ℚ) :
    ∀ (l : List SearchResult) (s : Nat) (m : List FusedEntry),
      m.length ≤ (processBM25 k s l m).length := by
  intro l
  induction l with
  | nil => intro s m; exact le_refl _
  | cons r rs ih =>
    intro s m
    rw [processBM25]
    exact le_trans (mapSet_length_ge _ _ m) (ih (s + 1) _)

theorem vectorStep_length_ge (k : ℚ) (m : List FusedEntry) (s : Nat)
    (r : VectorSearchResult) : m.length ≤ (vectorStep k m s r).length := by
  rw [vectorStep]
  split
  · simp
  · simp

theorem processVector_length_ge (k : ℚ) :
    ∀ (l : List VectorSearchResult) (s : Nat) (m : List FusedEntry),
      m.length ≤ (processVector k s l m).length := by
  intro l
  induction l with
  | nil => intro s m; exact le_refl _
  | cons r rs ih =>
    intro s m
    rw [processVector]
    exact le_trans (vectorStep_length_ge k m s r) (ih (s + 1) _)

theorem finalize_ne_nil (mn rg : ℚ) (s : Nat) (e : FusedEntry)
    (l : List FusedEntry) : finalize mn rg s (e :: l) ≠ [] := by
  rw [finalize]
  simp

/-- A fusion over a non-empty BM25 candidate list is non-empty. -/
theorem rrfFusion_ne_nil_of_bm25_ne_nil (b : List SearchResult)
    (v : List VectorSearchResult) (k : ℚ) (hb : b ≠ []) :
    rrfFusion b v k ≠ [] := by
  have hm : 1 ≤ (buildScoreMap b v k).length := by
    rw [buildScoreMap]
    cases b with
    | nil => exact absurd rfl hb
    | cons r rs =>
      refine le_trans ?_ (processVector_length_ge k v 1 _)
      rw [processBM25]
      refine le_trans ?_ (processBM25_length_ge k rs 2 _)
      have := mapSet_ne_nil r.hash (mkBM25Entry k 1 r) []
      cases hms : mapSet r.hash (mkBM25Entry k 1 r) [] with
      | nil => exact absurd hms this
      | cons x xs => simp
  have hL : 1 ≤ (sortByScoreDesc (buildScoreMap b v k)).length := by
    rw [(sortByScoreDesc_perm _).length_eq]
    exact hm
  simp only [rrfFusion]
  cases hLc : sortByScoreDesc (buildScoreMap b v k) with
  | nil => rw [hLc] at hL; simp at hL
  | cons e l => exact finalize_ne_nil _ _ 1 e l

/-- C1 witness: the fused-score theorem applied to concrete candidate
lists with `k = 60`. -/
theorem rrf_fusion_score_sum_and_order_witness :
    (∀ r ∈ rrfFusion wBM25 wVec 60,
        r.rrfScore = rrfContribution 60 (bm25RankOf wBM25 r.hash)
          + rrfContribution 60 (vectorRankOf wVec r.hash)) ∧
    (∀ r ∈ rrfFusion wBM25 wVec 60, ∀ r' ∈ rrfFusion wBM25 wVec 60,
        r.bm25Rank = some 3 → r.vectorRank = some 3 →
        ((r'.bm25Rank = some 3 ∧ r'.vectorRank = none) ∨
         (r'.bm25Rank = none ∧ r'.vectorRank = some 3)) →
        r'.rrfScore < r.rrfScore) ∧
    List.Chain' (fun x y => y.rrfScore ≤ x.rrfScore) (rrfFusion wBM25 wVec 60) :=
  rrf_fusion_score_sum_and_order wBM25 wVec 60 (by norm_num)
    (by decide) (by decide)

/-- C2 witness: the normalization-bounds theorem applied to the concrete
candidate lists with `k = 60`. -/
theorem rrf_fusion_normalization_bounds_witness :
    ((∃ r ∈ rrfFusion wBM25 wVec 60, ∃ r' ∈ rrfFusion wBM25 wVec 60,
        r.rrfScore ≠ r'.rrfScore) →
      ((rrfFusion wBM25 wVec 60).head?).map (fun r => r.normalizedScore) = some 100 ∧
      ((rrfFusion wBM25 wVec 60).getLast?).map (fun r => r.normalizedScore) = some 0) ∧
    ((∀ r ∈ rrfFusion wBM25 wVec 60, ∀ r' ∈ rrfFusion wBM25 wVec 60,
        r.rrfScore = r'.rrfScore) →
      ∀ r ∈ rrfFusion wBM25 wVec 60, r.normalizedScore = 0) :=
  rrf_fusion_normalization_bounds wBM25 wVec 60 (by norm_num)
    (rrfFusion_ne_nil_of_bm25_ne_nil wBM25 wVec 60 (by simp [wBM25]))

/-! ## Theorems about the score conversions (C4, C5) -/

/-- C4 (counterexample): the claim asserts that for raw scores
`r1 < r2 ≤ 0` the normalized score of `r1` is strictly *higher*; at
`r1 = -1`, `r2 = 0` the code gives `normalizeBM25Score (-1) = 50` and
`normalizeBM25Score 0 = 100`, so the more negative raw score normalizes
strictly *lower*. -/
theorem normalizeBM25_monotone_claim_false :
    (-1 : ℚ) < 0 ∧ (0 : ℚ) ≤ 0 ∧
    normalizeBM25Score (-1) = 50 ∧ normalizeBM25Score 0 = 100 ∧
    ¬ normalizeBM25Score (-1) > normalizeBM25Score 0 := by
  refine ⟨by norm_num, le_refl 0, ?_, ?_, ?_⟩ <;>
    simp [normalizeBM25Score] <;> norm_num

/-- C4 (amended): `normalizeBM25Score` maps a raw lexical score to
`(1 / (1 + |raw|)) * 100`; it is strictly *increasing* on raw scores
`r1 < r2 ≤ 0` (a more negative raw score gets a strictly lower normalized
score), and `raw = 0` maps to `100`. -/
theorem normalizeBM25_formula_and_monotone (r1 r2 : ℚ)
    (h12 : r1 < r2) (h2 : r2 ≤ 0) :
    normalizeBM25Score r1 = 1 / (1 + |r1|) * 100 ∧
    normalizeBM25Score r1 < normalizeBM25Score r2 ∧
    normalizeBM25Score 0 = 100 := by
  refine ⟨rfl, ?_, by norm_num [normalizeBM25Score]⟩
  have h1 : r1 < 0 := lt_of_lt_of_le h12 h2
  have ha1 : |r1| = -r1 := abs_of_neg h1
  have ha2 : |r2| = -r2 := abs_of_nonpos h2
  have hlt : 1 + |r2| < 1 + |r1| := by rw [ha1, ha2]; linarith
  have hpos : (0 : ℚ) < 1 + |r2| := by positivity
  have : 1 / (1 + |r1|) < 1 / (1 + |r2|) :=
    one_div_lt_one_div_of_lt hpos hlt
  unfold normalizeBM25Score
  have h100 : (0 : ℚ) < 100 := by norm_num
  exact mul_lt_mul_of_pos_right this h100

/-- C4 witness: the amended monotonicity at `r1 = -1`, `r2 = 0`. -/
theorem normalizeBM25_formula_and_monotone_witness :
    normalizeBM25Score (-1) = 1 / (1 + |(-1 : ℚ)|) * 100 ∧
    normalizeBM25Score (-1) < normalizeBM25Score 0 ∧
    normalizeBM25Score 0 = 100 :=
  normalizeBM25_formula_and_monotone (-1) 0 (by norm_num) le_rfl

/-- C5: score conversions round-trip exactly over the rationals: for
`0 < s < 100`, `denormalizeToBM25 s` produces a raw magnitude that
`normalizeBM25Score` maps back to `s`, and for `0 ≤ t ≤ 100`,
`distanceToSimilarity (similarityToDistance t) = t`. -/
theorem score_conversion_round_trip (s t : ℚ)
    (hs0 : 0 < s) (hs1 : s < 100) (ht0 : 0 ≤ t) (ht1 : t ≤ 100) :
    (denormalizeToBM25 s).map normalizeBM25Score = some s ∧
    distanceToSimilarity (similarityToDistance t) = t := by
  constructor
  · have h1 : ¬ s ≤ 0 := not_le.mpr hs0
    have h2 : ¬ 100 ≤ s := not_le.mpr hs1
    simp only [denormalizeToBM25, if_neg h1, if_neg h2, Option.map_some]
    have hge : (1 : ℚ) ≤ 100 / s := by
      rw [le_div_iff₀ hs0]; linarith
    have habs : |100 / s - 1| = 100 / s - 1 := abs_of_nonneg (by linarith)
    show some (normalizeBM25Score (100 / s - 1)) = some s
    unfold normalizeBM25Score
    rw [habs]
    have hne : s ≠ 0 := ne_of_gt hs0
    field_simp
  · unfold similarityToDistance distanceToSimilarity
    have hmin : min 100 t = t := min_eq_right ht1
    have hmax : max 0 t = t := max_eq_right ht0
    rw [hmin, hmax]
    have hd0 : (0 : ℚ) ≤ 2 * (1 - t / 100) := by
      have : t / 100 ≤ 1 := by
        rw [div_le_one (by norm_num : (0 : ℚ) < 100)]; linarith
      linarith
    have hd2 : 2 * (1 - t / 100) ≤ 2 := by
      have : 0 ≤ t / 100 := by positivity
      linarith
    rw [min_eq_right hd2, max_eq_right hd0]
    ring

/-- C5 witness: round trips at `s = 50` and `t = 25`. -/
theorem score_conversion_round_trip_witness :
    (denormalizeToBM25 50).map normalizeBM25Score = some 50 ∧
    distanceToSimilarity (similarityToDistance 25) = 25 :=
  score_conversion_round_trip 50 25 (by norm_num) (by norm_num)
    (by norm_num) (by norm_num)

/-! ## Theorems about the search flows (C7, C8, C10) -/

@[simp] theorem applyVectorUpdate_bm25Score (k : ℚ) (rank : Nat)
    (r : VectorSearchResult) (e : FusedEntry) :
    (applyVectorUpdate k rank r e).bm25Score = e.bm25Score := rfl

@[simp] theorem applyVectorUpdate_similarity (k : ℚ) (rank : Nat)
    (r : VectorSearchResult) (e : FusedEntry) :
    (applyVectorUpdate k rank r e).similarity = some r.similarity := rfl

@[simp] theorem mkVectorEntry_bm25Score (k : ℚ) (rank : Nat)
    (r : VectorSearchResult) : (mkVectorEntry k rank r).bm25Score = none := rfl

@[simp] theorem mkVectorEntry_similarity (k : ℚ) (rank : Nat)
    (r : VectorSearchResult) :
    (mkVectorEntry k rank r).similarity = some r.similarity := rfl

theorem processVector_preserve (k : ℚ) (P : FusedEntry → Prop)
    (hupd : ∀ (s : Nat) (r : VectorSearchResult) (e : FusedEntry),
      P e → P (applyVectorUpdate k s r e))
    (hnew : ∀ (s : Nat) (r : VectorSearchResult), P (mkVectorEntry k s r)) :
    ∀ (l : List VectorSearchResult) (s : Nat) (m : List FusedEntry),
      (∀ e ∈ m, P e) → ∀ e ∈ processVector k s l m, P e := by
  intro l
  induction l with
  | nil => intro s m hm e he; exact hm e he
  | cons r rs ih =>
    intro s m hm e he
    rw [processVector] at he
    refine ih (s + 1) _ ?_ e he
    intro x hx
    rw [vectorStep] at hx
    split at hx
    · obtain ⟨y, hy, hyx⟩ := List.mem_map.mp hx
      subst hyx
      split
      · exact hupd s r y (hm y hy)
      · exact hm y hy
    · rcases List.mem_append.mp hx with h | h
      · exact hm x h
      · rw [List.mem_singleton.mp h]
        exact hnew s r

/-- Every entry accumulated by the first `forEach` pass satisfies any
property that holds of the incoming map entries and of every fresh BM25
entry (entries are only added or replaced by `mapSet`). -/
theorem processBM25_preserve (k : ℚ) (P : FusedEntry → Prop)
    (hmk : ∀ (s : Nat) (r : SearchResult), P (mkBM25Entry k s r)) :
    ∀ (l : List SearchResult) (s : Nat) (m : List FusedEntry),
      (∀ x ∈ m, P x) → ∀ e ∈ processBM25 k s l m, P e := by
  intro l
  induction l with
  | nil => intro s m hm e he; exact hm e he
  | cons r rs ih =>
    intro s m hm e he
    rw [processBM25] at he
    refine ih (s + 1) _ ?_ e he
    intro x hx
    rcases mapSet_mem _ _ m x hx with h | h
    · subst h; exact hmk s r
    · exact hm x h

/-- Every result fused from an empty vector list carries only BM25-side
score and rank fields. -/
theorem rrfFusion_nil_vector_fields (b : List SearchResult) (k : ℚ) :
    ∀ r ∈ rrfFusion b [] k,
      r.similarity = none ∧ r.vectorRank = none ∧
      r.bm25Score.isSome = true ∧ r.bm25Rank.isSome = true := by
  intro r hr
  simp only [rrfFusion] at hr
  obtain ⟨e, he, _, _, _, h4, h5, h6, h7⟩ := finalize_mem _ _ _ _ r hr
  have hmem : e ∈ buildScoreMap b [] k := (sortByScoreDesc_perm _).mem_iff.mp he
  rw [buildScoreMap] at hmem
  rw [show processVector k 1 ([] : List VectorSearchResult) (processBM25 k 1 b [])
      = processBM25 k 1 b [] from rfl] at hmem
  have := processBM25_preserve k
    (fun e => e.similarity = none ∧ e.vectorRank = none ∧
      e.bm25Score.isSome = true ∧ e.bm25Rank.isSome = true)
    (fun s r' => by refine ⟨rfl, rfl, rfl, rfl⟩)
    b 1 [] (by simp) e hmem
  exact ⟨h7 ▸ this.1, h5 ▸ this.2.1, h6 ▸ this.2.2.1, h4 ▸ this.2.2.2⟩

/-- Every result fused from an empty BM25 list carries only vector-side
score and rank fields. -/
theorem rrfFusion_nil_bm25_fields (v : List VectorSearchResult) (k : ℚ) :
    ∀ r ∈ rrfFusion [] v k,
      r.bm25Score = none ∧ r.bm25Rank = none ∧
      r.similarity.isSome = true ∧ r.vectorRank.isSome = true := by
  intro r hr
  simp only [rrfFusion] at hr
  obtain ⟨e, he, _, _, _, h4, h5, h6, h7⟩ := finalize_mem _ _ _ _ r hr
  have hmem : e ∈ buildScoreMap [] v k := (sortByScoreDesc_perm _).mem_iff.mp he
  rw [buildScoreMap] at hmem
  have hbase : processBM25 k 1 [] [] = ([] : List FusedEntry) := rfl
  rw [hbase] at hmem
  have := processVector_preserve k
    (fun e => e.bm25Score = none ∧ e.bm25Rank = none ∧
      e.similarity.isSome = true ∧ e.vectorRank.isSome = true)
    (fun s r' e' hP => by
      refine ⟨?_, ?_, ?_, ?_⟩ <;> simp [hP.1, hP.2.1])
    (fun s r' => by refine ⟨rfl, rfl, rfl, rfl⟩)
    v 1 [] (by simp) e hmem
  exact ⟨h6 ▸ this.1, h4 ▸ this.2.1, h7 ▸ this.2.2.1, h5 ▸ this.2.2.2⟩

/-- C7: under the default graceful strategy a throwing branch contributes
nothing while the other branch's results flow through fusion with only its
own score/rank fields and no error — stated for both directions: BM25
throwing with surviving vector results, and the vector branch throwing with
surviving BM25 results; under `fail` a branch error propagates (either
branch); and when both branches produce zero candidates, graceful mode
returns `[]` while `fail` raises the typed `NO_RESULTS` error. -/
theorem hybrid_search_fallback {ε : Type} (e0 e1 : ε)
    (vres : List VectorSearchResult) (bres : List SearchResult)
    (vOutcome : Except ε (List VectorSearchResult))
    (rrfK : ℚ) (hk : 0 < rrfK) (limit : Nat) (minScore : Option ℚ)
    (hvres : vres ≠ []) (hbres : bres ≠ []) :
    (hybridSearch .graceful true true (.error e0) (.ok vres) rrfK limit none
        = .ok ((rrfFusion [] vres rrfK).take limit) ∧
      ∀ r ∈ (rrfFusion [] vres rrfK).take limit,
        r.bm25Score = none ∧ r.bm25Rank = none ∧
        r.similarity.isSome = true ∧ r.vectorRank.isSome = true) ∧
    (hybridSearch .graceful true true (.ok bres) (.error e1) rrfK limit none
        = .ok ((rrfFusion bres [] rrfK).take limit) ∧
      ∀ r ∈ (rrfFusion bres [] rrfK).take limit,
        r.similarity = none ∧ r.vectorRank = none ∧
        r.bm25Score.isSome = true ∧ r.bm25Rank.isSome = true) ∧
    hybridSearch .fail true true (.error e0) vOutcome rrfK limit minScore
      = .error (.branch e0) ∧
    hybridSearch .fail true true (.ok bres) (.error e1) rrfK limit minScore
      = .error (.branch e1) ∧
    hybridSearch (ε := ε) .graceful true true (.ok []) (.ok []) rrfK limit minScore
      = .ok [] ∧
    hybridSearch (ε := ε) .fail true true (.ok []) (.ok []) rrfK limit minScore
      = .error (.hybrid .NO_RESULTS) := by
  have hknle : ¬ rrfK ≤ 0 := not_le.mpr hk
  have hvlen : 0 < vres.length := List.length_pos.mpr hvres
  have hblen : 0 < bres.length := List.length_pos.mpr hbres
  refine ⟨⟨?_, ?_⟩, ⟨?_, ?_⟩, ?_, ?_, ?_, ?_⟩
  · simp [hybridSearch, executeBM25Search, executeVectorSearch,
      hasResults, hknle, hvlen, Nat.pos_iff_ne_zero]
  · intro r hr
    exact rrfFusion_nil_bm25_fields vres rrfK r (List.take_subset limit _ hr)
  · simp [hybridSearch, executeBM25Search, executeVectorSearch,
      hasResults, hknle, hblen, Nat.pos_iff_ne_zero]
  · intro r hr
    exact rrfFusion_nil_vector_fields bres rrfK r (List.take_subset limit _ hr)
  · simp [hybridSearch, executeBM25Search, hknle]
  · simp [hybridSearch, executeBM25Search, executeVectorSearch, hknle]
  · simp [hybridSearch, executeBM25Search, executeVectorSearch,
      hasResults, hknle]
  · simp [hybridSearch, executeBM25Search, executeVectorSearch,
      hasResults, hknle]

/-- C7 witness: the fallback theorem at concrete outcomes. -/
theorem hybrid_search_fallback_witness :
    (hybridSearch .graceful true true (.error 7) (.ok wVec) 60 10 none
        = .ok ((rrfFusion [] wVec 60).take 10) ∧
      ∀ r ∈ (rrfFusion [] wVec 60).take 10,
        r.bm25Score = none ∧ r.bm25Rank = none ∧
        r.similarity.isSome = true ∧ r.vectorRank.isSome = true) ∧
    (hybridSearch .graceful true true (.ok wBM25) (.error 9) 60 10 none
        = .ok ((rrfFusion wBM25 [] 60).take 10) ∧
      ∀ r ∈ (rrfFusion wBM25 [] 60).take 10,
        r.similarity = none ∧ r.vectorRank = none ∧
        r.bm25Score.isSome = true ∧ r.bm25Rank.isSome = true) ∧
    hybridSearch .fail true true (.error 7) (.ok wVec) 60 10 none
      = .error (.branch 7) ∧
    hybridSearch .fail true true (.ok wBM25) (.error 9) 60 10 none
      = .error (.branch 9) ∧
    hybridSearch (ε := Nat) .graceful true true (.ok []) (.ok []) 60 10 none
      = .ok [] ∧
    hybridSearch (ε := Nat) .fail true true (.ok []) (.ok []) 60 10 none
      = .error (.hybrid .NO_RESULTS) :=
  hybrid_search_fallback 7 9 wVec wBM25 (.ok wVec) 60 (by norm_num) 10 none
    (by simp [wVec]) (by simp [wBM25])

/-! ### C8: FTS search error handling -/

/-- C8 (counterexample): the engine message `no such table: documents_fts`
is precisely how the engine reports that the full-text index object does
not exist, yet — lacking the substring `fts5` — the code surfaces it as a
typed `QUERY_ERROR` instead of an empty result list, for `search` and
`searchWithSnippets` alike. -/
theorem fts_missing_index_claim_false :
    specIndexMissing (strUnits "no such table: documents_fts") = true ∧
    ftsSearch true (strUnits "hello")
        (.error (strUnits "no such table: documents_fts"))
      = .error .QUERY_ERROR ∧
    ftsSearchWithSnippets true (strUnits "hello")
        (.error (strUnits "no such table: documents_fts"))
      = .error .QUERY_ERROR := by
  refine ⟨by decide, rfl, rfl⟩

/-- C8 (amended): `search` and `searchWithSnippets` return an empty result
list (not an error) exactly when the engine's error message contains the
substring `fts5`; every other engine failure surfaces as a typed
`SearchError`, with `DB_NOT_INITIALIZED` for an uninitialized searcher and
`QUERY_ERROR` for query execution failures. -/
theorem fts_error_handling (query msg : List Nat) (eo : EngineOutcome)
    (hq : sanitizeFTS5Query query ≠ []) :
    ftsSearch false query eo = .error .DB_NOT_INITIALIZED ∧
    ftsSearchWithSnippets false query eo = .error .DB_NOT_INITIALIZED ∧
    (ftsSearch true query (.error msg) = .ok []
      ↔ containsSub (strUnits "fts5") msg = true) ∧
    (containsSub (strUnits "fts5") msg = false →
      ftsSearch true query (.error msg) = .error .QUERY_ERROR) ∧
    (ftsSearchWithSnippets true query (.error msg) = .ok []
      ↔ containsSub (strUnits "fts5") msg = true) ∧
    (containsSub (strUnits "fts5") msg = false →
      ftsSearchWithSnippets true query (.error msg) = .error .QUERY_ERROR) := by
  refine ⟨rfl, rfl, ?_, ?_, ?_, ?_⟩
  · rw [ftsSearch]
    simp only [Bool.not_true, Bool.false_eq_true, if_false, if_neg hq]
    cases hc : containsSub (strUnits "fts5") msg with
    | false => simp
    | true => simp
  · intro hc
    rw [ftsSearch]
    simp only [Bool.not_true, Bool.false_eq_true, if_false, if_neg hq, hc]
  · rw [ftsSearchWithSnippets]
    simp only [Bool.not_true, Bool.false_eq_true, if_false, if_neg hq]
    cases hc : containsSub (strUnits "fts5") msg with
    | false => simp
    | true => simp
  · intro hc
    rw [ftsSearchWithSnippets]
    simp only [Bool.not_true, Bool.false_eq_true, if_false, if_neg hq, hc]

/-- C8 witness: the amended error-handling theorem at a concrete query and
a non-FTS5 engine failure. -/
theorem fts_error_handling_witness :
    ftsSearch false (strUnits "hello") (.ok []) = .error .DB_NOT_INITIALIZED ∧
    ftsSearchWithSnippets false (strUnits "hello") (.ok [])
      = .error .DB_NOT_INITIALIZED ∧
    (ftsSearch true (strUnits "hello") (.error (strUnits "disk I/O error")) = .ok []
      ↔ containsSub (strUnits "fts5") (strUnits "disk I/O error") = true) ∧
    (containsSub (strUnits "fts5") (strUnits "disk I/O error") = false →
      ftsSearch true (strUnits "hello") (.error (strUnits "disk I/O error"))
        = .error .QUERY_ERROR) ∧
    (ftsSearchWithSnippets true (strUnits "hello")
        (.error (strUnits "disk I/O error")) = .ok []
      ↔ containsSub (strUnits "fts5") (strUnits "disk I/O error") = true) ∧
    (containsSub (strUnits "fts5") (strUnits "disk I/O error") = false →
      ftsSearchWithSnippets true (strUnits "hello")
        (.error (strUnits "disk I/O error")) = .error .QUERY_ERROR) :=
  fts_error_handling (strUnits "hello") (strUnits "disk I/O error") (.ok [])
    (by decide)

/-! ### C10: vector search empty-query early return -/

/-- C10: when the query is empty or whitespace-only, `VectorSearcher.search`
returns an empty result list before the embedder availability check: the
outcome is `ok []` for every embedder availability and every behaviour of
the rest of the method, so no `EMBEDDER_NOT_AVAILABLE` error is raised and
no embedding is generated. -/
theorem vector_search_empty_query (query : List Nat)
    (hq : trimUnits query = []) :
    ∀ (embedderAvailable : Bool)
      (rest : Except VectorSearchErrorCode (List VectorSearchResult)),
      vectorSearch true query embedderAvailable rest = .ok [] := by
  intro embedderAvailable rest
  rw [vectorSearch]
  simp [hq]

/-- C10 witness: a whitespace-only query with the embedder unavailable and
a failing remainder still returns `ok []`. -/
theorem vector_search_empty_query_witness :
    trimUnits (strUnits "  ") = [] ∧
    vectorSearch true (strUnits "  ") false (.error .EMBEDDER_NOT_AVAILABLE)
      = .ok [] :=
  ⟨by decide, vector_search_empty_query (strUnits "  ") (by decide) false _⟩


set_option maxRecDepth 100000

/-- C9 (counterexample): with `maxTokens = 8` and `overlapPercent = 3/8`
(overlap budget `3`), the recorded chunk start positions of the adversarial
document are not non-decreasing: the 20th chunk starts at 137 and the 21st
at 128. -/
theorem chunk_document_pos_claim_false :
    overlapTokensOf 8 (3/8) = 3 ∧
    ¬ List.Chain' (fun a b : DocumentChunk => a.pos ≤ b.pos)
        (chunkDocument 8 3 [104] wChunkContent) := by
  constructor
  · norm_num [overlapTokensOf]
    rfl
  · intro hch
    have hsents : splitIntoSentences wChunkContent = [[68, 114, 46, 32, 65, 46], [68, 114, 46, 32, 66, 46], [68, 114, 46, 32, 67, 46], [68, 114, 46, 32, 68, 46], [68, 114, 46, 32, 69, 46], [68, 114, 46, 32, 70, 46], [68, 114, 46, 32, 71, 46], [68, 114, 46, 32, 72, 46], [68, 114, 46, 32, 73, 46], [68, 114, 46, 32, 74, 46], [68, 114, 46, 32, 75, 46], [68, 114, 46, 32, 76, 46], [68, 114, 46, 32, 77, 46], [68, 114, 46, 32, 78, 46], [68, 114, 46, 32, 79, 46], [68, 114, 46, 32, 80, 46], [68, 114, 46, 32, 81, 46], [68, 114, 46, 32, 82, 46], [68, 114, 46, 32, 83, 46], [68, 114, 46, 32, 84, 46], [68, 114, 46, 32, 90, 46, 46, 46], [68, 114, 46, 32, 89, 46], [68, 114, 46, 32, 88, 46]] := by decide
    have hs1 : buildSegmentsGo 8 wChunkContent [[68, 114, 46, 32, 65, 46], [68, 114, 46, 32, 66, 46], [68, 114, 46, 32, 67, 46], [68, 114, 46, 32, 68, 46], [68, 114, 46, 32, 69, 46], [68, 114, 46, 32, 70, 46], [68, 114, 46, 32, 71, 46], [68, 114, 46, 32, 72, 46], [68, 114, 46, 32, 73, 46], [68, 114, 46, 32, 74, 46], [68, 114, 46, 32, 75, 46], [68, 114, 46, 32, 76, 46], [68, 114, 46, 32, 77, 46], [68, 114, 46, 32, 78, 46], [68, 114, 46, 32, 79, 46], [68, 114, 46, 32, 80, 46], [68, 114, 46, 32, 81, 46], [68, 114, 46, 32, 82, 46], [68, 114, 46, 32, 83, 46], [68, 114, 46, 32, 84, 46], [68, 114, 46, 32, 90, 46, 46, 46], [68, 114, 46, 32, 89, 46], [68, 114, 46, 32, 88, 46]] 0
        = ⟨[68, 114, 46, 32, 65, 46], 4, 0⟩ :: buildSegmentsGo 8 wChunkContent [[68, 114, 46, 32, 66, 46], [68, 114, 46, 32, 67, 46], [68, 114, 46, 32, 68, 46], [68, 114, 46, 32, 69, 46], [68, 114, 46, 32, 70, 46], [68, 114, 46, 32, 71, 46], [68, 114, 46, 32, 72, 46], [68, 114, 46, 32, 73, 46], [68, 114, 46, 32, 74, 46], [68, 114, 46, 32, 75, 46], [68, 114, 46, 32, 76, 46], [68, 114, 46, 32, 77, 46], [68, 114, 46, 32, 78, 46], [68, 114, 46, 32, 79, 46], [68, 114, 46, 32, 80, 46], [68, 114, 46, 32, 81, 46], [68, 114, 46, 32, 82, 46], [68, 114, 46, 32, 83, 46], [68, 114, 46, 32, 84, 46], [68, 114, 46, 32, 90, 46, 46, 46], [68, 114, 46, 32, 89, 46], [68, 114, 46, 32, 88, 46]] 6 := by rfl
    have hs2 : buildSegmentsGo 8 wChunkContent [[68, 114, 46, 32, 66, 46], [68, 114, 46, 32, 67, 46], [68, 114, 46, 32, 68, 46], [68, 114, 46, 32, 69, 46], [68, 114, 46, 32, 70, 46], [68, 114, 46, 32, 71, 46], [68, 114, 46, 32, 72, 46], [68, 114, 46, 32, 73, 46], [68, 114, 46, 32, 74, 46], [68, 114, 46, 32, 75, 46], [68, 114, 46, 32, 76, 46], [68, 114, 46, 32, 77, 46], [68, 114, 46, 32, 78, 46], [68, 114, 46, 32, 79, 46], [68, 114, 46, 32, 80, 46], [68, 114, 46, 32, 81, 46], [68, 114, 46, 32, 82, 46], [68, 114, 46, 32, 83, 46], [68, 114, 46, 32, 84, 46], [68, 114, 46, 32, 90, 46, 46, 46], [68, 114, 46, 32, 89, 46], [68, 114, 46, 32, 88, 46]] 6
        = ⟨[68, 114, 46, 32, 66, 46], 4, 6⟩ :: buildSegmentsGo 8 wChunkContent [[68, 114, 46, 32, 67, 46], [68, 114, 46, 32, 68, 46], [68, 114, 46, 32, 69, 46], [68, 114, 46, 32, 70, 46], [68, 114, 46, 32, 71, 46], [68, 114, 46, 32, 72, 46], [68, 114, 46, 32, 73, 46], [68, 114, 46, 32, 74, 46], [68, 114, 46, 32, 75, 46], [68, 114, 46, 32, 76, 46], [68, 114, 46, 32, 77, 46], [68, 114, 46, 32, 78, 46], [68, 114, 46, 32, 79, 46], [68, 114, 46, 32, 80, 46], [68, 114, 46, 32, 81, 46], [68, 114, 46, 32, 82, 46], [68, 114, 46, 32, 83, 46], [68, 114, 46, 32, 84, 46], [68, 114, 46, 32, 90, 46, 46, 46], [68, 114, 46, 32, 89, 46], [68, 114, 46, 32, 88, 46]] 12 := by rfl
    have hs3 : buildSegmentsGo 8 wChunkContent [[68, 114, 46, 32, 67, 46], [68, 114, 46, 32, 68, 46], [68, 114, 46, 32, 69, 46], [68, 114, 46, 32, 70, 46], [68, 114, 46, 32, 71, 46], [68, 114, 46, 32, 72, 46], [68, 114, 46, 32, 73, 46], [68, 114, 46, 32, 74, 46], [68, 114, 46, 32, 75, 46], [68, 114, 46, 32, 76, 46], [68, 114, 46, 32, 77, 46], [68, 114, 46, 32, 78, 46], [68, 114, 46, 32, 79, 46], [68, 114, 46, 32, 80, 46], [68, 114, 46, 32, 81, 46], [68, 114, 46, 32, 82, 46], [68, 114, 46, 32, 83, 46], [68, 114, 46, 32, 84, 46], [68, 114, 46, 32, 90, 46, 46, 46], [68, 114, 46, 32, 89, 46], [68, 114, 46, 32, 88, 46]] 12
        = ⟨[68, 114, 46, 32, 67, 46], 4, 12⟩ :: buildSegmentsGo 8 wChunkContent [[68, 114, 46, 32, 68, 46], [68, 114, 46, 32, 69, 46], [68, 114, 46, 32, 70, 46], [68, 114, 46, 32, 71, 46], [68, 114, 46, 32, 72, 46], [68, 114, 46, 32, 73, 46], [68, 114, 46, 32, 74, 46], [68, 114, 46, 32, 75, 46], [68, 114, 46, 32, 76, 46], [68, 114, 46, 32, 77, 46], [68, 114, 46, 32, 78, 46], [68, 114, 46, 32, 79, 46], [68, 114, 46, 32, 80, 46], [68, 114, 46, 32, 81, 46], [68, 114, 46, 32, 82, 46], [68, 114, 46, 32, 83, 46], [68, 114, 46, 32, 84, 46], [68, 114, 46, 32, 90, 46, 46, 46], [68, 114, 46, 32, 89, 46], [68, 114, 46, 32, 88, 46]] 18 := by rfl
    have hs4 : buildSegmentsGo 8 wChunkContent [[68, 114, 46, 32, 68, 46], [68, 114, 46, 32, 69, 46], [68, 114, 46, 32, 70, 46], [68, 114, 46, 32, 71, 46], [68, 114, 46, 32, 72, 46], [68, 114, 46, 32, 73, 46], [68, 114, 46, 32, 74, 46], [68, 114, 46, 32, 75, 46], [68, 114, 46, 32, 76, 46], [68, 114, 46, 32, 77, 46], [68, 114, 46, 32, 78, 46], [68, 114, 46, 32, 79, 46], [68, 114, 46, 32, 80, 46], [68, 114, 46, 32, 81, 46], [68, 114, 46, 32, 82, 46], [68, 114, 46, 32, 83, 46], [68, 114, 46, 32, 84, 46], [68, 114, 46, 32, 90, 46, 46, 46], [68, 114, 46, 32, 89, 46], [68, 114, 46, 32, 88, 46]] 18
        = ⟨[68, 114, 46, 32, 68, 46], 4, 18⟩ :: buildSegmentsGo 8 wChunkContent [[68, 114, 46, 32, 69, 46], [68, 114, 46, 32, 70, 46], [68, 114, 46, 32, 71, 46], [68, 114, 46, 32, 72, 46], [68, 114, 46, 32, 73, 46], [68, 114, 46, 32, 74, 46], [68, 114, 46, 32, 75, 46], [68, 114, 46, 32, 76, 46], [68, 114, 46, 32, 77, 46], [68, 114, 46, 32, 78, 46], [68, 114, 46, 32, 79, 46], [68, 114, 46, 32, 80, 46], [68, 114, 46, 32, 81, 46], [68, 114, 46, 32, 82, 46], [68, 114, 46, 32, 83, 46], [68, 114, 46, 32, 84, 46], [68, 114, 46, 32, 90, 46, 46, 46], [68, 114, 46, 32, 89, 46], [68, 114, 46, 32, 88, 46]] 24 := by rfl
    have hs5 : buildSegmentsGo 8 wChunkContent [[68, 114, 46, 32, 69, 46], [68, 114, 46, 32, 70, 46], [68, 114, 46, 32, 71, 46], [68, 114, 46, 32, 72, 46], [68, 114, 46, 32, 73, 46], [68, 114, 46, 32, 74, 46], [68, 114, 46, 32, 75, 46], [68, 114, 46, 32, 76, 46], [68, 114, 46, 32, 77, 46], [68, 114, 46, 32, 78, 46], [68, 114, 46, 32, 79, 46], [68, 114, 46, 32, 80, 46], [68, 114, 46, 32, 81, 46], [68, 114, 46, 32, 82, 46], [68, 114, 46, 32, 83, 46], [68, 114, 46, 32, 84, 46], [68, 114, 46, 32, 90, 46, 46, 46], [68, 114, 46, 32, 89, 46], [68, 114, 46, 32, 88, 46]] 24
        = ⟨[68, 114, 46, 32, 69, 46], 4, 24⟩ :: buildSegmentsGo 8 wChunkContent [[68, 114, 46, 32, 70, 46], [68, 114, 46, 32, 71, 46], [68, 114, 46, 32, 72, 46], [68, 114, 46, 32, 73, 46], [68, 114, 46, 32, 74, 46], [68, 114, 46, 32, 75, 46], [68, 114, 46, 32, 76, 46], [68, 114, 46, 32, 77, 46], [68, 114, 46, 32, 78, 46], [68, 114, 46, 32, 79, 46], [68, 114, 46, 32, 80, 46], [68, 114, 46, 32, 81, 46], [68, 114, 46, 32, 82, 46], [68, 114, 46, 32, 83, 46], [68, 114, 46, 32, 84, 46], [68, 114, 46, 32, 90, 46, 46, 46], [68, 114, 46, 32, 89, 46], [68, 114, 46, 32, 88, 46]] 30 := by rfl
    have hs6 : buildSegmentsGo 8 wChunkContent [[68, 114, 46, 32, 70, 46], [68, 114, 46, 32, 71, 46], [68, 114, 46, 32, 72, 46], [68, 114, 46, 32, 73, 46], [68, 114, 46, 32, 74, 46], [68, 114, 46, 32, 75, 46], [68, 114, 46, 32, 76, 46], [68, 114, 46, 32, 77, 46], [68, 114, 46, 32, 78, 46], [68, 114, 46, 32, 79, 46], [68, 114, 46, 32, 80, 46], [68, 114, 46, 32, 81, 46], [68, 114, 46, 32, 82, 46], [68, 114, 46, 32, 83, 46], [68, 114, 46, 32, 84, 46], [68, 114, 46, 32, 90, 46, 46, 46], [68, 114, 46, 32, 89, 46], [68, 114, 46, 32, 88, 46]] 30
        = ⟨[68, 114, 46, 32, 70, 46], 4, 30⟩ :: buildSegmentsGo 8 wChunkContent [[68, 114, 46, 32, 71, 46], [68, 114, 46, 32, 72, 46], [68, 114, 46, 32, 73, 46], [68, 114, 46, 32, 74, 46], [68, 114, 46, 32, 75, 46], [68, 114, 46, 32, 76, 46], [68, 114, 46, 32, 77, 46], [68, 114, 46, 32, 78, 46], [68, 114, 46, 32, 79, 46], [68, 114, 46, 32, 80, 46], [68, 114, 46, 32, 81, 46], [68, 114, 46, 32, 82, 46], [68, 114, 46, 32, 83, 46], [68, 114, 46, 32, 84, 46], [68, 114, 46, 32, 90, 46, 46, 46], [68, 114, 46, 32, 89, 46], [68, 114, 46, 32, 88, 46]] 36 := by rfl
    have hs7 : buildSegmentsGo 8 wChunkContent [[68, 114, 46, 32, 71, 46], [68, 114, 46, 32, 72, 46], [68, 114, 46, 32, 73, 46], [68, 114, 46, 32, 74, 46], [68, 114, 46, 32, 75, 46], [68, 114, 46, 32, 76, 46], [68, 114, 46, 32, 77, 46], [68, 114, 46, 32, 78, 46], [68, 114, 46, 32, 79, 46], [68, 114, 46, 32, 80, 46], [68, 114, 46, 32, 81, 46], [68, 114, 46, 32, 82, 46], [68, 114, 46, 32, 83, 46], [68, 114, 46, 32, 84, 46], [68, 114, 46, 32, 90, 46, 46, 46], [68, 114, 46, 32, 89, 46], [68, 114, 46, 32, 88, 46]] 36
        = ⟨[68, 114, 46, 32, 71, 46], 4, 36⟩ :: buildSegmentsGo 8 wChunkContent [[68, 114, 46, 32, 72, 46], [68, 114, 46, 32, 73, 46], [68, 114, 46, 32, 74, 46], [68, 114, 46, 32, 75, 46], [68, 114, 46, 32, 76, 46], [68, 114, 46, 32, 77, 46], [68, 114, 46, 32, 78, 46], [68, 114, 46, 32, 79, 46], [68, 114, 46, 32, 80, 46], [68, 114, 46, 32, 81, 46], [68, 114, 46, 32, 82, 46], [68, 114, 46, 32, 83, 46], [68, 114, 46, 32, 84, 46], [68, 114, 46, 32, 90, 46, 46, 46], [68, 114, 46, 32, 89, 46], [68, 114, 46, 32, 88, 46]] 42 := by rfl
    have hs8 : buildSegmentsGo 8 wChunkContent [[68, 114, 46, 32, 72, 46], [68, 114, 46, 32, 73, 46], [68, 114, 46, 32, 74, 46], [68, 114, 46, 32, 75, 46], [68, 114, 46, 32, 76, 46], [68, 114, 46, 32, 77, 46], [68, 114, 46, 32, 78, 46], [68, 114, 46, 32, 79, 46], [68, 114, 46, 32, 80, 46], [68, 114, 46, 32, 81, 46], [68, 114, 46, 32, 82, 46], [68, 114, 46, 32, 83, 46], [68, 114, 46, 32, 84, 46], [68, 114, 46, 32, 90, 46, 46, 46], [68, 114, 46, 32, 89, 46], [68, 114, 46, 32, 88, 46]] 42
        = ⟨[68, 114, 46, 32, 72, 46], 4, 42⟩ :: buildSegmentsGo 8 wChunkContent [[68, 114, 46, 32, 73, 46], [68, 114, 46, 32, 74, 46], [68, 114, 46, 32, 75, 46], [68, 114, 46, 32, 76, 46], [68, 114, 46, 32, 77, 46], [68, 114, 46, 32, 78, 46], [68, 114, 46, 32, 79, 46], [68, 114, 46, 32, 80, 46], [68, 114, 46, 32, 81, 46], [68, 114, 46, 32, 82, 46], [68, 114, 46, 32, 83, 46], [68, 114, 46, 32, 84, 46], [68, 114, 46, 32, 90, 46, 46, 46], [68, 114, 46, 32, 89, 46], [68, 114, 46, 32, 88, 46]] 48 := by rfl
    have hs9 : buildSegmentsGo 8 wChunkContent [[68, 114, 46, 32, 73, 46], [68, 114, 46, 32, 74, 46], [68, 114, 46, 32, 75, 46], [68, 114, 46, 32, 76, 46], [68, 114, 46, 32, 77, 46], [68, 114, 46, 32, 78, 46], [68, 114, 46, 32, 79, 46], [68, 114, 46, 32, 80, 46], [68, 114, 46, 32, 81, 46], [68, 114, 46, 32, 82, 46], [68, 114, 46, 32, 83, 46], [68, 114, 46, 32, 84, 46], [68, 114, 46, 32, 90, 46, 46, 46], [68, 114, 46, 32, 89, 46], [68, 114, 46, 32, 88, 46]] 48
        = ⟨[68, 114, 46, 32, 73, 46], 4, 48⟩ :: buildSegmentsGo 8 wChunkContent [[68, 114, 46, 32, 74, 46], [68, 114, 46, 32, 75, 46], [68, 114, 46, 32, 76, 46], [68, 114, 46, 32, 77, 46], [68, 114, 46, 32, 78, 46], [68, 114, 46, 32, 79, 46], [68, 114, 46, 32, 80, 46], [68, 114, 46, 32, 81, 46], [68, 114, 46, 32, 82, 46], [68, 114, 46, 32, 83, 46], [68, 114, 46, 32, 84, 46], [68, 114, 46, 32, 90, 46, 46, 46], [68, 114, 46, 32, 89, 46], [68, 114, 46, 32, 88, 46]] 54 := by rfl
    have hs10 : buildSegmentsGo 8 wChunkContent [[68, 114, 46, 32, 74, 46], [68, 114, 46, 32, 75, 46], [68, 114, 46, 32, 76, 46], [68, 114, 46, 32, 77, 46], [68, 114, 46, 32, 78, 46], [68, 114, 46, 32, 79, 46], [68, 114, 46, 32, 80, 46], [68, 114, 46, 32, 81, 46], [68, 114, 46, 32, 82, 46], [68, 114, 46, 32, 83, 46], [68, 114, 46, 32, 84, 46], [68, 114, 46, 32, 90, 46, 46, 46], [68, 114, 46, 32, 89, 46], [68, 114, 46, 32, 88, 46]] 54
        = ⟨[68, 114, 46, 32, 74, 46], 4, 54⟩ :: buildSegmentsGo 8 wChunkContent [[68, 114, 46, 32, 75, 46], [68, 114, 46, 32, 76, 46], [68, 114, 46, 32, 77, 46], [68, 114, 46, 32, 78, 46], [68, 114, 46, 32, 79, 46], [68, 114, 46, 32, 80, 46], [68, 114, 46, 32, 81, 46], [68, 114, 46, 32, 82, 46], [68, 114, 46, 32, 83, 46], [68, 114, 46, 32, 84, 46], [68, 114, 46, 32, 90, 46, 46, 46], [68, 114, 46, 32, 89, 46], [68, 114, 46, 32, 88, 46]] 60 := by rfl
    have hs11 : buildSegmentsGo 8 wChunkContent [[68, 114, 46, 32, 75, 46], [68, 114, 46, 32, 76, 46], [68, 114, 46, 32, 77, 46], [68, 114, 46, 32, 78, 46], [68, 114, 46, 32, 79, 46], [68, 114, 46, 32, 80, 46], [68, 114, 46, 32, 81, 46], [68, 114, 46, 32, 82, 46], [68, 114, 46, 32, 83, 46], [68, 114, 46, 32, 84, 46], [68, 114, 46, 32, 90, 46, 46, 46], [68, 114, 46, 32, 89, 46], [68, 114, 46, 32, 88, 46]] 60
        = ⟨[68, 114, 46, 32, 75, 46], 4, 60⟩ :: buildSegmentsGo 8 wChunkContent [[68, 114, 46, 32, 76, 46], [68, 114, 46, 32, 77, 46], [68, 114, 46, 32, 78, 46], [68, 114, 46, 32, 79, 46], [68, 114, 46, 32, 80, 46], [68, 114, 46, 32, 81, 46], [68, 114, 46, 32, 82, 46], [68, 114, 46, 32, 83, 46], [68, 114, 46, 32, 84, 46], [68, 114, 46, 32, 90, 46, 46, 46], [68, 114, 46, 32, 89, 46], [68, 114, 46, 32, 88, 46]] 66 := by rfl
    have hs12 : buildSegmentsGo 8 wChunkContent [[68, 114, 46, 32, 76, 46], [68, 114, 46, 32, 77, 46], [68, 114, 46, 32, 78, 46], [68, 114, 46, 32, 79, 46], [68, 114, 46, 32, 80, 46], [68, 114, 46, 32, 81, 46], [68, 114, 46, 32, 82, 46], [68, 114, 46, 32, 83, 46], [68, 114, 46, 32, 84, 46], [68, 114, 46, 32, 90, 46, 46, 46], [68, 114, 46, 32, 89, 46], [68, 114, 46, 32, 88, 46]] 66
        = ⟨[68, 114, 46, 32, 76, 46], 4, 66⟩ :: buildSegmentsGo 8 wChunkContent [[68, 114, 46, 32, 77, 46], [68, 114, 46, 32, 78, 46], [68, 114, 46, 32, 79, 46], [68, 114, 46, 32, 80, 46], [68, 114, 46, 32, 81, 46], [68, 114, 46, 32, 82, 46], [68, 114, 46, 32, 83, 46], [68, 114, 46, 32, 84, 46], [68, 114, 46, 32, 90, 46, 46, 46], [68, 114, 46, 32, 89, 46], [68, 114, 46, 32, 88, 46]] 72 := by rfl
    have hs13 : buildSegmentsGo 8 wChunkContent [[68, 114, 46, 32, 77, 46], [68, 114, 46, 32, 78, 46], [68, 114, 46, 32, 79, 46], [68, 114, 46, 32, 80, 46], [68, 114, 46, 32, 81, 46], [68, 114, 46, 32, 82, 46], [68, 114, 46, 32, 83, 46], [68, 114, 46, 32, 84, 46], [68, 114, 46, 32, 90, 46, 46, 46], [68, 114, 46, 32, 89, 46], [68, 114, 46, 32, 88, 46]] 72
        = ⟨[68, 114, 46, 32, 77, 46], 4, 72⟩ :: buildSegmentsGo 8 wChunkContent [[68, 114, 46, 32, 78, 46], [68, 114, 46, 32, 79, 46], [68, 114, 46, 32, 80, 46], [68, 114, 46, 32, 81, 46], [68, 114, 46, 32, 82, 46], [68, 114, 46, 32, 83, 46], [68, 114, 46, 32, 84, 46], [68, 114, 46, 32, 90, 46, 46, 46], [68, 114, 46, 32, 89, 46], [68, 114, 46, 32, 88, 46]] 78 := by rfl
    have hs14 : buildSegmentsGo 8 wChunkContent [[68, 114, 46, 32, 78, 46], [68, 114, 46, 32, 79, 46], [68, 114, 46, 32, 80, 46], [68, 114, 46, 32, 81, 46], [68, 114, 46, 32, 82, 46], [68, 114, 46, 32, 83, 46], [68, 114, 46, 32, 84, 46], [68, 114, 46, 32, 90, 46, 46, 46], [68, 114, 46, 32, 89, 46], [68, 114, 46, 32, 88, 46]] 78
        = ⟨[68, 114, 46, 32, 78, 46], 4, 78⟩ :: buildSegmentsGo 8 wChunkContent [[68, 114, 46, 32, 79, 46], [68, 114, 46, 32, 80, 46], [68, 114, 46, 32, 81, 46], [68, 114, 46, 32, 82, 46], [68, 114, 46, 32, 83, 46], [68, 114, 46, 32, 84, 46], [68, 114, 46, 32, 90, 46, 46, 46], [68, 114, 46, 32, 89, 46], [68, 114, 46, 32, 88, 46]] 84 := by rfl
    have hs15 : buildSegmentsGo 8 wChunkContent [[68, 114, 46, 32, 79, 46], [68, 114, 46, 32, 80, 46], [68, 114, 46, 32, 81, 46], [68, 114, 46, 32, 82, 46], [68, 114, 46, 32, 83, 46], [68, 114, 46, 32, 84, 46], [68, 114, 46, 32, 90, 46, 46, 46], [68, 114, 46, 32, 89, 46], [68, 114, 46, 32, 88, 46]] 84
        = ⟨[68, 114, 46, 32, 79, 46], 4, 84⟩ :: buildSegmentsGo 8 wChunkContent [[68, 114, 46, 32, 80, 46], [68, 114, 46, 32, 81, 46], [68, 114, 46, 32, 82, 46], [68, 114, 46, 32, 83, 46], [68, 114, 46, 32, 84, 46], [68, 114, 46, 32, 90, 46, 46, 46], [68, 114, 46, 32, 89, 46], [68, 114, 46, 32, 88, 46]] 90 := by rfl
    have hs16 : buildSegmentsGo 8 wChunkContent [[68, 114, 46, 32, 80, 46], [68, 114, 46, 32, 81, 46], [68, 114, 46, 32, 82, 46], [68, 114, 46, 32, 83, 46], [68, 114, 46, 32, 84, 46], [68, 114, 46, 32, 90, 46, 46, 46], [68, 114, 46, 32, 89, 46], [68, 114, 46, 32, 88, 46]] 90
        = ⟨[68, 114, 46, 32, 80, 46], 4, 90⟩ :: buildSegmentsGo 8 wChunkContent [[68, 114, 46, 32, 81, 46], [68, 114, 46, 32, 82, 46], [68, 114, 46, 32, 83, 46], [68, 114, 46, 32, 84, 46], [68, 114, 46, 32, 90, 46, 46, 46], [68, 114, 46, 32, 89, 46], [68, 114, 46, 32, 88, 46]] 96 := by rfl
    have hs17 : buildSegmentsGo 8 wChunkContent [[68, 114, 46, 32, 81, 46], [68, 114, 46, 32, 82, 46], [68, 114, 46, 32, 83, 46], [68, 114, 46, 32, 84, 46], [68, 114, 46, 32, 90, 46, 46, 46], [68, 114, 46, 32, 89, 46], [68, 114, 46, 32, 88, 46]] 96
        = ⟨[68, 114, 46, 32, 81, 46], 4, 96⟩ :: buildSegmentsGo 8 wChunkContent [[68, 114, 46, 32, 82, 46], [68, 114, 46, 32, 83, 46], [68, 114, 46, 32, 84, 46], [68, 114, 46, 32, 90, 46, 46, 46], [68, 114, 46, 32, 89, 46], [68, 114, 46, 32, 88, 46]] 102 := by rfl
    have hs18 : buildSegmentsGo 8 wChunkContent [[68, 114, 46, 32, 82, 46], [68, 114, 46, 32, 83, 46], [68, 114, 46, 32, 84, 46], [68, 114, 46, 32, 90, 46, 46, 46], [68, 114, 46, 32, 89, 46], [68, 114, 46, 32, 88, 46]] 102
        = ⟨[68, 114, 46, 32, 82, 46], 4, 102⟩ :: buildSegmentsGo 8 wChunkContent [[68, 114, 46, 32, 83, 46], [68, 114, 46, 32, 84, 46], [68, 114, 46, 32, 90, 46, 46, 46], [68, 114, 46, 32, 89, 46], [68, 114, 46, 32, 88, 46]] 108 := by rfl
    have hs19 : buildSegmentsGo 8 wChunkContent [[68, 114, 46, 32, 83, 46], [68, 114, 46, 32, 84, 46], [68, 114, 46, 32, 90, 46, 46, 46], [68, 114, 46, 32, 89, 46], [68, 114, 46, 32, 88, 46]] 108
        = ⟨[68, 114, 46, 32, 83, 46], 4, 108⟩ :: buildSegmentsGo 8 wChunkContent [[68, 114, 46, 32, 84, 46], [68, 114, 46, 32, 90, 46, 46, 46], [68, 114, 46, 32, 89, 46], [68, 114, 46, 32, 88, 46]] 114 := by rfl
    have hs20 : buildSegmentsGo 8 wChunkContent [[68, 114, 46, 32, 84, 46], [68, 114, 46, 32, 90, 46, 46, 46], [68, 114, 46, 32, 89, 46], [68, 114, 46, 32, 88, 46]] 114
        = ⟨[68, 114, 46, 32, 84, 46], 4, 114⟩ :: buildSegmentsGo 8 wChunkContent [[68, 114, 46, 32, 90, 46, 46, 46], [68, 114, 46, 32, 89, 46], [68, 114, 46, 32, 88, 46]] 120 := by rfl
    have hs21 : buildSegmentsGo 8 wChunkContent [[68, 114, 46, 32, 90, 46, 46, 46], [68, 114, 46, 32, 89, 46], [68, 114, 46, 32, 88, 46]] 120
        = ⟨[68, 114, 46, 32, 90, 46, 46, 46], 5, 120⟩ :: buildSegmentsGo 8 wChunkContent [[68, 114, 46, 32, 89, 46], [68, 114, 46, 32, 88, 46]] 128 := by rfl
    have hs22 : buildSegmentsGo 8 wChunkContent [[68, 114, 46, 32, 89, 46], [68, 114, 46, 32, 88, 46]] 128
        = ⟨[68, 114, 46, 32, 89, 46], 4, 128⟩ :: buildSegmentsGo 8 wChunkContent [[68, 114, 46, 32, 88, 46]] 134 := by rfl
    have hs23 : buildSegmentsGo 8 wChunkContent [[68, 114, 46, 32, 88, 46]] 134
        = ⟨[68, 114, 46, 32, 88, 46], 4, 134⟩ :: buildSegmentsGo 8 wChunkContent [] 140 := by rfl
    have hs24 : buildSegmentsGo 8 wChunkContent ([] : List (List Nat)) 140 = [] := by rfl
    have hseg : buildSegments 8 wChunkContent = [⟨[68, 114, 46, 32, 65, 46], 4, 0⟩, ⟨[68, 114, 46, 32, 66, 46], 4, 6⟩, ⟨[68, 114, 46, 32, 67, 46], 4, 12⟩, ⟨[68, 114, 46, 32, 68, 46], 4, 18⟩, ⟨[68, 114, 46, 32, 69, 46], 4, 24⟩, ⟨[68, 114, 46, 32, 70, 46], 4, 30⟩, ⟨[68, 114, 46, 32, 71, 46], 4, 36⟩, ⟨[68, 114, 46, 32, 72, 46], 4, 42⟩, ⟨[68, 114, 46, 32, 73, 46], 4, 48⟩, ⟨[68, 114, 46, 32, 74, 46], 4, 54⟩, ⟨[68, 114, 46, 32, 75, 46], 4, 60⟩, ⟨[68, 114, 46, 32, 76, 46], 4, 66⟩, ⟨[68, 114, 46, 32, 77, 46], 4, 72⟩, ⟨[68, 114, 46, 32, 78, 46], 4, 78⟩, ⟨[68, 114, 46, 32, 79, 46], 4, 84⟩, ⟨[68, 114, 46, 32, 80, 46], 4, 90⟩, ⟨[68, 114, 46, 32, 81, 46], 4, 96⟩, ⟨[68, 114, 46, 32, 82, 46], 4, 102⟩, ⟨[68, 114, 46, 32, 83, 46], 4, 108⟩, ⟨[68, 114, 46, 32, 84, 46], 4, 114⟩, ⟨[68, 114, 46, 32, 90, 46, 46, 46], 5, 120⟩, ⟨[68, 114, 46, 32, 89, 46], 4, 128⟩, ⟨[68, 114, 46, 32, 88, 46], 4, 134⟩] := by
      rw [buildSegments, hsents]
      rw [hs1, hs2, hs3, hs4, hs5, hs6, hs7, hs8, hs9, hs10, hs11, hs12, hs13, hs14, hs15, hs16, hs17, hs18, hs19, hs20, hs21, hs22, hs23, hs24]
    have hc1 : chunkStep [104] 8 3 (⟨[], [], 0, 0, 0, [], 0, 0⟩ : ChunkState) ⟨[68, 114, 46, 32, 65, 46], 4, 0⟩
        = (⟨[], [⟨[68, 114, 46, 32, 65, 46], 4, 0⟩], 4, 0, 0, [], 0, 0⟩ : ChunkState) := by decide
    have hc2 : chunkStep [104] 8 3 (⟨[], [⟨[68, 114, 46, 32, 65, 46], 4, 0⟩], 4, 0, 0, [], 0, 0⟩ : ChunkState) ⟨[68, 114, 46, 32, 66, 46], 4, 6⟩
        = (⟨[], [⟨[68, 114, 46, 32, 65, 46], 4, 0⟩, ⟨[68, 114, 46, 32, 66, 46], 4, 6⟩], 8, 0, 0, [], 0, 0⟩ : ChunkState) := by decide
    have hc3 : chunkStep [104] 8 3 (⟨[], [⟨[68, 114, 46, 32, 65, 46], 4, 0⟩, ⟨[68, 114, 46, 32, 66, 46], 4, 6⟩], 8, 0, 0, [], 0, 0⟩ : ChunkState) ⟨[68, 114, 46, 32, 67, 46], 4, 12⟩
        = (⟨[⟨[104], 0, 0, [68, 114, 46, 32, 65, 46, 32, 68, 114, 46, 32, 66, 46], 8⟩], [⟨[66, 46], 3, 11⟩, ⟨[68, 114, 46, 32, 67, 46], 4, 12⟩], 7, 1, 11, [66, 46], 3, 11⟩ : ChunkState) := by decide
    have hc4 : chunkStep [104] 8 3 (⟨[⟨[104], 0, 0, [68, 114, 46, 32, 65, 46, 32, 68, 114, 46, 32, 66, 46], 8⟩], [⟨[66, 46], 3, 11⟩, ⟨[68, 114, 46, 32, 67, 46], 4, 12⟩], 7, 1, 11, [66, 46], 3, 11⟩ : ChunkState) ⟨[68, 114, 46, 32, 68, 46], 4, 18⟩
        = (⟨[⟨[104], 0, 0, [68, 114, 46, 32, 65, 46, 32, 68, 114, 46, 32, 66, 46], 8⟩, ⟨[104], 1, 11, [66, 46, 32, 68, 114, 46, 32, 67, 46], 6⟩], [⟨[67, 46], 3, 18⟩, ⟨[68, 114, 46, 32, 68, 46], 4, 18⟩], 7, 2, 18, [67, 46], 3, 7⟩ : ChunkState) := by decide
    have hc5 : chunkStep [104] 8 3 (⟨[⟨[104], 0, 0, [68, 114, 46, 32, 65, 46, 32, 68, 114, 46, 32, 66, 46], 8⟩, ⟨[104], 1, 11, [66, 46, 32, 68, 114, 46, 32, 67, 46], 6⟩], [⟨[67, 46], 3, 18⟩, ⟨[68, 114, 46, 32, 68, 46], 4, 18⟩], 7, 2, 18, [67, 46], 3, 7⟩ : ChunkState) ⟨[68, 114, 46, 32, 69, 46], 4, 24⟩
        = (⟨[⟨[104], 0, 0, [68, 114, 46, 32, 65, 46, 32, 68, 114, 46, 32, 66, 46], 8⟩, ⟨[104], 1, 11, [66, 46, 32, 68, 114, 46, 32, 67, 46], 6⟩, ⟨[104], 2, 18, [67, 46, 32, 68, 114, 46, 32, 68, 46], 6⟩], [⟨[68, 46], 3, 25⟩, ⟨[68, 114, 46, 32, 69, 46], 4, 24⟩], 7, 3, 25, [68, 46], 3, 7⟩ : ChunkState) := by decide
    have hc6 : chunkStep [104] 8 3 (⟨[⟨[104], 0, 0, [68, 114, 46, 32, 65, 46, 32, 68, 114, 46, 32, 66, 46], 8⟩, ⟨[104], 1, 11, [66, 46, 32, 68, 114, 46, 32, 67, 46], 6⟩, ⟨[104], 2, 18, [67, 46, 32, 68, 114, 46, 32, 68, 46], 6⟩], [⟨[68, 46], 3, 25⟩, ⟨[68, 114, 46, 32, 69, 46], 4, 24⟩], 7, 3, 25, [68, 46], 3, 7⟩ : ChunkState) ⟨[68, 114, 46, 32, 70, 46], 4, 30⟩
        = (⟨[⟨[104], 0, 0, [68, 114, 46, 32, 65, 46, 32, 68, 114, 46, 32, 66, 46], 8⟩, ⟨[104], 1, 11, [66, 46, 32, 68, 114, 46, 32, 67, 46], 6⟩, ⟨[104], 2, 18, [67, 46, 32, 68, 114, 46, 32, 68, 46], 6⟩, ⟨[104], 3, 25, [68, 46, 32, 68, 114, 46, 32, 69, 46], 6⟩], [⟨[69, 46], 3, 32⟩, ⟨[68, 114, 46, 32, 70, 46], 4, 30⟩], 7, 4, 32, [69, 46], 3, 7⟩ : ChunkState) := by decide
    have hc7 : chunkStep [104] 8 3 (⟨[⟨[104], 0, 0, [68, 114, 46, 32, 65, 46, 32, 68, 114, 46, 32, 66, 46], 8⟩, ⟨[104], 1, 11, [66, 46, 32, 68, 114, 46, 32, 67, 46], 6⟩, ⟨[104], 2, 18, [67, 46, 32, 68, 114, 46, 32, 68, 46], 6⟩, ⟨[104], 3, 25, [68, 46, 32, 68, 114, 46, 32, 69, 46], 6⟩], [⟨[69, 46], 3, 32⟩, ⟨[68, 114, 46, 32, 70, 46], 4, 30⟩], 7, 4, 32, [69, 46], 3, 7⟩ : ChunkState) ⟨[68, 114, 46, 32, 71, 46], 4, 36⟩
        = (⟨[⟨[104], 0, 0, [68, 114, 46, 32, 65, 46, 32, 68, 114, 46, 32, 66, 46], 8⟩, ⟨[104], 1, 11, [66, 46, 32, 68, 114, 46, 32, 67, 46], 6⟩, ⟨[104], 2, 18, [67, 46, 32, 68, 114, 46, 32, 68, 46], 6⟩, ⟨[104], 3, 25, [68, 46, 32, 68, 114, 46, 32, 69, 46], 6⟩, ⟨[104], 4, 32, [69, 46, 32, 68, 114, 46, 32, 70, 46], 6⟩], [⟨[70, 46], 3, 39⟩, ⟨[68, 114, 46, 32, 71, 46], 4, 36⟩], 7, 5, 39, [70, 46], 3, 7⟩ : ChunkState) := by decide
    have hc8 : chunkStep [104] 8 3 (⟨[⟨[104], 0, 0, [68, 114, 46, 32, 65, 46, 32, 68, 114, 46, 32, 66, 46], 8⟩, ⟨[104], 1, 11, [66, 46, 32, 68, 114, 46, 32, 67, 46], 6⟩, ⟨[104], 2, 18, [67, 46, 32, 68, 114, 46, 32, 68, 46], 6⟩, ⟨[104], 3, 25, [68, 46, 32, 68, 114, 46, 32, 69, 46], 6⟩, ⟨[104], 4, 32, [69, 46, 32, 68, 114, 46, 32, 70, 46], 6⟩], [⟨[70, 46], 3, 39⟩, ⟨[68, 114, 46, 32, 71, 46], 4, 36⟩], 7, 5, 39, [70, 46], 3, 7⟩ : ChunkState) ⟨[68, 114, 46, 32, 72, 46], 4, 42⟩
        = (⟨[⟨[104], 0, 0, [68, 114, 46, 32, 65, 46, 32, 68, 114, 46, 32, 66, 46], 8⟩, ⟨[104], 1, 11, [66, 46, 32, 68, 114, 46, 32, 67, 46], 6⟩, ⟨[104], 2, 18, [67, 46, 32, 68, 114, 46, 32, 68, 46], 6⟩, ⟨[104], 3, 25, [68, 46, 32, 68, 114, 46, 32, 69, 46], 6⟩, ⟨[104], 4, 32, [69, 46, 32, 68, 114, 46, 32, 70, 46], 6⟩, ⟨[104], 5, 39, [70, 46, 32, 68, 114, 46, 32, 71, 46], 6⟩], [⟨[71, 46], 3, 46⟩, ⟨[68, 114, 46, 32, 72, 46], 4, 42⟩], 7, 6, 46, [71, 46], 3, 7⟩ : ChunkState) := by decide
    have hc9 : chunkStep [104] 8 3 (⟨[⟨[104], 0, 0, [68, 114, 46, 32, 65, 46, 32, 68, 114, 46, 32, 66, 46], 8⟩, ⟨[104], 1, 11, [66, 46, 32, 68, 114, 46, 32, 67, 46], 6⟩, ⟨[104], 2, 18, [67, 46, 32, 68, 114, 46, 32, 68, 46], 6⟩, ⟨[104], 3, 25, [68, 46, 32, 68, 114, 46, 32, 69, 46], 6⟩, ⟨[104], 4, 32, [69, 46, 32, 68, 114, 46, 32, 70, 46], 6⟩, ⟨[104], 5, 39, [70, 46, 32, 68, 114, 46, 32, 71, 46], 6⟩], [⟨[71, 46], 3, 46⟩, ⟨[68, 114, 46, 32, 72, 46], 4, 42⟩], 7, 6, 46, [71, 46], 3, 7⟩ : ChunkState) ⟨[68, 114, 46, 32, 73, 46], 4, 48⟩
        = (⟨[⟨[104], 0, 0, [68, 114, 46, 32, 65, 46, 32, 68, 114, 46, 32, 66, 46], 8⟩, ⟨[104], 1, 11, [66, 46, 32, 68, 114, 46, 32, 67, 46], 6⟩, ⟨[104], 2, 18, [67, 46, 32, 68, 114, 46, 32, 68, 46], 6⟩, ⟨[104], 3, 25, [68, 46, 32, 68, 114, 46, 32, 69, 46], 6⟩, ⟨[104], 4, 32, [69, 46, 32, 68, 114, 46, 32, 70, 46], 6⟩, ⟨[104], 5, 39, [70, 46, 32, 68, 114, 46, 32, 71, 46], 6⟩, ⟨[104], 6, 46, [71, 46, 32, 68, 114, 46, 32, 72, 46], 6⟩], [⟨[72, 46], 3, 53⟩, ⟨[68, 114, 46, 32, 73, 46], 4, 48⟩], 7, 7, 53, [72, 46], 3, 7⟩ : ChunkState) := by decide
    have hc10 : chunkStep [104] 8 3 (⟨[⟨[104], 0, 0, [68, 114, 46, 32, 65, 46, 32, 68, 114, 46, 32, 66, 46], 8⟩, ⟨[104], 1, 11, [66, 46, 32, 68, 114, 46, 32, 67, 46], 6⟩, ⟨[104], 2, 18, [67, 46, 32, 68, 114, 46, 32, 68, 46], 6⟩, ⟨[104], 3, 25, [68, 46, 32, 68, 114, 46, 32, 69, 46], 6⟩, ⟨[104], 4, 32, [69, 46, 32, 68, 114, 46, 32, 70, 46], 6⟩, ⟨[104], 5, 39, [70, 46, 32, 68, 114, 46, 32, 71, 46], 6⟩, ⟨[104], 6, 46, [71, 46, 32, 68, 114, 46, 32, 72, 46], 6⟩], [⟨[72, 46], 3, 53⟩, ⟨[68, 114, 46, 32, 73, 46], 4, 48⟩], 7, 7, 53, [72, 46], 3, 7⟩ : ChunkState) ⟨[68, 114, 46, 32, 74, 46], 4, 54⟩
        = (⟨[⟨[104], 0, 0, [68, 114, 46, 32, 65, 46, 32, 68, 114, 46, 32, 66, 46], 8⟩, ⟨[104], 1, 11, [66, 46, 32, 68, 114, 46, 32, 67, 46], 6⟩, ⟨[104], 2, 18, [67, 46, 32, 68, 114, 46, 32, 68, 46], 6⟩, ⟨[104], 3, 25, [68, 46, 32, 68, 114, 46, 32, 69, 46], 6⟩, ⟨[104], 4, 32, [69, 46, 32, 68, 114, 46, 32, 70, 46], 6⟩, ⟨[104], 5, 39, [70, 46, 32, 68, 114, 46, 32, 71, 46], 6⟩, ⟨[104], 6, 46, [71, 46, 32, 68, 114, 46, 32, 72, 46], 6⟩, ⟨[104], 7, 53, [72, 46, 32, 68, 114, 46, 32, 73, 46], 6⟩], [⟨[73, 46], 3, 60⟩, ⟨[68, 114, 46, 32, 74, 46], 4, 54⟩], 7, 8, 60, [73, 46], 3, 7⟩ : ChunkState) := by decide
    have hc11 : chunkStep [104] 8 3 (⟨[⟨[104], 0, 0, [68, 114, 46, 32, 65, 46, 32, 68, 114, 46, 32, 66, 46], 8⟩, ⟨[104], 1, 11, [66, 46, 32, 68, 114, 46, 32, 67, 46], 6⟩, ⟨[104], 2, 18, [67, 46, 32, 68, 114, 46, 32, 68, 46], 6⟩, ⟨[104], 3, 25, [68, 46, 32, 68, 114, 46, 32, 69, 46], 6⟩, ⟨[104], 4, 32, [69, 46, 32, 68, 114, 46, 32, 70, 46], 6⟩, ⟨[104], 5, 39, [70, 46, 32, 68, 114, 46, 32, 71, 46], 6⟩, ⟨[104], 6, 46, [71, 46, 32, 68, 114, 46, 32, 72, 46], 6⟩, ⟨[104], 7, 53, [72, 46, 32, 68, 114, 46, 32, 73, 46], 6⟩], [⟨[73, 46], 3, 60⟩, ⟨[68, 114, 46, 32, 74, 46], 4, 54⟩], 7, 8, 60, [73, 46], 3, 7⟩ : ChunkState) ⟨[68, 114, 46, 32, 75, 46], 4, 60⟩
        = (⟨[⟨[104], 0, 0, [68, 114, 46, 32, 65, 46, 32, 68, 114, 46, 32, 66, 46], 8⟩, ⟨[104], 1, 11, [66, 46, 32, 68, 114, 46, 32, 67, 46], 6⟩, ⟨[104], 2, 18, [67, 46, 32, 68, 114, 46, 32, 68, 46], 6⟩, ⟨[104], 3, 25, [68, 46, 32, 68, 114, 46, 32, 69, 46], 6⟩, ⟨[104], 4, 32, [69, 46, 32, 68, 114, 46, 32, 70, 46], 6⟩, ⟨[104], 5, 39, [70, 46, 32, 68, 114, 46, 32, 71, 46], 6⟩, ⟨[104], 6, 46, [71, 46, 32, 68, 114, 46, 32, 72, 46], 6⟩, ⟨[104], 7, 53, [72, 46, 32, 68, 114, 46, 32, 73, 46], 6⟩, ⟨[104], 8, 60, [73, 46, 32, 68, 114, 46, 32, 74, 46], 6⟩], [⟨[74, 46], 3, 67⟩, ⟨[68, 114, 46, 32, 75, 46], 4, 60⟩], 7, 9, 67, [74, 46], 3, 7⟩ : ChunkState) := by decide
    have hc12 : chunkStep [104] 8 3 (⟨[⟨[104], 0, 0, [68, 114, 46, 32, 65, 46, 32, 68, 114, 46, 32, 66, 46], 8⟩, ⟨[104], 1, 11, [66, 46, 32, 68, 114, 46, 32, 67, 46], 6⟩, ⟨[104], 2, 18, [67, 46, 32, 68, 114, 46, 32, 68, 46], 6⟩, ⟨[104], 3, 25, [68, 46, 32, 68, 114, 46, 32, 69, 46], 6⟩, ⟨[104], 4, 32, [69, 46, 32, 68, 114, 46, 32, 70, 46], 6⟩, ⟨[104], 5, 39, [70, 46, 32, 68, 114, 46, 32, 71, 46], 6⟩, ⟨[104], 6, 46, [71, 46, 32, 68, 114, 46, 32, 72, 46], 6⟩, ⟨[104], 7, 53, [72, 46, 32, 68, 114, 46, 32, 73, 46], 6⟩, ⟨[104], 8, 60, [73, 46, 32, 68, 114, 46, 32, 74, 46], 6⟩], [⟨[74, 46], 3, 67⟩, ⟨[68, 114, 46, 32, 75, 46], 4, 60⟩], 7, 9, 67, [74, 46], 3, 7⟩ : ChunkState) ⟨[68, 114, 46, 32, 76, 46], 4, 66⟩
        = (⟨[⟨[104], 0, 0, [68, 114, 46, 32, 65, 46, 32, 68, 114, 46, 32, 66, 46], 8⟩, ⟨[104], 1, 11, [66, 46, 32, 68, 114, 46, 32, 67, 46], 6⟩, ⟨[104], 2, 18, [67, 46, 32, 68, 114, 46, 32, 68, 46], 6⟩, ⟨[104], 3, 25, [68, 46, 32, 68, 114, 46, 32, 69, 46], 6⟩, ⟨[104], 4, 32, [69, 46, 32, 68, 114, 46, 32, 70, 46], 6⟩, ⟨[104], 5, 39, [70, 46, 32, 68, 114, 46, 32, 71, 46], 6⟩, ⟨[104], 6, 46, [71, 46, 32, 68, 114, 46, 32, 72, 46], 6⟩, ⟨[104], 7, 53, [72, 46, 32, 68, 114, 46, 32, 73, 46], 6⟩, ⟨[104], 8, 60, [73, 46, 32, 68, 114, 46, 32, 74, 46], 6⟩, ⟨[104], 9, 67, [74, 46, 32, 68, 114, 46, 32, 75, 46], 6⟩], [⟨[75, 46], 3, 74⟩, ⟨[68, 114, 46, 32, 76, 46], 4, 66⟩], 7, 10, 74, [75, 46], 3, 7⟩ : ChunkState) := by decide
    have hc13 : chunkStep [104] 8 3 (⟨[⟨[104], 0, 0, [68, 114, 46, 32, 65, 46, 32, 68, 114, 46, 32, 66, 46], 8⟩, ⟨[104], 1, 11, [66, 46, 32, 68, 114, 46, 32, 67, 46], 6⟩, ⟨[104], 2, 18, [67, 46, 32, 68, 114, 46, 32, 68, 46], 6⟩, ⟨[104], 3, 25, [68, 46, 32, 68, 114, 46, 32, 69, 46], 6⟩, ⟨[104], 4, 32, [69, 46, 32, 68, 114, 46, 32, 70, 46], 6⟩, ⟨[104], 5, 39, [70, 46, 32, 68, 114, 46, 32, 71, 46], 6⟩, ⟨[104], 6, 46, [71, 46, 32, 68, 114, 46, 32, 72, 46], 6⟩, ⟨[104], 7, 53, [72, 46, 32, 68, 114, 46, 32, 73, 46], 6⟩, ⟨[104], 8, 60, [73, 46, 32, 68, 114, 46, 32, 74, 46], 6⟩, ⟨[104], 9, 67, [74, 46, 32, 68, 114, 46, 32, 75, 46], 6⟩], [⟨[75, 46], 3, 74⟩, ⟨[68, 114, 46, 32, 76, 46], 4, 66⟩], 7, 10, 74, [75, 46], 3, 7⟩ : ChunkState) ⟨[68, 114, 46, 32, 77, 46], 4, 72⟩
        = (⟨[⟨[104], 0, 0, [68, 114, 46, 32, 65, 46, 32, 68, 114, 46, 32, 66, 46], 8⟩, ⟨[104], 1, 11, [66, 46, 32, 68, 114, 46, 32, 67, 46], 6⟩, ⟨[104], 2, 18, [67, 46, 32, 68, 114, 46, 32, 68, 46], 6⟩, ⟨[104], 3, 25, [68, 46, 32, 68, 114, 46, 32, 69, 46], 6⟩, ⟨[104], 4, 32, [69, 46, 32, 68, 114, 46, 32, 70, 46], 6⟩, ⟨[104], 5, 39, [70, 46, 32, 68, 114, 46, 32, 71, 46], 6⟩, ⟨[104], 6, 46, [71, 46, 32, 68, 114, 46, 32, 72, 46], 6⟩, ⟨[104], 7, 53, [72, 46, 32, 68, 114, 46, 32, 73, 46], 6⟩, ⟨[104], 8, 60, [73, 46, 32, 68, 114, 46, 32, 74, 46], 6⟩, ⟨[104], 9, 67, [74, 46, 32, 68, 114, 46, 32, 75, 46], 6⟩, ⟨[104], 10, 74, [75, 46, 32, 68, 114, 46, 32, 76, 46], 6⟩], [⟨[76, 46], 3, 81⟩, ⟨[68, 114, 46, 32, 77, 46], 4, 72⟩], 7, 11, 81, [76, 46], 3, 7⟩ : ChunkState) := by decide
    have hc14 : chunkStep [104] 8 3 (⟨[⟨[104], 0, 0, [68, 114, 46, 32, 65, 46, 32, 68, 114, 46, 32, 66, 46], 8⟩, ⟨[104], 1, 11, [66, 46, 32, 68, 114, 46, 32, 67, 46], 6⟩, ⟨[104], 2, 18, [67, 46, 32, 68, 114, 46, 32, 68, 46], 6⟩, ⟨[104], 3, 25, [68, 46, 32, 68, 114, 46, 32, 69, 46], 6⟩, ⟨[104], 4, 32, [69, 46, 32, 68, 114, 46, 32, 70, 46], 6⟩, ⟨[104], 5, 39, [70, 46, 32, 68, 114, 46, 32, 71, 46], 6⟩, ⟨[104], 6, 46, [71, 46, 32, 68, 114, 46, 32, 72, 46], 6⟩, ⟨[104], 7, 53, [72, 46, 32, 68, 114, 46, 32, 73, 46], 6⟩, ⟨[104], 8, 60, [73, 46, 32, 68, 114, 46, 32, 74, 46], 6⟩, ⟨[104], 9, 67, [74, 46, 32, 68, 114, 46, 32, 75, 46], 6⟩, ⟨[104], 10, 74, [75, 46, 32, 68, 114, 46, 32, 76, 46], 6⟩], [⟨[76, 46], 3, 81⟩, ⟨[68, 114, 46, 32, 77, 46], 4, 72⟩], 7, 11, 81, [76, 46], 3, 7⟩ : ChunkState) ⟨[68, 114, 46, 32, 78, 46], 4, 78⟩
        = (⟨[⟨[104], 0, 0, [68, 114, 46, 32, 65, 46, 32, 68, 114, 46, 32, 66, 46], 8⟩, ⟨[104], 1, 11, [66, 46, 32, 68, 114, 46, 32, 67, 46], 6⟩, ⟨[104], 2, 18, [67, 46, 32, 68, 114, 46, 32, 68, 46], 6⟩, ⟨[104], 3, 25, [68, 46, 32, 68, 114, 46, 32, 69, 46], 6⟩, ⟨[104], 4, 32, [69, 46, 32, 68, 114, 46, 32, 70, 46], 6⟩, ⟨[104], 5, 39, [70, 46, 32, 68, 114, 46, 32, 71, 46], 6⟩, ⟨[104], 6, 46, [71, 46, 32, 68, 114, 46, 32, 72, 46], 6⟩, ⟨[104], 7, 53, [72, 46, 32, 68, 114, 46, 32, 73, 46], 6⟩, ⟨[104], 8, 60, [73, 46, 32, 68, 114, 46, 32, 74, 46], 6⟩, ⟨[104], 9, 67, [74, 46, 32, 68, 114, 46, 32, 75, 46], 6⟩, ⟨[104], 10, 74, [75, 46, 32, 68, 114, 46, 32, 76, 46], 6⟩, ⟨[104], 11, 81, [76, 46, 32, 68, 114, 46, 32, 77, 46], 6⟩], [⟨[77, 46], 3, 88⟩, ⟨[68, 114, 46, 32, 78, 46], 4, 78⟩], 7, 12, 88, [77, 46], 3, 7⟩ : ChunkState) := by decide
    have hc15 : chunkStep [104] 8 3 (⟨[⟨[104], 0, 0, [68, 114, 46, 32, 65, 46, 32, 68, 114, 46, 32, 66, 46], 8⟩, ⟨[104], 1, 11, [66, 46, 32, 68, 114, 46, 32, 67, 46], 6⟩, ⟨[104], 2, 18, [67, 46, 32, 68, 114, 46, 32, 68, 46], 6⟩, ⟨[104], 3, 25, [68, 46, 32, 68, 114, 46, 32, 69, 46], 6⟩, ⟨[104], 4, 32, [69, 46, 32, 68, 114, 46, 32, 70, 46], 6⟩, ⟨[104], 5, 39, [70, 46, 32, 68, 114, 46, 32, 71, 46], 6⟩, ⟨[104], 6, 46, [71, 46, 32, 68, 114, 46, 32, 72, 46], 6⟩, ⟨[104], 7, 53, [72, 46, 32, 68, 114, 46, 32, 73, 46], 6⟩, ⟨[104], 8, 60, [73, 46, 32, 68, 114, 46, 32, 74, 46], 6⟩, ⟨[104], 9, 67, [74, 46, 32, 68, 114, 46, 32, 75, 46], 6⟩, ⟨[104], 10, 74, [75, 46, 32, 68, 114, 46, 32, 76, 46], 6⟩, ⟨[104], 11, 81, [76, 46, 32, 68, 114, 46, 32, 77, 46], 6⟩], [⟨[77, 46], 3, 88⟩, ⟨[68, 114, 46, 32, 78, 46], 4, 78⟩], 7, 12, 88, [77, 46], 3, 7⟩ : ChunkState) ⟨[68, 114, 46, 32, 79, 46], 4, 84⟩
        = (⟨[⟨[104], 0, 0, [68, 114, 46, 32, 65, 46, 32, 68, 114, 46, 32, 66, 46], 8⟩, ⟨[104], 1, 11, [66, 46, 32, 68, 114, 46, 32, 67, 46], 6⟩, ⟨[104], 2, 18, [67, 46, 32, 68, 114, 46, 32, 68, 46], 6⟩, ⟨[104], 3, 25, [68, 46, 32, 68, 114, 46, 32, 69, 46], 6⟩, ⟨[104], 4, 32, [69, 46, 32, 68, 114, 46, 32, 70, 46], 6⟩, ⟨[104], 5, 39, [70, 46, 32, 68, 114, 46, 32, 71, 46], 6⟩, ⟨[104], 6, 46, [71, 46, 32, 68, 114, 46, 32, 72, 46], 6⟩, ⟨[104], 7, 53, [72, 46, 32, 68, 114, 46, 32, 73, 46], 6⟩, ⟨[104], 8, 60, [73, 46, 32, 68, 114, 46, 32, 74, 46], 6⟩, ⟨[104], 9, 67, [74, 46, 32, 68, 114, 46, 32, 75, 46], 6⟩, ⟨[104], 10, 74, [75, 46, 32, 68, 114, 46, 32, 76, 46], 6⟩, ⟨[104], 11, 81, [76, 46, 32, 68, 114, 46, 32, 77, 46], 6⟩, ⟨[104], 12, 88, [77, 46, 32, 68, 114, 46, 32, 78, 46], 6⟩], [⟨[78, 46], 3, 95⟩, ⟨[68, 114, 46, 32, 79, 46], 4, 84⟩], 7, 13, 95, [78, 46], 3, 7⟩ : ChunkState) := by decide
    have hc16 : chunkStep [104] 8 3 (⟨[⟨[104], 0, 0, [68, 114, 46, 32, 65, 46, 32, 68, 114, 46, 32, 66, 46], 8⟩, ⟨[104], 1, 11, [66, 46, 32, 68, 114, 46, 32, 67, 46], 6⟩, ⟨[104], 2, 18, [67, 46, 32, 68, 114, 46, 32, 68, 46], 6⟩, ⟨[104], 3, 25, [68, 46, 32, 68, 114, 46, 32, 69, 46], 6⟩, ⟨[104], 4, 32, [69, 46, 32, 68, 114, 46, 32, 70, 46], 6⟩, ⟨[104], 5, 39, [70, 46, 32, 68, 114, 46, 32, 71, 46], 6⟩, ⟨[104], 6, 46, [71, 46, 32, 68, 114, 46, 32, 72, 46], 6⟩, ⟨[104], 7, 53, [72, 46, 32, 68, 114, 46, 32, 73, 46], 6⟩, ⟨[104], 8, 60, [73, 46, 32, 68, 114, 46, 32, 74, 46], 6⟩, ⟨[104], 9, 67, [74, 46, 32, 68, 114, 46, 32, 75, 46], 6⟩, ⟨[104], 10, 74, [75, 46, 32, 68, 114, 46, 32, 76, 46], 6⟩, ⟨[104], 11, 81, [76, 46, 32, 68, 114, 46, 32, 77, 46], 6⟩, ⟨[104], 12, 88, [77, 46, 32, 68, 114, 46, 32, 78, 46], 6⟩], [⟨[78, 46], 3, 95⟩, ⟨[68, 114, 46, 32, 79, 46], 4, 84⟩], 7, 13, 95, [78, 46], 3, 7⟩ : ChunkState) ⟨[68, 114, 46, 32, 80, 46], 4, 90⟩
        = (⟨[⟨[104], 0, 0, [68, 114, 46, 32, 65, 46, 32, 68, 114, 46, 32, 66, 46], 8⟩, ⟨[104], 1, 11, [66, 46, 32, 68, 114, 46, 32, 67, 46], 6⟩, ⟨[104], 2, 18, [67, 46, 32, 68, 114, 46, 32, 68, 46], 6⟩, ⟨[104], 3, 25, [68, 46, 32, 68, 114, 46, 32, 69, 46], 6⟩, ⟨[104], 4, 32, [69, 46, 32, 68, 114, 46, 32, 70, 46], 6⟩, ⟨[104], 5, 39, [70, 46, 32, 68, 114, 46, 32, 71, 46], 6⟩, ⟨[104], 6, 46, [71, 46, 32, 68, 114, 46, 32, 72, 46], 6⟩, ⟨[104], 7, 53, [72, 46, 32, 68, 114, 46, 32, 73, 46], 6⟩, ⟨[104], 8, 60, [73, 46, 32, 68, 114, 46, 32, 74, 46], 6⟩, ⟨[104], 9, 67, [74, 46, 32, 68, 114, 46, 32, 75, 46], 6⟩, ⟨[104], 10, 74, [75, 46, 32, 68, 114, 46, 32, 76, 46], 6⟩, ⟨[104], 11, 81, [76, 46, 32, 68, 114, 46, 32, 77, 46], 6⟩, ⟨[104], 12, 88, [77, 46, 32, 68, 114, 46, 32, 78, 46], 6⟩, ⟨[104], 13, 95, [78, 46, 32, 68, 114, 46, 32, 79, 46], 6⟩], [⟨[79, 46], 3, 102⟩, ⟨[68, 114, 46, 32, 80, 46], 4, 90⟩], 7, 14, 102, [79, 46], 3, 7⟩ : ChunkState) := by decide
    have hc17 : chunkStep [104] 8 3 (⟨[⟨[104], 0, 0, [68, 114, 46, 32, 65, 46, 32, 68, 114, 46, 32, 66, 46], 8⟩, ⟨[104], 1, 11, [66, 46, 32, 68, 114, 46, 32, 67, 46], 6⟩, ⟨[104], 2, 18, [67, 46, 32, 68, 114, 46, 32, 68, 46], 6⟩, ⟨[104], 3, 25, [68, 46, 32, 68, 114, 46, 32, 69, 46], 6⟩, ⟨[104], 4, 32, [69, 46, 32, 68, 114, 46, 32, 70, 46], 6⟩, ⟨[104], 5, 39, [70, 46, 32, 68, 114, 46, 32, 71, 46], 6⟩, ⟨[104], 6, 46, [71, 46, 32, 68, 114, 46, 32, 72, 46], 6⟩, ⟨[104], 7, 53, [72, 46, 32, 68, 114, 46, 32, 73, 46], 6⟩, ⟨[104], 8, 60, [73, 46, 32, 68, 114, 46, 32, 74, 46], 6⟩, ⟨[104], 9, 67, [74, 46, 32, 68, 114, 46, 32, 75, 46], 6⟩, ⟨[104], 10, 74, [75, 46, 32, 68, 114, 46, 32, 76, 46], 6⟩, ⟨[104], 11, 81, [76, 46, 32, 68, 114, 46, 32, 77, 46], 6⟩, ⟨[104], 12, 88, [77, 46, 32, 68, 114, 46, 32, 78, 46], 6⟩, ⟨[104], 13, 95, [78, 46, 32, 68, 114, 46, 32, 79, 46], 6⟩], [⟨[79, 46], 3, 102⟩, ⟨[68, 114, 46, 32, 80, 46], 4, 90⟩], 7, 14, 102, [79, 46], 3, 7⟩ : ChunkState) ⟨[68, 114, 46, 32, 81, 46], 4, 96⟩
        = (⟨[⟨[104], 0, 0, [68, 114, 46, 32, 65, 46, 32, 68, 114, 46, 32, 66, 46], 8⟩, ⟨[104], 1, 11, [66, 46, 32, 68, 114, 46, 32, 67, 46], 6⟩, ⟨[104], 2, 18, [67, 46, 32, 68, 114, 46, 32, 68, 46], 6⟩, ⟨[104], 3, 25, [68, 46, 32, 68, 114, 46, 32, 69, 46], 6⟩, ⟨[104], 4, 32, [69, 46, 32, 68, 114, 46, 32, 70, 46], 6⟩, ⟨[104], 5, 39, [70, 46, 32, 68, 114, 46, 32, 71, 46], 6⟩, ⟨[104], 6, 46, [71, 46, 32, 68, 114, 46, 32, 72, 46], 6⟩, ⟨[104], 7, 53, [72, 46, 32, 68, 114, 46, 32, 73, 46], 6⟩, ⟨[104], 8, 60, [73, 46, 32, 68, 114, 46, 32, 74, 46], 6⟩, ⟨[104], 9, 67, [74, 46, 32, 68, 114, 46, 32, 75, 46], 6⟩, ⟨[104], 10, 74, [75, 46, 32, 68, 114, 46, 32, 76, 46], 6⟩, ⟨[104], 11, 81, [76, 46, 32, 68, 114, 46, 32, 77, 46], 6⟩, ⟨[104], 12, 88, [77, 46, 32, 68, 114, 46, 32, 78, 46], 6⟩, ⟨[104], 13, 95, [78, 46, 32, 68, 114, 46, 32, 79, 46], 6⟩, ⟨[104], 14, 102, [79, 46, 32, 68, 114, 46, 32, 80, 46], 6⟩], [⟨[80, 46], 3, 109⟩, ⟨[68, 114, 46, 32, 81, 46], 4, 96⟩], 7, 15, 109, [80, 46], 3, 7⟩ : ChunkState) := by decide
    have hc18 : chunkStep [104] 8 3 (⟨[⟨[104], 0, 0, [68, 114, 46, 32, 65, 46, 32, 68, 114, 46, 32, 66, 46], 8⟩, ⟨[104], 1, 11, [66, 46, 32, 68, 114, 46, 32, 67, 46], 6⟩, ⟨[104], 2, 18, [67, 46, 32, 68, 114, 46, 32, 68, 46], 6⟩, ⟨[104], 3, 25, [68, 46, 32, 68, 114, 46, 32, 69, 46], 6⟩, ⟨[104], 4, 32, [69, 46, 32, 68, 114, 46, 32, 70, 46], 6⟩, ⟨[104], 5, 39, [70, 46, 32, 68, 114, 46, 32, 71, 46], 6⟩, ⟨[104], 6, 46, [71, 46, 32, 68, 114, 46, 32, 72, 46], 6⟩, ⟨[104], 7, 53, [72, 46, 32, 68, 114, 46, 32, 73, 46], 6⟩, ⟨[104], 8, 60, [73, 46, 32, 68, 114, 46, 32, 74, 46], 6⟩, ⟨[104], 9, 67, [74, 46, 32, 68, 114, 46, 32, 75, 46], 6⟩, ⟨[104], 10, 74, [75, 46, 32, 68, 114, 46, 32, 76, 46], 6⟩, ⟨[104], 11, 81, [76, 46, 32, 68, 114, 46, 32, 77, 46], 6⟩, ⟨[104], 12, 88, [77, 46, 32, 68, 114, 46, 32, 78, 46], 6⟩, ⟨[104], 13, 95, [78, 46, 32, 68, 114, 46, 32, 79, 46], 6⟩, ⟨[104], 14, 102, [79, 46, 32, 68, 114, 46, 32, 80, 46], 6⟩], [⟨[80, 46], 3, 109⟩, ⟨[68, 114, 46, 32, 81, 46], 4, 96⟩], 7, 15, 109, [80, 46], 3, 7⟩ : ChunkState) ⟨[68, 114, 46, 32, 82, 46], 4, 102⟩
        = (⟨[⟨[104], 0, 0, [68, 114, 46, 32, 65, 46, 32, 68, 114, 46, 32, 66, 46], 8⟩, ⟨[104], 1, 11, [66, 46, 32, 68, 114, 46, 32, 67, 46], 6⟩, ⟨[104], 2, 18, [67, 46, 32, 68, 114, 46, 32, 68, 46], 6⟩, ⟨[104], 3, 25, [68, 46, 32, 68, 114, 46, 32, 69, 46], 6⟩, ⟨[104], 4, 32, [69, 46, 32, 68, 114, 46, 32, 70, 46], 6⟩, ⟨[104], 5, 39, [70, 46, 32, 68, 114, 46, 32, 71, 46], 6⟩, ⟨[104], 6, 46, [71, 46, 32, 68, 114, 46, 32, 72, 46], 6⟩, ⟨[104], 7, 53, [72, 46, 32, 68, 114, 46, 32, 73, 46], 6⟩, ⟨[104], 8, 60, [73, 46, 32, 68, 114, 46, 32, 74, 46], 6⟩, ⟨[104], 9, 67, [74, 46, 32, 68, 114, 46, 32, 75, 46], 6⟩, ⟨[104], 10, 74, [75, 46, 32, 68, 114, 46, 32, 76, 46], 6⟩, ⟨[104], 11, 81, [76, 46, 32, 68, 114, 46, 32, 77, 46], 6⟩, ⟨[104], 12, 88, [77, 46, 32, 68, 114, 46, 32, 78, 46], 6⟩, ⟨[104], 13, 95, [78, 46, 32, 68, 114, 46, 32, 79, 46], 6⟩, ⟨[104], 14, 102, [79, 46, 32, 68, 114, 46, 32, 80, 46], 6⟩, ⟨[104], 15, 109, [80, 46, 32, 68, 114, 46, 32, 81, 46], 6⟩], [⟨[81, 46], 3, 116⟩, ⟨[68, 114, 46, 32, 82, 46], 4, 102⟩], 7, 16, 116, [81, 46], 3, 7⟩ : ChunkState) := by decide
    have hc19 : chunkStep [104] 8 3 (⟨[⟨[104], 0, 0, [68, 114, 46, 32, 65, 46, 32, 68, 114, 46, 32, 66, 46], 8⟩, ⟨[104], 1, 11, [66, 46, 32, 68, 114, 46, 32, 67, 46], 6⟩, ⟨[104], 2, 18, [67, 46, 32, 68, 114, 46, 32, 68, 46], 6⟩, ⟨[104], 3, 25, [68, 46, 32, 68, 114, 46, 32, 69, 46], 6⟩, ⟨[104], 4, 32, [69, 46, 32, 68, 114, 46, 32, 70, 46], 6⟩, ⟨[104], 5, 39, [70, 46, 32, 68, 114, 46, 32, 71, 46], 6⟩, ⟨[104], 6, 46, [71, 46, 32, 68, 114, 46, 32, 72, 46], 6⟩, ⟨[104], 7, 53, [72, 46, 32, 68, 114, 46, 32, 73, 46], 6⟩, ⟨[104], 8, 60, [73, 46, 32, 68, 114, 46, 32, 74, 46], 6⟩, ⟨[104], 9, 67, [74, 46, 32, 68, 114, 46, 32, 75, 46], 6⟩, ⟨[104], 10, 74, [75, 46, 32, 68, 114, 46, 32, 76, 46], 6⟩, ⟨[104], 11, 81, [76, 46, 32, 68, 114, 46, 32, 77, 46], 6⟩, ⟨[104], 12, 88, [77, 46, 32, 68, 114, 46, 32, 78, 46], 6⟩, ⟨[104], 13, 95, [78, 46, 32, 68, 114, 46, 32, 79, 46], 6⟩, ⟨[104], 14, 102, [79, 46, 32, 68, 114, 46, 32, 80, 46], 6⟩, ⟨[104], 15, 109, [80, 46, 32, 68, 114, 46, 32, 81, 46], 6⟩], [⟨[81, 46], 3, 116⟩, ⟨[68, 114, 46, 32, 82, 46], 4, 102⟩], 7, 16, 116, [81, 46], 3, 7⟩ : ChunkState) ⟨[68, 114, 46, 32, 83, 46], 4, 108⟩
        = (⟨[⟨[104], 0, 0, [68, 114, 46, 32, 65, 46, 32, 68, 114, 46, 32, 66, 46], 8⟩, ⟨[104], 1, 11, [66, 46, 32, 68, 114, 46, 32, 67, 46], 6⟩, ⟨[104], 2, 18, [67, 46, 32, 68, 114, 46, 32, 68, 46], 6⟩, ⟨[104], 3, 25, [68, 46, 32, 68, 114, 46, 32, 69, 46], 6⟩, ⟨[104], 4, 32, [69, 46, 32, 68, 114, 46, 32, 70, 46], 6⟩, ⟨[104], 5, 39, [70, 46, 32, 68, 114, 46, 32, 71, 46], 6⟩, ⟨[104], 6, 46, [71, 46, 32, 68, 114, 46, 32, 72, 46], 6⟩, ⟨[104], 7, 53, [72, 46, 32, 68, 114, 46, 32, 73, 46], 6⟩, ⟨[104], 8, 60, [73, 46, 32, 68, 114, 46, 32, 74, 46], 6⟩, ⟨[104], 9, 67, [74, 46, 32, 68, 114, 46, 32, 75, 46], 6⟩, ⟨[104], 10, 74, [75, 46, 32, 68, 114, 46, 32, 76, 46], 6⟩, ⟨[104], 11, 81, [76, 46, 32, 68, 114, 46, 32, 77, 46], 6⟩, ⟨[104], 12, 88, [77, 46, 32, 68, 114, 46, 32, 78, 46], 6⟩, ⟨[104], 13, 95, [78, 46, 32, 68, 114, 46, 32, 79, 46], 6⟩, ⟨[104], 14, 102, [79, 46, 32, 68, 114, 46, 32, 80, 46], 6⟩, ⟨[104], 15, 109, [80, 46, 32, 68, 114, 46, 32, 81, 46], 6⟩, ⟨[104], 16, 116, [81, 46, 32, 68, 114, 46, 32, 82, 46], 6⟩], [⟨[82, 46], 3, 123⟩, ⟨[68, 114, 46, 32, 83, 46], 4, 108⟩], 7, 17, 123, [82, 46], 3, 7⟩ : ChunkState) := by decide
    have hc20 : chunkStep [104] 8 3 (⟨[⟨[104], 0, 0, [68, 114, 46, 32, 65, 46, 32, 68, 114, 46, 32, 66, 46], 8⟩, ⟨[104], 1, 11, [66, 46, 32, 68, 114, 46, 32, 67, 46], 6⟩, ⟨[104], 2, 18, [67, 46, 32, 68, 114, 46, 32, 68, 46], 6⟩, ⟨[104], 3, 25, [68, 46, 32, 68, 114, 46, 32, 69, 46], 6⟩, ⟨[104], 4, 32, [69, 46, 32, 68, 114, 46, 32, 70, 46], 6⟩, ⟨[104], 5, 39, [70, 46, 32, 68, 114, 46, 32, 71, 46], 6⟩, ⟨[104], 6, 46, [71, 46, 32, 68, 114, 46, 32, 72, 46], 6⟩, ⟨[104], 7, 53, [72, 46, 32, 68, 114, 46, 32, 73, 46], 6⟩, ⟨[104], 8, 60, [73, 46, 32, 68, 114, 46, 32, 74, 46], 6⟩, ⟨[104], 9, 67, [74, 46, 32, 68, 114, 46, 32, 75, 46], 6⟩, ⟨[104], 10, 74, [75, 46, 32, 68, 114, 46, 32, 76, 46], 6⟩, ⟨[104], 11, 81, [76, 46, 32, 68, 114, 46, 32, 77, 46], 6⟩, ⟨[104], 12, 88, [77, 46, 32, 68, 114, 46, 32, 78, 46], 6⟩, ⟨[104], 13, 95, [78, 46, 32, 68, 114, 46, 32, 79, 46], 6⟩, ⟨[104], 14, 102, [79, 46, 32, 68, 114, 46, 32, 80, 46], 6⟩, ⟨[104], 15, 109, [80, 46, 32, 68, 114, 46, 32, 81, 46], 6⟩, ⟨[104], 16, 116, [81, 46, 32, 68, 114, 46, 32, 82, 46], 6⟩], [⟨[82, 46], 3, 123⟩, ⟨[68, 114, 46, 32, 83, 46], 4, 108⟩], 7, 17, 123, [82, 46], 3, 7⟩ : ChunkState) ⟨[68, 114, 46, 32, 84, 46], 4, 114⟩
        = (⟨[⟨[104], 0, 0, [68, 114, 46, 32, 65, 46, 32, 68, 114, 46, 32, 66, 46], 8⟩, ⟨[104], 1, 11, [66, 46, 32, 68, 114, 46, 32, 67, 46], 6⟩, ⟨[104], 2, 18, [67, 46, 32, 68, 114, 46, 32, 68, 46], 6⟩, ⟨[104], 3, 25, [68, 46, 32, 68, 114, 46, 32, 69, 46], 6⟩, ⟨[104], 4, 32, [69, 46, 32, 68, 114, 46, 32, 70, 46], 6⟩, ⟨[104], 5, 39, [70, 46, 32, 68, 114, 46, 32, 71, 46], 6⟩, ⟨[104], 6, 46, [71, 46, 32, 68, 114, 46, 32, 72, 46], 6⟩, ⟨[104], 7, 53, [72, 46, 32, 68, 114, 46, 32, 73, 46], 6⟩, ⟨[104], 8, 60, [73, 46, 32, 68, 114, 46, 32, 74, 46], 6⟩, ⟨[104], 9, 67, [74, 46, 32, 68, 114, 46, 32, 75, 46], 6⟩, ⟨[104], 10, 74, [75, 46, 32, 68, 114, 46, 32, 76, 46], 6⟩, ⟨[104], 11, 81, [76, 46, 32, 68, 114, 46, 32, 77, 46], 6⟩, ⟨[104], 12, 88, [77, 46, 32, 68, 114, 46, 32, 78, 46], 6⟩, ⟨[104], 13, 95, [78, 46, 32, 68, 114, 46, 32, 79, 46], 6⟩, ⟨[104], 14, 102, [79, 46, 32, 68, 114, 46, 32, 80, 46], 6⟩, ⟨[104], 15, 109, [80, 46, 32, 68, 114, 46, 32, 81, 46], 6⟩, ⟨[104], 16, 116, [81, 46, 32, 68, 114, 46, 32, 82, 46], 6⟩, ⟨[104], 17, 123, [82, 46, 32, 68, 114, 46, 32, 83, 46], 6⟩], [⟨[83, 46], 3, 130⟩, ⟨[68, 114, 46, 32, 84, 46], 4, 114⟩], 7, 18, 130, [83, 46], 3, 7⟩ : ChunkState) := by decide
    have hc21 : chunkStep [104] 8 3 (⟨[⟨[104], 0, 0, [68, 114, 46, 32, 65, 46, 32, 68, 114, 46, 32, 66, 46], 8⟩, ⟨[104], 1, 11, [66, 46, 32, 68, 114, 46, 32, 67, 46], 6⟩, ⟨[104], 2, 18, [67, 46, 32, 68, 114, 46, 32, 68, 46], 6⟩, ⟨[104], 3, 25, [68, 46, 32, 68, 114, 46, 32, 69, 46], 6⟩, ⟨[104], 4, 32, [69, 46, 32, 68, 114, 46, 32, 70, 46], 6⟩, ⟨[104], 5, 39, [70, 46, 32, 68, 114, 46, 32, 71, 46], 6⟩, ⟨[104], 6, 46, [71, 46, 32, 68, 114, 46, 32, 72, 46], 6⟩, ⟨[104], 7, 53, [72, 46, 32, 68, 114, 46, 32, 73, 46], 6⟩, ⟨[104], 8, 60, [73, 46, 32, 68, 114, 46, 32, 74, 46], 6⟩, ⟨[104], 9, 67, [74, 46, 32, 68, 114, 46, 32, 75, 46], 6⟩, ⟨[104], 10, 74, [75, 46, 32, 68, 114, 46, 32, 76, 46], 6⟩, ⟨[104], 11, 81, [76, 46, 32, 68, 114, 46, 32, 77, 46], 6⟩, ⟨[104], 12, 88, [77, 46, 32, 68, 114, 46, 32, 78, 46], 6⟩, ⟨[104], 13, 95, [78, 46, 32, 68, 114, 46, 32, 79, 46], 6⟩, ⟨[104], 14, 102, [79, 46, 32, 68, 114, 46, 32, 80, 46], 6⟩, ⟨[104], 15, 109, [80, 46, 32, 68, 114, 46, 32, 81, 46], 6⟩, ⟨[104], 16, 116, [81, 46, 32, 68, 114, 46, 32, 82, 46], 6⟩, ⟨[104], 17, 123, [82, 46, 32, 68, 114, 46, 32, 83, 46], 6⟩], [⟨[83, 46], 3, 130⟩, ⟨[68, 114, 46, 32, 84, 46], 4, 114⟩], 7, 18, 130, [83, 46], 3, 7⟩ : ChunkState) ⟨[68, 114, 46, 32, 90, 46, 46, 46], 5, 120⟩
        = (⟨[⟨[104], 0, 0, [68, 114, 46, 32, 65, 46, 32, 68, 114, 46, 32, 66, 46], 8⟩, ⟨[104], 1, 11, [66, 46, 32, 68, 114, 46, 32, 67, 46], 6⟩, ⟨[104], 2, 18, [67, 46, 32, 68, 114, 46, 32, 68, 46], 6⟩, ⟨[104], 3, 25, [68, 46, 32, 68, 114, 46, 32, 69, 46], 6⟩, ⟨[104], 4, 32, [69, 46, 32, 68, 114, 46, 32, 70, 46], 6⟩, ⟨[104], 5, 39, [70, 46, 32, 68, 114, 46, 32, 71, 46], 6⟩, ⟨[104], 6, 46, [71, 46, 32, 68, 114, 46, 32, 72, 46], 6⟩, ⟨[104], 7, 53, [72, 46, 32, 68, 114, 46, 32, 73, 46], 6⟩, ⟨[104], 8, 60, [73, 46, 32, 68, 114, 46, 32, 74, 46], 6⟩, ⟨[104], 9, 67, [74, 46, 32, 68, 114, 46, 32, 75, 46], 6⟩, ⟨[104], 10, 74, [75, 46, 32, 68, 114, 46, 32, 76, 46], 6⟩, ⟨[104], 11, 81, [76, 46, 32, 68, 114, 46, 32, 77, 46], 6⟩, ⟨[104], 12, 88, [77, 46, 32, 68, 114, 46, 32, 78, 46], 6⟩, ⟨[104], 13, 95, [78, 46, 32, 68, 114, 46, 32, 79, 46], 6⟩, ⟨[104], 14, 102, [79, 46, 32, 68, 114, 46, 32, 80, 46], 6⟩, ⟨[104], 15, 109, [80, 46, 32, 68, 114, 46, 32, 81, 46], 6⟩, ⟨[104], 16, 116, [81, 46, 32, 68, 114, 46, 32, 82, 46], 6⟩, ⟨[104], 17, 123, [82, 46, 32, 68, 114, 46, 32, 83, 46], 6⟩, ⟨[104], 18, 130, [83, 46, 32, 68, 114, 46, 32, 84, 46], 6⟩], [⟨[84, 46], 3, 137⟩, ⟨[68, 114, 46, 32, 90, 46, 46, 46], 5, 120⟩], 8, 19, 137, [84, 46], 3, 7⟩ : ChunkState) := by decide
    have hc22 : chunkStep [104] 8 3 (⟨[⟨[104], 0, 0, [68, 114, 46, 32, 65, 46, 32, 68, 114, 46, 32, 66, 46], 8⟩, ⟨[104], 1, 11, [66, 46, 32, 68, 114, 46, 32, 67, 46], 6⟩, ⟨[104], 2, 18, [67, 46, 32, 68, 114, 46, 32, 68, 46], 6⟩, ⟨[104], 3, 25, [68, 46, 32, 68, 114, 46, 32, 69, 46], 6⟩, ⟨[104], 4, 32, [69, 46, 32, 68, 114, 46, 32, 70, 46], 6⟩, ⟨[104], 5, 39, [70, 46, 32, 68, 114, 46, 32, 71, 46], 6⟩, ⟨[104], 6, 46, [71, 46, 32, 68, 114, 46, 32, 72, 46], 6⟩, ⟨[104], 7, 53, [72, 46, 32, 68, 114, 46, 32, 73, 46], 6⟩, ⟨[104], 8, 60, [73, 46, 32, 68, 114, 46, 32, 74, 46], 6⟩, ⟨[104], 9, 67, [74, 46, 32, 68, 114, 46, 32, 75, 46], 6⟩, ⟨[104], 10, 74, [75, 46, 32, 68, 114, 46, 32, 76, 46], 6⟩, ⟨[104], 11, 81, [76, 46, 32, 68, 114, 46, 32, 77, 46], 6⟩, ⟨[104], 12, 88, [77, 46, 32, 68, 114, 46, 32, 78, 46], 6⟩, ⟨[104], 13, 95, [78, 46, 32, 68, 114, 46, 32, 79, 46], 6⟩, ⟨[104], 14, 102, [79, 46, 32, 68, 114, 46, 32, 80, 46], 6⟩, ⟨[104], 15, 109, [80, 46, 32, 68, 114, 46, 32, 81, 46], 6⟩, ⟨[104], 16, 116, [81, 46, 32, 68, 114, 46, 32, 82, 46], 6⟩, ⟨[104], 17, 123, [82, 46, 32, 68, 114, 46, 32, 83, 46], 6⟩, ⟨[104], 18, 130, [83, 46, 32, 68, 114, 46, 32, 84, 46], 6⟩], [⟨[84, 46], 3, 137⟩, ⟨[68, 114, 46, 32, 90, 46, 46, 46], 5, 120⟩], 8, 19, 137, [84, 46], 3, 7⟩ : ChunkState) ⟨[68, 114, 46, 32, 89, 46], 4, 128⟩
        = (⟨[⟨[104], 0, 0, [68, 114, 46, 32, 65, 46, 32, 68, 114, 46, 32, 66, 46], 8⟩, ⟨[104], 1, 11, [66, 46, 32, 68, 114, 46, 32, 67, 46], 6⟩, ⟨[104], 2, 18, [67, 46, 32, 68, 114, 46, 32, 68, 46], 6⟩, ⟨[104], 3, 25, [68, 46, 32, 68, 114, 46, 32, 69, 46], 6⟩, ⟨[104], 4, 32, [69, 46, 32, 68, 114, 46, 32, 70, 46], 6⟩, ⟨[104], 5, 39, [70, 46, 32, 68, 114, 46, 32, 71, 46], 6⟩, ⟨[104], 6, 46, [71, 46, 32, 68, 114, 46, 32, 72, 46], 6⟩, ⟨[104], 7, 53, [72, 46, 32, 68, 114, 46, 32, 73, 46], 6⟩, ⟨[104], 8, 60, [73, 46, 32, 68, 114, 46, 32, 74, 46], 6⟩, ⟨[104], 9, 67, [74, 46, 32, 68, 114, 46, 32, 75, 46], 6⟩, ⟨[104], 10, 74, [75, 46, 32, 68, 114, 46, 32, 76, 46], 6⟩, ⟨[104], 11, 81, [76, 46, 32, 68, 114, 46, 32, 77, 46], 6⟩, ⟨[104], 12, 88, [77, 46, 32, 68, 114, 46, 32, 78, 46], 6⟩, ⟨[104], 13, 95, [78, 46, 32, 68, 114, 46, 32, 79, 46], 6⟩, ⟨[104], 14, 102, [79, 46, 32, 68, 114, 46, 32, 80, 46], 6⟩, ⟨[104], 15, 109, [80, 46, 32, 68, 114, 46, 32, 81, 46], 6⟩, ⟨[104], 16, 116, [81, 46, 32, 68, 114, 46, 32, 82, 46], 6⟩, ⟨[104], 17, 123, [82, 46, 32, 68, 114, 46, 32, 83, 46], 6⟩, ⟨[104], 18, 130, [83, 46, 32, 68, 114, 46, 32, 84, 46], 6⟩, ⟨[104], 19, 137, [84, 46, 32, 68, 114, 46, 32, 90, 46, 46, 46], 7⟩], [⟨[68, 114, 46, 32, 89, 46], 4, 128⟩], 4, 20, 128, [], 0, 11⟩ : ChunkState) := by decide
    have hc23 : chunkStep [104] 8 3 (⟨[⟨[104], 0, 0, [68, 114, 46, 32, 65, 46, 32, 68, 114, 46, 32, 66, 46], 8⟩, ⟨[104], 1, 11, [66, 46, 32, 68, 114, 46, 32, 67, 46], 6⟩, ⟨[104], 2, 18, [67, 46, 32, 68, 114, 46, 32, 68, 46], 6⟩, ⟨[104], 3, 25, [68, 46, 32, 68, 114, 46, 32, 69, 46], 6⟩, ⟨[104], 4, 32, [69, 46, 32, 68, 114, 46, 32, 70, 46], 6⟩, ⟨[104], 5, 39, [70, 46, 32, 68, 114, 46, 32, 71, 46], 6⟩, ⟨[104], 6, 46, [71, 46, 32, 68, 114, 46, 32, 72, 46], 6⟩, ⟨[104], 7, 53, [72, 46, 32, 68, 114, 46, 32, 73, 46], 6⟩, ⟨[104], 8, 60, [73, 46, 32, 68, 114, 46, 32, 74, 46], 6⟩, ⟨[104], 9, 67, [74, 46, 32, 68, 114, 46, 32, 75, 46], 6⟩, ⟨[104], 10, 74, [75, 46, 32, 68, 114, 46, 32, 76, 46], 6⟩, ⟨[104], 11, 81, [76, 46, 32, 68, 114, 46, 32, 77, 46], 6⟩, ⟨[104], 12, 88, [77, 46, 32, 68, 114, 46, 32, 78, 46], 6⟩, ⟨[104], 13, 95, [78, 46, 32, 68, 114, 46, 32, 79, 46], 6⟩, ⟨[104], 14, 102, [79, 46, 32, 68, 114, 46, 32, 80, 46], 6⟩, ⟨[104], 15, 109, [80, 46, 32, 68, 114, 46, 32, 81, 46], 6⟩, ⟨[104], 16, 116, [81, 46, 32, 68, 114, 46, 32, 82, 46], 6⟩, ⟨[104], 17, 123, [82, 46, 32, 68, 114, 46, 32, 83, 46], 6⟩, ⟨[104], 18, 130, [83, 46, 32, 68, 114, 46, 32, 84, 46], 6⟩, ⟨[104], 19, 137, [84, 46, 32, 68, 114, 46, 32, 90, 46, 46, 46], 7⟩], [⟨[68, 114, 46, 32, 89, 46], 4, 128⟩], 4, 20, 128, [], 0, 11⟩ : ChunkState) ⟨[68, 114, 46, 32, 88, 46], 4, 134⟩
        = (⟨[⟨[104], 0, 0, [68, 114, 46, 32, 65, 46, 32, 68, 114, 46, 32, 66, 46], 8⟩, ⟨[104], 1, 11, [66, 46, 32, 68, 114, 46, 32, 67, 46], 6⟩, ⟨[104], 2, 18, [67, 46, 32, 68, 114, 46, 32, 68, 46], 6⟩, ⟨[104], 3, 25, [68, 46, 32, 68, 114, 46, 32, 69, 46], 6⟩, ⟨[104], 4, 32, [69, 46, 32, 68, 114, 46, 32, 70, 46], 6⟩, ⟨[104], 5, 39, [70, 46, 32, 68, 114, 46, 32, 71, 46], 6⟩, ⟨[104], 6, 46, [71, 46, 32, 68, 114, 46, 32, 72, 46], 6⟩, ⟨[104], 7, 53, [72, 46, 32, 68, 114, 46, 32, 73, 46], 6⟩, ⟨[104], 8, 60, [73, 46, 32, 68, 114, 46, 32, 74, 46], 6⟩, ⟨[104], 9, 67, [74, 46, 32, 68, 114, 46, 32, 75, 46], 6⟩, ⟨[104], 10, 74, [75, 46, 32, 68, 114, 46, 32, 76, 46], 6⟩, ⟨[104], 11, 81, [76, 46, 32, 68, 114, 46, 32, 77, 46], 6⟩, ⟨[104], 12, 88, [77, 46, 32, 68, 114, 46, 32, 78, 46], 6⟩, ⟨[104], 13, 95, [78, 46, 32, 68, 114, 46, 32, 79, 46], 6⟩, ⟨[104], 14, 102, [79, 46, 32, 68, 114, 46, 32, 80, 46], 6⟩, ⟨[104], 15, 109, [80, 46, 32, 68, 114, 46, 32, 81, 46], 6⟩, ⟨[104], 16, 116, [81, 46, 32, 68, 114, 46, 32, 82, 46], 6⟩, ⟨[104], 17, 123, [82, 46, 32, 68, 114, 46, 32, 83, 46], 6⟩, ⟨[104], 18, 130, [83, 46, 32, 68, 114, 46, 32, 84, 46], 6⟩, ⟨[104], 19, 137, [84, 46, 32, 68, 114, 46, 32, 90, 46, 46, 46], 7⟩], [⟨[68, 114, 46, 32, 89, 46], 4, 128⟩, ⟨[68, 114, 46, 32, 88, 46], 4, 134⟩], 8, 20, 128, [], 0, 11⟩ : ChunkState) := by decide
    have hfold : List.foldl (chunkStep [104] 8 3) initChunkState [⟨[68, 114, 46, 32, 65, 46], 4, 0⟩, ⟨[68, 114, 46, 32, 66, 46], 4, 6⟩, ⟨[68, 114, 46, 32, 67, 46], 4, 12⟩, ⟨[68, 114, 46, 32, 68, 46], 4, 18⟩, ⟨[68, 114, 46, 32, 69, 46], 4, 24⟩, ⟨[68, 114, 46, 32, 70, 46], 4, 30⟩, ⟨[68, 114, 46, 32, 71, 46], 4, 36⟩, ⟨[68, 114, 46, 32, 72, 46], 4, 42⟩, ⟨[68, 114, 46, 32, 73, 46], 4, 48⟩, ⟨[68, 114, 46, 32, 74, 46], 4, 54⟩, ⟨[68, 114, 46, 32, 75, 46], 4, 60⟩, ⟨[68, 114, 46, 32, 76, 46], 4, 66⟩, ⟨[68, 114, 46, 32, 77, 46], 4, 72⟩, ⟨[68, 114, 46, 32, 78, 46], 4, 78⟩, ⟨[68, 114, 46, 32, 79, 46], 4, 84⟩, ⟨[68, 114, 46, 32, 80, 46], 4, 90⟩, ⟨[68, 114, 46, 32, 81, 46], 4, 96⟩, ⟨[68, 114, 46, 32, 82, 46], 4, 102⟩, ⟨[68, 114, 46, 32, 83, 46], 4, 108⟩, ⟨[68, 114, 46, 32, 84, 46], 4, 114⟩, ⟨[68, 114, 46, 32, 90, 46, 46, 46], 5, 120⟩, ⟨[68, 114, 46, 32, 89, 46], 4, 128⟩, ⟨[68, 114, 46, 32, 88, 46], 4, 134⟩]
        = (⟨[⟨[104], 0, 0, [68, 114, 46, 32, 65, 46, 32, 68, 114, 46, 32, 66, 46], 8⟩, ⟨[104], 1, 11, [66, 46, 32, 68, 114, 46, 32, 67, 46], 6⟩, ⟨[104], 2, 18, [67, 46, 32, 68, 114, 46, 32, 68, 46], 6⟩, ⟨[104], 3, 25, [68, 46, 32, 68, 114, 46, 32, 69, 46], 6⟩, ⟨[104], 4, 32, [69, 46, 32, 68, 114, 46, 32, 70, 46], 6⟩, ⟨[104], 5, 39, [70, 46, 32, 68, 114, 46, 32, 71, 46], 6⟩, ⟨[104], 6, 46, [71, 46, 32, 68, 114, 46, 32, 72, 46], 6⟩, ⟨[104], 7, 53, [72, 46, 32, 68, 114, 46, 32, 73, 46], 6⟩, ⟨[104], 8, 60, [73, 46, 32, 68, 114, 46, 32, 74, 46], 6⟩, ⟨[104], 9, 67, [74, 46, 32, 68, 114, 46, 32, 75, 46], 6⟩, ⟨[104], 10, 74, [75, 46, 32, 68, 114, 46, 32, 76, 46], 6⟩, ⟨[104], 11, 81, [76, 46, 32, 68, 114, 46, 32, 77, 46], 6⟩, ⟨[104], 12, 88, [77, 46, 32, 68, 114, 46, 32, 78, 46], 6⟩, ⟨[104], 13, 95, [78, 46, 32, 68, 114, 46, 32, 79, 46], 6⟩, ⟨[104], 14, 102, [79, 46, 32, 68, 114, 46, 32, 80, 46], 6⟩, ⟨[104], 15, 109, [80, 46, 32, 68, 114, 46, 32, 81, 46], 6⟩, ⟨[104], 16, 116, [81, 46, 32, 68, 114, 46, 32, 82, 46], 6⟩, ⟨[104], 17, 123, [82, 46, 32, 68, 114, 46, 32, 83, 46], 6⟩, ⟨[104], 18, 130, [83, 46, 32, 68, 114, 46, 32, 84, 46], 6⟩, ⟨[104], 19, 137, [84, 46, 32, 68, 114, 46, 32, 90, 46, 46, 46], 7⟩], [⟨[68, 114, 46, 32, 89, 46], 4, 128⟩, ⟨[68, 114, 46, 32, 88, 46], 4, 134⟩], 8, 20, 128, [], 0, 11⟩ : ChunkState) := by
      rw [show initChunkState = (⟨[], [], 0, 0, 0, [], 0, 0⟩ : ChunkState) from rfl]
      rw [List.foldl_cons, hc1, List.foldl_cons, hc2, List.foldl_cons, hc3, List.foldl_cons, hc4, List.foldl_cons, hc5, List.foldl_cons, hc6, List.foldl_cons, hc7, List.foldl_cons, hc8, List.foldl_cons, hc9, List.foldl_cons, hc10, List.foldl_cons, hc11, List.foldl_cons, hc12, List.foldl_cons, hc13, List.foldl_cons, hc14, List.foldl_cons, hc15, List.foldl_cons, hc16, List.foldl_cons, hc17, List.foldl_cons, hc18, List.foldl_cons, hc19, List.foldl_cons, hc20, List.foldl_cons, hc21, List.foldl_cons, hc22, List.foldl_cons, hc23]
      rfl
    have hdoc : chunkDocument 8 3 [104] wChunkContent = [⟨[104], 0, 0, [68, 114, 46, 32, 65, 46, 32, 68, 114, 46, 32, 66, 46], 8⟩,
       ⟨[104], 1, 11, [66, 46, 32, 68, 114, 46, 32, 67, 46], 6⟩,
       ⟨[104], 2, 18, [67, 46, 32, 68, 114, 46, 32, 68, 46], 6⟩,
       ⟨[104], 3, 25, [68, 46, 32, 68, 114, 46, 32, 69, 46], 6⟩,
       ⟨[104], 4, 32, [69, 46, 32, 68, 114, 46, 32, 70, 46], 6⟩,
       ⟨[104], 5, 39, [70, 46, 32, 68, 114, 46, 32, 71, 46], 6⟩,
       ⟨[104], 6, 46, [71, 46, 32, 68, 114, 46, 32, 72, 46], 6⟩,
       ⟨[104], 7, 53, [72, 46, 32, 68, 114, 46, 32, 73, 46], 6⟩,
       ⟨[104], 8, 60, [73, 46, 32, 68, 114, 46, 32, 74, 46], 6⟩,
       ⟨[104], 9, 67, [74, 46, 32, 68, 114, 46, 32, 75, 46], 6⟩,
       ⟨[104], 10, 74, [75, 46, 32, 68, 114, 46, 32, 76, 46], 6⟩,
       ⟨[104], 11, 81, [76, 46, 32, 68, 114, 46, 32, 77, 46], 6⟩,
       ⟨[104], 12, 88, [77, 46, 32, 68, 114, 46, 32, 78, 46], 6⟩,
       ⟨[104], 13, 95, [78, 46, 32, 68, 114, 46, 32, 79, 46], 6⟩,
       ⟨[104], 14, 102, [79, 46, 32, 68, 114, 46, 32, 80, 46], 6⟩,
       ⟨[104], 15, 109, [80, 46, 32, 68, 114, 46, 32, 81, 46], 6⟩,
       ⟨[104], 16, 116, [81, 46, 32, 68, 114, 46, 32, 82, 46], 6⟩,
       ⟨[104], 17, 123, [82, 46, 32, 68, 114, 46, 32, 83, 46], 6⟩,
       ⟨[104], 18, 130, [83, 46, 32, 68, 114, 46, 32, 84, 46], 6⟩,
       ⟨[104], 19, 137, [84, 46, 32, 68, 114, 46, 32, 90, 46, 46, 46], 7⟩,
       ⟨[104], 20, 128, [68, 114, 46, 32, 89, 46, 32, 68, 114, 46, 32, 88, 46], 8⟩] := by
      rw [chunkDocument, if_neg (by decide : ¬ trimUnits wChunkContent = [])]
      rw [show trimUnits wChunkContent = wChunkContent from by decide]
      rw [if_neg (by decide : ¬ estimateTokenCount wChunkContent ≤ 8), hseg]
      simp only [hfold]
      decide
    rw [hdoc] at hch
    simp only [List.chain'_cons, List.chain'_singleton] at hch
    omega



lemma extractOverlapText_zero (t : List Nat) : extractOverlapText t 0 = ([], t.length) := by
  simp [extractOverlapText]

lemma chain'_append_singleton {α : Type} {R : α → α → Prop} {l : List α} {c : α}
    (hl : List.Chain' R l) (hall : ∀ x ∈ l, R x c) : List.Chain' R (l ++ [c]) := by
  rw [List.chain'_append]
  refine ⟨hl, List.chain'_singleton c, ?_⟩
  intro x hx y hy
  simp only [List.head?_cons, Option.mem_def, Option.some.injEq] at hy
  subst hy
  exact hall x (List.mem_of_getLast?_eq_some hx)

lemma indexOfFrom_ge {text pat : List Nat} {start i : Nat}
    (h : indexOfFrom text pat start = some i) : start ≤ i := by
  unfold indexOfFrom at h
  cases hf : findSub (text.drop start) pat with
  | none => rw [hf] at h; simp at h
  | some j => rw [hf] at h; simp only [Option.map_some', Option.some.injEq] at h; omega

lemma groupGo_flatten : ∀ (l cur : List Nat), (groupGo l cur).flatten = cur.reverse ++ l := by
  intro l
  induction l with
  | nil => intro cur; simp [groupGo]
  | cons u rest ih =>
    intro cur
    cases cur with
    | nil => simp [groupGo, ih]
    | cons c cs =>
      by_cases hsp : isSpaceUnit u = isSpaceUnit c
      · simp only [groupGo, if_pos hsp, ih]
        simp
      · simp only [groupGo, if_neg hsp, List.flatten_cons, ih]
        simp

lemma splitIntoWords_length_sum (text : List Nat) :
    ((splitIntoWords text).map List.length).sum = text.length := by
  cases text with
  | nil => simp [splitIntoWords]
  | cons u rest =>
    show ((groupGo (u :: rest) []).map List.length).sum = (u :: rest).length
    rw [← List.length_flatten, groupGo_flatten]
    simp

lemma wordSplitGo_pos (mt : Nat) :
    ∀ (words : List (List Nat)) (wc : List Nat) (wordPos csp : Nat), csp ≤ wordPos →
    (∀ s ∈ wordSplitGo mt words wc wordPos csp,
       csp ≤ s.startPos ∧ s.startPos ≤ wordPos + (words.map List.length).sum) ∧
    List.Chain' (fun a b : TextSegment => a.startPos ≤ b.startPos)
      (wordSplitGo mt words wc wordPos csp) := by
  intro words
  induction words with
  | nil =>
    intro wc wordPos csp hle
    by_cases ht : trimUnits wc = []
    · simp [wordSplitGo, ht]
    · refine ⟨?_, by simp [wordSplitGo, ht]⟩
      intro s hs
      simp only [wordSplitGo, if_neg ht, List.mem_singleton] at hs
      subst hs
      exact ⟨le_refl _, by simpa using hle⟩
  | cons word rest ih =>
    intro wc wordPos csp hle
    simp only [wordSplitGo]
    by_cases hc : mt < estimateTokenCount (wc ++ word) ∧ trimUnits wc ≠ []
    · rw [if_pos hc]
      have hrec := ih word (wordPos + word.length) wordPos (Nat.le_add_right _ _)
      constructor
      · intro s hs
        rcases List.mem_cons.mp hs with h | h
        · subst h
          refine ⟨le_refl _, ?_⟩
          simp only [List.map_cons, List.sum_cons]
          omega
        · have hb := hrec.1 s h
          simp only [List.map_cons, List.sum_cons]
          omega
      · refine List.chain'_cons'.mpr ⟨?_, hrec.2⟩
        intro b hb
        have hbmem := List.mem_of_mem_head? hb
        have h2 := (hrec.1 b hbmem).1
        exact le_trans hle h2
    · rw [if_neg hc]
      have hrec := ih (wc ++ word) (wordPos + word.length) csp (by omega)
      constructor
      · intro s hs
        have hb := hrec.1 s hs
        simp only [List.map_cons, List.sum_cons]
        omega
      · exact hrec.2

lemma buildSegmentsGo_pos (mt : Nat) (content : List Nat) :
    ∀ (sentences : List (List Nat)) (currentPos : Nat),
    (∀ s ∈ buildSegmentsGo mt content sentences currentPos, currentPos ≤ s.startPos) ∧
    List.Chain' (fun a b : TextSegment => a.startPos ≤ b.startPos)
      (buildSegmentsGo mt content sentences currentPos) := by
  intro sentences
  induction sentences with
  | nil => intro currentPos; simp [buildSegmentsGo]
  | cons sentence rest ih =>
    intro currentPos
    have hstep : ∃ ap, currentPos ≤ ap ∧
        buildSegmentsGo mt content (sentence :: rest) currentPos =
          (if mt < estimateTokenCount sentence then
             wordSplitGo mt (splitIntoWords sentence) [] ap ap
           else [{ text := sentence, tokens := estimateTokenCount sentence,
                   startPos := ap }])
          ++ buildSegmentsGo mt content rest (ap + sentence.length) := by
      cases hio : indexOfFrom content (trimUnits sentence) currentPos with
      | some i =>
        refine ⟨i, indexOfFrom_ge hio, ?_⟩
        simp only [buildSegmentsGo, hio]
      | none =>
        refine ⟨currentPos, le_refl _, ?_⟩
        simp only [buildSegmentsGo, hio]
    obtain ⟨ap, hcap, heq⟩ := hstep
    rw [heq]
    have hblock : (∀ s ∈ (if mt < estimateTokenCount sentence then
             wordSplitGo mt (splitIntoWords sentence) [] ap ap
           else [{ text := sentence, tokens := estimateTokenCount sentence,
                   startPos := ap }]),
          ap ≤ s.startPos ∧ s.startPos ≤ ap + sentence.length) ∧
        List.Chain' (fun a b : TextSegment => a.startPos ≤ b.startPos)
          (if mt < estimateTokenCount sentence then
             wordSplitGo mt (splitIntoWords sentence) [] ap ap
           else [{ text := sentence, tokens := estimateTokenCount sentence,
                   startPos := ap }]) := by
      by_cases hbig : mt < estimateTokenCount sentence
      · rw [if_pos hbig]
        have h := wordSplitGo_pos mt (splitIntoWords sentence) [] ap ap (le_refl _)
        refine ⟨fun s hs => ?_, h.2⟩
        have hb := h.1 s hs
        rw [splitIntoWords_length_sum] at hb
        exact hb
      · rw [if_neg hbig]
        refine ⟨fun s hs => ?_, List.chain'_singleton _⟩
        simp only [List.mem_singleton] at hs
        subst hs
        exact ⟨le_refl _, Nat.le_add_right _ _⟩
    have hrec := ih (ap + sentence.length)
    constructor
    · intro s hs
      rcases List.mem_append.mp hs with h | h
      · exact le_trans hcap (hblock.1 s h).1
      · exact le_trans (by omega) (hrec.1 s h)
    · rw [List.chain'_append]
      refine ⟨hblock.2, hrec.2, ?_⟩
      intro x hx y hy
      have hxm := List.mem_of_getLast?_eq_some hx
      have hym := List.mem_of_mem_head? hy
      have h1 := (hblock.1 x hxm).2
      have h2 := hrec.1 y hym
      omega

lemma buildSegments_pairwise (mt : Nat) (content : List Nat) :
    List.Pairwise (fun a b : TextSegment => a.startPos ≤ b.startPos)
      (buildSegments mt content) := by
  haveI : IsTrans TextSegment (fun a b : TextSegment => a.startPos ≤ b.startPos) :=
    ⟨fun _ _ _ h1 h2 => le_trans h1 h2⟩
  rw [buildSegments]
  exact List.chain'_iff_pairwise.mp
    ((buildSegmentsGo_pos mt content (splitIntoSentences content) 0).2)

lemma chunkStep_seq (h : List Nat) (mt ot : Nat) (st : ChunkState) (seg : TextSegment)
    (hseq : st.seq = st.chunks.length)
    (hmap : st.chunks.map DocumentChunk.seq = List.range st.chunks.length) :
    (chunkStep h mt ot st seg).seq = (chunkStep h mt ot st seg).chunks.length ∧
    (chunkStep h mt ot st seg).chunks.map DocumentChunk.seq
      = List.range (chunkStep h mt ot st seg).chunks.length := by
  by_cases h1 : mt < st.currentTokens + seg.tokens
  · by_cases h2 : st.currentChunkSegments = []
    · by_cases h3 : st.overlapText = []
      · simp [chunkStep, flushChunk, h1, h2, h3, hseq, hmap]
      · cases hgl : st.chunks.getLast? with
        | none => simp [chunkStep, flushChunk, h1, h2, h3, hgl, hseq, hmap]
        | some lc => simp [chunkStep, flushChunk, h1, h2, h3, hgl, hseq, hmap]
    · by_cases h3 : (extractOverlapText
          (joinSpace (st.currentChunkSegments.map (fun s => s.text))) ot).1 = []
      · simp [chunkStep, flushChunk, h1, h2, h3, hseq, hmap, List.range_succ]
      · cases hgl : (st.chunks ++
            [({ hash := h, seq := st.seq, pos := st.chunkStartPos,
                text := joinSpace (st.currentChunkSegments.map (fun s => s.text)),
                tokenCount := estimateTokenCount
                  (joinSpace (st.currentChunkSegments.map (fun s => s.text))) } :
              DocumentChunk)]).getLast? with
        | none => simp [chunkStep, flushChunk, h1, h2, h3, hgl, hseq, hmap, List.range_succ]
        | some lc => simp [chunkStep, flushChunk, h1, h2, h3, hgl, hseq, hmap, List.range_succ]
  · by_cases h4 : st.currentChunkSegments = []
    · simp [chunkStep, h1, h4, hseq, hmap]
    · simp [chunkStep, h1, h4, hseq, hmap]

lemma chunkStep_zero_spec (h : List Nat) (mt : Nat) (st : ChunkState) (seg : TextSegment)
    (hOv : st.overlapText = []) :
    (chunkStep h mt 0 st seg).overlapText = [] ∧
    (((chunkStep h mt 0 st seg).chunks = st.chunks ∧
        ((chunkStep h mt 0 st seg).chunkStartPos = st.chunkStartPos ∨
         (chunkStep h mt 0 st seg).chunkStartPos = seg.startPos)) ∨
     ((chunkStep h mt 0 st seg).chunks
        = st.chunks ++
          [{ hash := h, seq := st.seq, pos := st.chunkStartPos,
             text := joinSpace (st.currentChunkSegments.map (fun s => s.text)),
             tokenCount := estimateTokenCount
               (joinSpace (st.currentChunkSegments.map (fun s => s.text))) }] ∧
      (chunkStep h mt 0 st seg).chunkStartPos = seg.startPos)) := by
  by_cases h1 : mt < st.currentTokens + seg.tokens
  · by_cases h2 : st.currentChunkSegments = []
    · simp [chunkStep, flushChunk, h1, h2, hOv]
    · simp [chunkStep, flushChunk, h1, h2, hOv, extractOverlapText_zero]
  · by_cases h4 : st.currentChunkSegments = []
    · simp [chunkStep, h1, h4, hOv]
    · simp [chunkStep, h1, h4, hOv]

lemma chunkFold_seq (h : List Nat) (mt ot : Nat) :
    ∀ (segs : List TextSegment) (st : ChunkState),
      st.seq = st.chunks.length →
      st.chunks.map DocumentChunk.seq = List.range st.chunks.length →
      (segs.foldl (chunkStep h mt ot) st).seq
          = (segs.foldl (chunkStep h mt ot) st).chunks.length ∧
      (segs.foldl (chunkStep h mt ot) st).chunks.map DocumentChunk.seq
          = List.range (segs.foldl (chunkStep h mt ot) st).chunks.length := by
  intro segs
  induction segs with
  | nil => intro st hseq hmap; exact ⟨hseq, hmap⟩
  | cons seg rest ih =>
    intro st hseq hmap
    rw [List.foldl_cons]
    have hstep := chunkStep_seq h mt ot st seg hseq hmap
    exact ih (chunkStep h mt ot st seg) hstep.1 hstep.2

lemma chunkFold_zero_inv (h : List Nat) (mt : Nat) :
    ∀ (segs : List TextSegment) (st : ChunkState),
      st.overlapText = [] →
      List.Chain' (fun a b : DocumentChunk => a.pos ≤ b.pos) st.chunks →
      (∀ c ∈ st.chunks, c.pos ≤ st.chunkStartPos) →
      (∀ s ∈ segs, st.chunkStartPos ≤ s.startPos) →
      List.Pairwise (fun a b : TextSegment => a.startPos ≤ b.startPos) segs →
      (segs.foldl (chunkStep h mt 0) st).overlapText = [] ∧
      List.Chain' (fun a b : DocumentChunk => a.pos ≤ b.pos)
        (segs.foldl (chunkStep h mt 0) st).chunks ∧
      (∀ c ∈ (segs.foldl (chunkStep h mt 0) st).chunks,
        c.pos ≤ (segs.foldl (chunkStep h mt 0) st).chunkStartPos) := by
  intro segs
  induction segs with
  | nil => intro st hOv hch hbd _ _; exact ⟨hOv, hch, hbd⟩
  | cons seg rest ih =>
    intro st hOv hch hbd hlo hpw
    rw [List.foldl_cons]
    obtain ⟨hOv', hcase⟩ := chunkStep_zero_spec h mt st seg hOv
    have hseg0 : st.chunkStartPos ≤ seg.startPos := hlo seg (List.mem_cons_self _ _)
    have hpw' := (List.pairwise_cons.mp hpw)
    rcases hcase with ⟨hchunks, hcsp⟩ | ⟨hchunks, hcsp⟩
    · refine ih (chunkStep h mt 0 st seg) hOv' ?_ ?_ ?_ hpw'.2
      · rw [hchunks]; exact hch
      · intro c hc
        rw [hchunks] at hc
        rcases hcsp with hc1 | hc1
        · rw [hc1]; exact hbd c hc
        · rw [hc1]; exact le_trans (hbd c hc) hseg0
      · intro s hs
        rcases hcsp with hc1 | hc1
        · rw [hc1]; exact hlo s (List.mem_cons_of_mem _ hs)
        · rw [hc1]; exact hpw'.1 s hs
    · refine ih (chunkStep h mt 0 st seg) hOv' ?_ ?_ ?_ hpw'.2
      · rw [hchunks]
        exact chain'_append_singleton hch (fun x hx => hbd x hx)
      · intro c hc
        rw [hchunks] at hc
        rw [hcsp]
        rcases List.mem_append.mp hc with hcm | hcm
        · exact le_trans (hbd c hcm) hseg0
        · simp only [List.mem_singleton] at hcm
          subst hcm
          exact hseg0
      · intro s hs
        rw [hcsp]
        exact hpw'.1 s hs

/-- C9 (amended): every chunk list produced by `chunkDocument` carries
consecutive sequence numbers `0, 1, 2, …` for any overlap budget; and when
the configured overlap token budget is zero, the recorded chunk start
positions are non-decreasing. -/
theorem chunk_document_seq_and_pos (maxTokens overlapTarget : Nat)
    (hash content : List Nat) :
    (chunkDocument maxTokens overlapTarget hash content).map DocumentChunk.seq
      = List.range (chunkDocument maxTokens overlapTarget hash content).length ∧
    List.Chain' (fun a b : DocumentChunk => a.pos ≤ b.pos)
      (chunkDocument maxTokens 0 hash content) := by
  constructor
  · by_cases h1 : trimUnits content = []
    · rw [chunkDocument, if_pos h1]
      rfl
    · rw [chunkDocument, if_neg h1]
      simp only []
      by_cases h2 : estimateTokenCount (trimUnits content) ≤ maxTokens
      · rw [if_pos h2]
        rfl
      · rw [if_neg h2]
        have hinit1 : initChunkState.seq = initChunkState.chunks.length := rfl
        have hinit2 : initChunkState.chunks.map DocumentChunk.seq
            = List.range initChunkState.chunks.length := rfl
        have hfseq := chunkFold_seq hash maxTokens overlapTarget
          (buildSegments maxTokens (trimUnits content)) initChunkState hinit1 hinit2
        by_cases h3 : ((buildSegments maxTokens (trimUnits content)).foldl
            (chunkStep hash maxTokens overlapTarget) initChunkState).currentChunkSegments
            = []
        · rw [if_pos h3]
          exact hfseq.2
        · rw [if_neg h3]
          rw [List.map_append, List.length_append, hfseq.2, List.map_singleton,
            hfseq.1, List.length_singleton, List.range_succ]
  · by_cases h1 : trimUnits content = []
    · rw [chunkDocument, if_pos h1]
      exact List.chain'_nil
    · rw [chunkDocument, if_neg h1]
      simp only []
      by_cases h2 : estimateTokenCount (trimUnits content) ≤ maxTokens
      · rw [if_pos h2]
        exact List.chain'_singleton _
      · rw [if_neg h2]
        have hinv := chunkFold_zero_inv hash maxTokens
          (buildSegments maxTokens (trimUnits content)) initChunkState rfl
          List.chain'_nil (by intro c hc; simp [initChunkState] at hc)
          (by intro s hs; exact Nat.zero_le _)
          (buildSegments_pairwise maxTokens (trimUnits content))
        by_cases h3 : ((buildSegments maxTokens (trimUnits content)).foldl
            (chunkStep hash maxTokens 0) initChunkState).currentChunkSegments = []
        · rw [if_pos h3]
          exact hinv.2.1
        · rw [if_neg h3]
          exact chain'_append_singleton hinv.2.1 (fun x hx => hinv.2.2 x hx)



lemma ceil_q_div20 (n : ℕ) : ⌈(n : ℚ) / 20⌉ = (((n + 19) / 20 : ℕ) : ℤ) := by
  have hf := Rat.floor_intCast_div_natCast (-(n : ℤ)) 20
  have hneg : -((n : ℚ) / 20) = ((-(n : ℤ) : ℤ) : ℚ) / ((20 : ℕ) : ℚ) := by
    push_cast
    ring
  have hc : ⌈(n : ℚ) / 20⌉ = -⌊-((n : ℚ) / 20)⌋ := by
    rw [Int.floor_neg]
    ring
  rw [hc, hneg, hf]
  omega

lemma ceil_q_div2 (n : ℕ) : ⌈(n : ℚ) / 2⌉ = (((n + 1) / 2 : ℕ) : ℤ) := by
  have hf := Rat.floor_intCast_div_natCast (-(n : ℤ)) 2
  have hneg : -((n : ℚ) / 2) = ((-(n : ℤ) : ℤ) : ℚ) / ((2 : ℕ) : ℚ) := by
    push_cast
    ring
  have hc : ⌈(n : ℚ) / 2⌉ = -⌊-((n : ℚ) / 2)⌋ := by
    rw [Int.floor_neg]
    ring
  rw [hc, hneg, hf]
  omega

lemma english_mul_13 (w c : ℕ) :
    ((w : ℚ) - min (w : ℚ) ((c : ℚ) / 2)) * 1.3
      = ((13 * (2 * w - min (2 * w) c) : ℕ) : ℚ) / 20 := by
  rcases le_total (2 * w) c with h | h
  · have hn : min (2 * w) c = 2 * w := min_eq_left h
    have hq : min (w : ℚ) ((c : ℚ) / 2) = (w : ℚ) := by
      refine min_eq_left ?_
      rw [le_div_iff₀ (by norm_num : (0:ℚ) < 2)]
      have : ((2 * w : ℕ) : ℚ) ≤ ((c : ℕ) : ℚ) := by exact_mod_cast h
      push_cast at this
      linarith
    rw [hn, hq]
    simp
  · have hn : min (2 * w) c = c := min_eq_right h
    have hq : min (w : ℚ) ((c : ℚ) / 2) = (c : ℚ) / 2 := by
      refine min_eq_right ?_
      rw [div_le_iff₀ (by norm_num : (0:ℚ) < 2)]
      have : ((c : ℕ) : ℚ) ≤ ((2 * w : ℕ) : ℚ) := by exact_mod_cast h
      push_cast at this
      linarith
    rw [hn, hq]
    rw [Nat.cast_mul, Nat.cast_sub h]
    push_cast
    ring

/-- C3 (counterexample): on the single CJK character `"日"` (U+65E5) the code
returns `2` — the lone CJK word run is still charged a full word-multiplier
token (`ceil((1 - 1/2) * 1.3) = 1`) on top of the CJK per-character token —
while the claim's formula `ceil(words_non_cjk * 1.3) + cjk + ceil(punct * 0.5)`
gives `0 + 1 + 0 = 1`. -/
theorem estimate_token_count_claim_false :
    estimateTokenCount [0x65E5] = 2 ∧ specEstimateTokenCount [0x65E5] = 1 := by
  constructor
  · decide
  · show ⌈(countRuns isWordAscii [0x65E5] false : ℚ) * 1.3⌉ + cjkUnitCount [0x65E5]
        + ⌈(punctUnitCount [0x65E5] : ℚ) * 0.5⌉ = 1
    rw [show countRuns isWordAscii [0x65E5] false = 0 from rfl,
        show cjkUnitCount [0x65E5] = 1 from rfl,
        show punctUnitCount [0x65E5] = 0 from rfl]
    norm_num

/-- C3 (amended): for every text, `estimateTokenCount` equals
`ceil((words - min(words, cjk/2)) * 1.3) + cjk + ceil(punct * 0.5)` computed
exactly over `ℚ`, where `words` counts word-or-CJK runs, `cjk` counts CJK
code units, and `punct` counts units that are neither word, whitespace nor
CJK.  (The source's `cjkCount > 0` guard is redundant: for `cjk = 0` the
subtrahend `min(words, 0)` is already `0`.) -/
theorem estimate_token_count_formula (text : List Nat) :
    (estimateTokenCount text : ℤ)
      = ⌈((wordRunCount text : ℚ)
            - min (wordRunCount text : ℚ) ((cjkUnitCount text : ℚ) / 2)) * 1.3⌉
        + cjkUnitCount text + ⌈(punctUnitCount text : ℚ) * 0.5⌉ := by
  by_cases h : text = []
  · subst h
    rw [show wordRunCount ([] : List Nat) = 0 from rfl,
        show cjkUnitCount ([] : List Nat) = 0 from rfl,
        show punctUnitCount ([] : List Nat) = 0 from rfl,
        show estimateTokenCount ([] : List Nat) = 0 from rfl]
    norm_num
  · rw [estimateTokenCount, if_neg h]
    simp only []
    rw [english_mul_13, ceil_q_div20]
    rw [show (punctUnitCount text : ℚ) * 0.5 = (punctUnitCount text : ℚ) / 2 by ring,
        ceil_q_div2]
    push_cast
    ring



lemma trimUnits_eq_nil_of_all_space {content : List Nat}
    (h : ∀ u ∈ content, isSpaceUnit u = true) : trimUnits content = [] := by
  rw [trimUnits]
  have h1 : content.dropWhile isSpaceUnit = [] := List.dropWhile_eq_nil_iff.mpr h
  simp [h1]

/-- C6: `chunkDocument` returns an empty chunk list on empty or
whitespace-only content; and on content whose trimmed form is nonempty with
an estimated token count at or below `maxTokens`, it returns exactly one
chunk with `seq 0`, `pos 0`, the trimmed content as text, and that estimate
as its token count. -/
theorem chunk_document_empty_and_single (maxTokens overlapTarget : Nat)
    (hash content : List Nat) :
    ((∀ u ∈ content, isSpaceUnit u = true) →
        chunkDocument maxTokens overlapTarget hash content = []) ∧
    (trimUnits content ≠ [] →
      estimateTokenCount (trimUnits content) ≤ maxTokens →
      chunkDocument maxTokens overlapTarget hash content
        = [{ hash := hash, seq := 0, pos := 0, text := trimUnits content,
             tokenCount := estimateTokenCount (trimUnits content) }]) := by
  constructor
  · intro h
    rw [chunkDocument, if_pos (trimUnits_eq_nil_of_all_space h)]
  · intro h1 h2
    rw [chunkDocument, if_neg h1]
    simp only []
    rw [if_pos h2]

/-- Witness for `chunk_document_empty_and_single`: a single space is
whitespace-only and chunks to nothing; the one-letter document `"a"`
(estimate `2 ≤ 8`) chunks to a single chunk at `seq 0`, `pos 0`. -/
theorem chunk_document_empty_and_single_witness :
    chunkDocument 8 1 [104] [32] = [] ∧
    chunkDocument 8 1 [104] [97]
      = [{ hash := [104], seq := 0, pos := 0, text := [97], tokenCount := 2 }] := by
  constructor
  · exact (chunk_document_empty_and_single 8 1 [104] [32]).1 (by decide)
  · have h := (chunk_document_empty_and_single 8 1 [104] [97]).2 (by decide) (by decide)
    rw [h]
    decide

end QMD
